import Mathlib

/-!
# OpenBTS-UMTS call and SMS control: a shallow embedding

The definitions below follow `Control/CallControl.cpp` and `Control/SMSControl.cpp`.
Collaborators that live outside these two files (the logical channel, the SIP engine of a
transaction, the transaction table, the message parsers) are represented by the events the
control code causes on them and by scripts of the answers they give.
-/

namespace OpenBTS

/-! ## RTP port allocation (`allocateRTPPorts`) -/

/-- Width of the C++ type `unsigned`: arithmetic on it is modulo this number. -/
def UNSIGNED : Nat := 2 ^ 32

/-- The two configuration keys read by `allocateRTPPorts`, as stored (`gConfig.getNum`). -/
structure RTPConfig where
  Start : Nat
  Range : Nat
  deriving DecidableEq, Repr

/-- The local `base` of `allocateRTPPorts`: the key `RTP.Start` converted to `unsigned`. -/
def RTPConfig.base (cfg : RTPConfig) : Nat := cfg.Start % UNSIGNED

/-- The local `range` of `allocateRTPPorts`: the key `RTP.Range` converted to `unsigned`. -/
def RTPConfig.range (cfg : RTPConfig) : Nat := cfg.Range % UNSIGNED

/-- The local `top = base + range` of `allocateRTPPorts`, computed in `unsigned`. -/
def RTPConfig.top (cfg : RTPConfig) : Nat := (cfg.base + cfg.range) % UNSIGNED

/-- Initialiser of the function-local static `port`:
`base + 2 * (random() % (range / 2))`, stored in an `unsigned`.
The remainder by zero that arises for `range < 2` has no defined result: `none`. -/
def initialPort (cfg : RTPConfig) (rnd : Nat) : Option Nat :=
  if cfg.range / 2 = 0 then none
  else some ((cfg.base + 2 * (rnd % (cfg.range / 2))) % UNSIGNED)

/-- The locked section of `allocateRTPPorts`: given the static `port`, the returned value and
the new value of the static. -/
def advancePort (cfg : RTPConfig) (port : Nat) : Nat × Nat :=
  let retVal := port
  let port := (port + 2) % UNSIGNED
  let port := if port ≥ cfg.top then cfg.base else port
  (retVal, port)

/-- One call of `allocateRTPPorts`. `static` is the function-local static `port`
(`none` before the first call), `rnd` the value `random()` gives if it is called.
The result is the returned port and the static afterwards. -/
def allocateRTPPorts (cfg : RTPConfig) (rnd : Nat) (static : Option Nat) : Option (Nat × Nat) :=
  match static with
  | some port => some (advancePort cfg port)
  | none =>
    match initialPort cfg rnd with
    | none => none
    | some port => some (advancePort cfg port)

/-- The ports returned by `n` successive calls of `allocateRTPPorts` under one configuration,
starting from the given static, and the static afterwards. -/
def allocateSeq (cfg : RTPConfig) (rnd : Nat) : Nat → Option Nat → Option (List Nat × Option Nat)
  | 0, static => some ([], static)
  | n + 1, static =>
    match allocateRTPPorts cfg rnd static with
    | none => none
    | some (retVal, port) =>
      match allocateSeq cfg rnd n (some port) with
      | none => none
      | some (rest, s) => some (retVal :: rest, s)


/-! ## Data model -/

namespace GSM

/-- Modelled from the spec: the radio-leg call-control states of a transaction
(`GSM/GSMCommon.h` is not among the sources; the states are those the spec lists and the
control code names). -/
inductive CallState where
  | NullState
  | Paging
  | MOCInitiated
  | MOCProceeding
  | MTCConfirmed
  | CallReceived
  | CallPresent
  | ConnectIndication
  | Active
  | DisconnectIndication
  | ReleaseRequest
  | SMSDelivering
  | SMSSubmitting
  deriving DecidableEq, Repr

/-- Modelled from the spec: the channel primitives the control code names
(`GSM::DATA`, `GSM::ESTABLISH`, `GSM::RELEASE`, `GSM::ERROR`, `GSM::HARDRELEASE`). -/
inductive Primitive where
  | ESTABLISH
  | RELEASE
  | DATA
  | UNIT_DATA
  | ERROR
  | HARDRELEASE
  deriving DecidableEq, Repr

/-- Protocol discriminator of a frame; the control code only compares it with `L3SMSPD`. -/
inductive L3PD where
  | L3CallControlPD
  | L3MobilityManagementPD
  | L3RadioResourcePD
  | L3SMSPD
  | L3UndefinedPD
  deriving DecidableEq, Repr

/-- Service type of a CM Service Request; the control code only compares it with
`ShortMessage`. -/
inductive L3CMServiceType where
  | MobileOriginatedCall
  | EmergencyCall
  | ShortMessage
  | SupplementaryService
  | UndefinedType
  deriving DecidableEq, Repr

end GSM

namespace SIP

/-- Modelled from the spec: the coarse session-leg states reported by the SIP engine
(`SIP/SIPEngine.h` is not among the sources). -/
inductive SIPState where
  | NullState
  | Timeout
  | Starting
  | Proceeding
  | Ringing
  | Busy
  | Connecting
  | Active
  | MODClearing
  | MTDClearing
  | Cleared
  | Fail
  | MessageSubmit
  deriving DecidableEq, Repr

end SIP

namespace SMS

/-- Message type of a CP-layer frame (`CPMessage::DATA`, `ACK`, `ERROR`). -/
inductive CPMessageType where
  | DATA
  | ACK
  | ERROR
  | unknown (mti : Nat)
  deriving DecidableEq, Repr

/-- Message type of an RPDU (`RPMessage::Data`, `Ack`, `Error`, `SMMA`). -/
inductive RPMessageType where
  | Data
  | Ack
  | Error
  | SMMA
  | unknown (mti : Nat)
  deriving DecidableEq, Repr

/-- Outcome of one of the message parsers, which either succeed or throw `SMSReadError`
or `GSM::L3ReadError`. -/
inductive Parsed (α : Type) where
  | ok (a : α)
  | SMSReadError
  | L3ReadError
  deriving DecidableEq, Repr

/-- What the control code reads from a successfully parsed TL-SUBMIT: the decoded user data
and the digits of the destination address. -/
structure TLSubmit where
  UD : String
  DA : String
  deriving DecidableEq, Repr

/-- An RPDU as the control code sees it: its message type, its message reference, its
hexadecimal rendering, and what `RPData::parse` followed by `TLSubmit::parse` make of it. -/
structure RLFrame where
  MTI : RPMessageType
  reference : Nat
  hex : String
  submit : Parsed TLSubmit
  deriving DecidableEq, Repr

/-- The RP-layer messages the control code builds and wraps in CP-DATA. -/
inductive RPMessage where
  | RPAck (reference : Nat)
  | RPError (cause : Nat) (reference : Nat)
  | RPData (reference : Nat) (smsc : String) (callingPartyDigits : String) (message : String)
      (TLPID : Nat)
  | parsedRPData (rpdu : RLFrame)
  deriving DecidableEq, Repr

end SMS

/-- Layer-3 messages exchanged with the handset, received (`dynamic_cast` targets of the
dispatcher) and sent. A cause of `none` stands for the default-constructed cause. -/
inductive L3Message where
  | L3ConnectAcknowledge (TI : Nat)
  | L3Connect (TI : Nat)
  | L3CallConfirmed (TI : Nat)
  | L3Alerting (TI : Nat)
  | L3Disconnect (TI : Nat) (cause : Option Nat)
  | L3Release (TI : Nat)
  | L3ReleaseComplete (TI : Nat) (cause : Option Nat)
  | L3ChannelRelease
  | L3IMSIDetachIndication
  | L3StartDTMF (TI : Nat) (key : Char)
  | L3StartDTMFAcknowledge (TI : Nat) (key : Char)
  | L3StartDTMFReject (TI : Nat) (cause : Nat)
  | L3StopDTMF (TI : Nat)
  | L3StopDTMFAcknowledge (TI : Nat)
  | L3CMServiceRequest (serviceType : GSM.L3CMServiceType) (mobileID : String)
  | L3CMServiceAccept
  | L3CMServiceReject (cause : Nat)
  | L3Hold (TI : Nat)
  | L3HoldReject (TI : Nat) (cause : Nat)
  | L3Setup (TI : Nat) (callingParty : Option String) (calledParty : Option String)
  | L3CallProceeding (TI : Nat)
  | L3Progress (TI : Nat)
  | CPAck (TI : Nat)
  | CPData (TI : Nat) (rpdu : SMS.RPMessage)
  | CPError (TI : Nat) (cause : Nat)
  | unrecognized (MTI : Nat)
  deriving DecidableEq, Repr

/-- A frame delivered by `LCH->recv`: its primitive, the header fields the control code reads,
and what the parsers (`parseL3`, `CPData::parse`) make of it. -/
structure L3Frame where
  primitive : GSM.Primitive
  PD : GSM.L3PD
  MTI : SMS.CPMessageType
  TI : Nat
  parseL3 : Option L3Message
  cpData : SMS.Parsed SMS.RLFrame
  deriving DecidableEq, Repr

/-- Operations of the transaction's SIP engine invoked by the control code. -/
inductive SIPOp where
  | MODSendBYE
  | MODResendBYE
  | MODWaitForOK
  | MTDCheckBYE
  | MTDSendOK
  | MOCSendINVITE (calledUser : String) (rtpPort : Nat)
  | MOCResendINVITE
  | MOCWaitForOK
  | MOCSendACK
  | MOCInitRTP
  | MTCSendTrying
  | MTCCheckForCancel
  | MTCSendRinging
  | MTCSendOK (rtpPort : Nat)
  | MTCWaitForACK
  | MTCInitRTP
  | MOSMSSendMESSAGE (address : String) (contentType : String)
  | MOSMSWaitForSubmit
  | MTSMSSendOK
  | startDTMF (key : Char)
  | stopDTMF
  | sendINFOAndWaitForOK (key : Char)
  deriving DecidableEq, Repr

/-- Everything the control code does to its collaborators, in the order it does it.
`resolveIMSI`, `IMSIDetachController` and `pagerAddID` stand for calls into mobility
management and paging, whose code is outside the two files: the call is recorded, what
happens inside is not followed. -/
inductive Event where
  | send (channel : Nat) (sap : Nat) (msg : L3Message)
  | sendPrimitive (channel : Nat) (sap : Nat) (prim : GSM.Primitive)
  | recv (channel : Nat) (sap : Nat) (timeout : Nat)
  | sip (id : Nat) (op : SIPOp)
  | tableAdd (id : Nat)
  | tableRemove (id : Nat)
  | rxFrame (id : Nat)
  | txFrame (id : Nat) (frame : Nat)
  | sendTCH (channel : Nat)
  | recvTCH (channel : Nat)
  | IMSIDetachController (channel : Nat)
  | resolveIMSI (channel : Nat)
  | pagerAddID (id : Nat) (pageTime : Nat)
  | msleep (ms : Nat)
  deriving DecidableEq, Repr

/-- Conditions that end a control routine other than by returning: the exceptions of
`ControlCommon.h` and of the parsers, a failed `assert`, and an arithmetic fault. -/
inductive ControlException where
  | UnexpectedMessage (transactionID : Option Nat)
  | UnexpectedPrimitive
  | ChannelReadTimeout
  | UnsupportedMessage (transactionID : Option Nat)
  | SMSReadError
  | L3ReadError
  | AssertionFailed
  | DivisionByZero
  deriving DecidableEq, Repr

/-- Modelled from the spec: the fields of the transaction record (`TransactionTable.h` is not
among the sources) that the control code reads or writes. `timers` holds the names of the
timers currently armed. -/
structure TransactionEntry where
  ID : Nat
  GSMState : GSM.CallState
  SIPState : SIP.SIPState
  L3TI : Nat
  timers : List String
  channel : Option Nat
  subscriber : String
  calling : String
  called : Option String
  message : String
  messageType : String
  deriving DecidableEq, Repr

/-- A `const char *` as the SMS code passes it on: the characters it was taken from, and
whether the object holding them still exists when the pointer is read. -/
structure CharPtr where
  chars : String
  live : Bool
  deriving DecidableEq, Repr

/-- Configuration keys read by the control code. -/
structure Config where
  RTP : RTPConfig
  maxSpeechLatency : Nat
  dtmfRFC2833 : Bool
  dtmfRFC2967 : Bool
  smsMIMEType : String
  smsc : Option String
  fakeSrcSMSC : String
  T313ms : Nat
  deriving DecidableEq, Repr

/-- The state the control code runs in: the transaction record it was handed, the record of
what it has done (`trace`, oldest first), the identifiers registered in the transaction table,
and the answers its collaborators are still going to give, each in the order it will be
asked for. A script that has run out answers: no frame, no change of session state, `false`,
the empty string.
`newEntry` is what the constructor of `TransactionEntry` yields before the constructor's
arguments are stored; `clearingGSM` is the record's predicate of that name on the radio-leg
state; `unhex` is what `BitVector::unhex` and `RPData::parse` make of a hexadecimal payload
(`none` when the hexadecimal string is rejected); `stale` is what the reads through a pointer
into a destroyed object find there, one entry for each read. -/
structure World where
  tr : TransactionEntry
  trace : List Event
  table : List Nat
  nextID : Nat
  newEntry : TransactionEntry
  config : Config
  clearingGSM : GSM.CallState → Bool
  unhex : String → Option (SMS.Parsed SMS.RLFrame)
  rtpPort : Option Nat
  random : List Nat
  rx : List (Option L3Frame)
  sip : List SIP.SIPState
  radioFailure : List Bool
  timerExpired : List Bool
  terminationRequested : List Bool
  dtmfResult : List Bool
  rtpFrames : List Bool
  uplink : List Nat
  stale : List String
  multiframe : Bool

/-! ## Control monad and collaborator primitives -/

/-- How a run of control code ends: it returns, it raises, or the bound on loop iterations
given to the run is used up. -/
inductive Outcome (α : Type) where
  | ret (a : α) (w : World)
  | raised (e : ControlException) (w : World)
  | outOfFuel

/-- Control code: a function of the state it starts in. -/
def Ctl (α : Type) : Type := World → Outcome α

/-- Sequencing of control code; a raised condition or an exhausted bound ends the run. -/
def Ctl.bind {α β : Type} (m : Ctl α) (f : α → Ctl β) : Ctl β := fun w =>
  match m w with
  | .ret a w1 => f a w1
  | .raised e w1 => .raised e w1
  | .outOfFuel => .outOfFuel

instance : Monad Ctl where
  pure a := fun w => .ret a w
  bind := Ctl.bind

/-- The C++ `throw`. -/
def raise {α : Type} (e : ControlException) : Ctl α := fun w => .raised e w

/-- The C++ `try` block `body` with its `catch` clauses `handler`. -/
def tryBlock {α : Type} (body : Ctl α) (handler : ControlException → Ctl α) : Ctl α := fun w =>
  match body w with
  | .raised e w1 => handler e w1
  | o => o

/-- The loop bound is used up. -/
def outOfFuel {α : Type} : Ctl α := fun _ => .outOfFuel

/-- The world a run ends in, if it ends. -/
def Outcome.world {α : Type} : Outcome α → Option World
  | .ret _ w => some w
  | .raised _ w => some w
  | .outOfFuel => none

/-- The events recorded when a run ended (empty if it did not end). -/
def Outcome.trace {α : Type} (o : Outcome α) : List Event :=
  match o.world with
  | some w => w.trace
  | none => []

/-- The value a run returned, if it returned. -/
def Outcome.value {α : Type} : Outcome α → Option α
  | .ret a _ => some a
  | _ => none

/-- The condition a run raised, if it raised. -/
def Outcome.exception {α : Type} : Outcome α → Option ControlException
  | .raised e _ => some e
  | _ => none

/-- Record an event. -/
def emit (e : Event) : Ctl Unit := fun w => .ret () { w with trace := w.trace ++ [e] }

/-- Read the transaction record. -/
def getTr : Ctl TransactionEntry := fun w => .ret w.tr w

/-- Read the configuration. -/
def getConfig : Ctl Config := fun w => .ret w.config w

/-- Read of the characters at a `const char *`: the characters the pointer was taken from as
long as the object holding them exists; after its destruction whatever the memory holds by
then, which is the next entry of `stale`. -/
def readChars (p : CharPtr) : Ctl String := fun w =>
  if p.live then .ret p.chars w
  else .ret (w.stale.headD "") { w with stale := w.stale.tail }

/-- The C++ `assert`. -/
def assert (c : Bool) : Ctl Unit :=
  if c then pure () else raise .AssertionFailed

namespace LogicalChannel

/-- Source call `LCH->send(message, sap)`; the service access point defaults to 0 in the
source. -/
def send (LCH : Nat) (msg : L3Message) (sap : Nat) : Ctl Unit :=
  emit (.send LCH sap msg)

/-- Source call `LCH->send(primitive, sap)`. -/
def sendPrimitive (LCH : Nat) (prim : GSM.Primitive) (sap : Nat) : Ctl Unit :=
  emit (.sendPrimitive LCH sap prim)

/-- Source call `LCH->recv(timeout, sap)`: the next frame of the script, `none` for a timeout. -/
def recv (LCH : Nat) (timeout : Nat) (sap : Nat) : Ctl (Option L3Frame) := fun w =>
  .ret (w.rx.headD none)
    { w with trace := w.trace ++ [.recv LCH sap timeout], rx := w.rx.tail }

/-- Source call `LCH->radioFailure()`. -/
def radioFailure (_LCH : Nat) : Ctl Bool := fun w =>
  .ret (w.radioFailure.headD false) { w with radioFailure := w.radioFailure.tail }

/-- Source call `LCH->multiframeMode(sap)`. -/
def multiframeMode (_LCH : Nat) (_sap : Nat) : Ctl Bool := fun w => .ret w.multiframe w

/-- Source call `TCH->queueSize()`. -/
def queueSize (_TCH : Nat) : Ctl Nat := fun w => .ret w.uplink.length w

/-- Source call `TCH->recvTCH()`: the oldest queued uplink frame, `none` for a null pointer. -/
def recvTCH (TCH : Nat) : Ctl (Option Nat) := fun w =>
  .ret w.uplink.head? { w with trace := w.trace ++ [.recvTCH TCH], uplink := w.uplink.tail }

/-- Source call `TCH->sendTCH(frame)`. -/
def sendTCH (TCH : Nat) : Ctl Unit := emit (.sendTCH TCH)

end LogicalChannel

namespace transaction

/-- Source call `transaction->GSMState()`. -/
def GSMState : Ctl GSM.CallState := fun w => .ret w.tr.GSMState w

/-- Source call `transaction->GSMState(state)`. -/
def setGSMState (s : GSM.CallState) : Ctl Unit := fun w =>
  .ret () { w with tr := { w.tr with GSMState := s } }

/-- Source call `transaction->SIPState()`. -/
def SIPState : Ctl SIP.SIPState := fun w => .ret w.tr.SIPState w

/-- Source call `transaction->clearingGSM()`. -/
def clearingGSM : Ctl Bool := fun w => .ret (w.clearingGSM w.tr.GSMState) w

/-- Source call `transaction->L3TI()`. -/
def L3TI : Ctl Nat := fun w => .ret w.tr.L3TI w

/-- Source call `transaction->L3TI(value)`. -/
def setL3TI (ti : Nat) : Ctl Unit := fun w =>
  .ret () { w with tr := { w.tr with L3TI := ti } }

/-- Source call `transaction->channel(LCH)`. -/
def setChannel (LCH : Nat) : Ctl Unit := fun w =>
  .ret () { w with tr := { w.tr with channel := some LCH } }

/-- Source call `transaction->called(calledParty); transaction->message(body, length)`. -/
def setCalledAndMessage (address : String) (body : String) : Ctl Unit := fun w =>
  .ret () { w with tr := { w.tr with called := some address, message := body } }

/-- Source call `transaction->ID()`. -/
def ID : Ctl Nat := fun w => .ret w.tr.ID w

/-- Source call `transaction->resetTimers()`. -/
def resetTimers : Ctl Unit := fun w =>
  .ret () { w with tr := { w.tr with timers := [] } }

/-- Source call `transaction->resetTimer(name)`. -/
def resetTimer (name : String) : Ctl Unit := fun w =>
  .ret () { w with tr := { w.tr with timers := w.tr.timers.filter (fun t => t ≠ name) } }

/-- Source call `transaction->setTimer(name)`. -/
def setTimer (name : String) : Ctl Unit := fun w =>
  .ret () { w with tr := { w.tr with timers := name :: w.tr.timers.filter (fun t => t ≠ name) } }

/-- Source call `transaction->anyTimerExpired()`. -/
def anyTimerExpired : Ctl Bool := fun w =>
  .ret (w.timerExpired.headD false) { w with timerExpired := w.timerExpired.tail }

/-- Source call `transaction->terminationRequested()`. -/
def terminationRequested : Ctl Bool := fun w =>
  .ret (w.terminationRequested.headD false)
    { w with terminationRequested := w.terminationRequested.tail }

/-- An operation of the transaction's SIP engine: it is recorded, and the session-leg state
becomes, and the operation returns, the next state of the script. -/
def engine (op : SIPOp) : Ctl SIP.SIPState := fun w =>
  .ret (w.sip.headD w.tr.SIPState)
    { w with trace := w.trace ++ [.sip w.tr.ID op], sip := w.sip.tail,
             tr := { w.tr with SIPState := w.sip.headD w.tr.SIPState } }

/-- An engine operation that reports success or failure (`startDTMF`,
`sendINFOAndWaitForOK`). -/
def engineBool (op : SIPOp) : Ctl Bool := fun w =>
  .ret (w.dtmfResult.headD false)
    { w with trace := w.trace ++ [.sip w.tr.ID op], dtmfResult := w.dtmfResult.tail }

/-- Source call `transaction->rxFrame(buffer)`: whether a downlink frame was received from
RTP. -/
def rxFrame : Ctl Bool := fun w =>
  .ret (w.rtpFrames.headD false)
    { w with trace := w.trace ++ [.rxFrame w.tr.ID], rtpFrames := w.rtpFrames.tail }

/-- Source call `transaction->txFrame(frame)`: the uplink frame is handed to the RTP session. -/
def txFrame (frame : Nat) : Ctl Unit := fun w =>
  .ret () { w with trace := w.trace ++ [.txFrame w.tr.ID frame] }

end transaction

namespace gTransactionTable

/-- Source call `gTransactionTable->add(transaction)`. -/
def add (id : Nat) : Ctl Unit := fun w =>
  .ret () { w with trace := w.trace ++ [.tableAdd id], table := w.table ++ [id] }

/-- Source call `gTransactionTable->add(new TransactionEntry(...))` for a record other than
the one the routine works on: it is registered under a fresh identifier. -/
def addNew : Ctl Unit := fun w =>
  .ret () { w with trace := w.trace ++ [.tableAdd w.nextID], table := w.table ++ [w.nextID],
                   nextID := w.nextID + 1 }

/-- Source call `gTransactionTable->remove(transaction)`. -/
def remove : Ctl Unit := fun w =>
  .ret () { w with trace := w.trace ++ [.tableRemove w.tr.ID], table := w.table.erase w.tr.ID }

end gTransactionTable

/-- Source function `allocateRTPPorts()` run in the world: the static and the configuration
live there. -/
def allocateRTPPortsM : Ctl Nat := fun w =>
  match allocateRTPPorts w.config.RTP (w.random.headD 0) w.rtpPort with
  | none => .raised .DivisionByZero w
  | some (retVal, port) =>
    .ret retVal { w with rtpPort := some port,
                         random := if w.rtpPort.isSome then w.random else w.random.tail }

/-! ## Call control (`Control/CallControl.cpp`) -/

open transaction in
/-- Source function `forceGSMClearing`: force clearing on the GSM side. -/
def forceGSMClearing (LCH : Nat) (cause : Nat) : Ctl Unit := do
  let state ← GSMState
  if state = GSM.CallState.NullState then pure ()
  else do
    let clearing ← clearingGSM
    let ti ← L3TI
    (if !clearing then LogicalChannel.send LCH (.L3Disconnect ti (some cause)) 0 else pure ())
    LogicalChannel.send LCH (.L3ReleaseComplete ti none) 0
    LogicalChannel.send LCH .L3ChannelRelease 0
    resetTimers
    setGSMState GSM.CallState.NullState
    LogicalChannel.sendPrimitive LCH GSM.Primitive.RELEASE 0

open transaction in
/-- Source function `forceSIPClearing`: force clearing on the SIP side. -/
def forceSIPClearing : Ctl Unit := do
  let state ← SIPState
  if state = SIP.SIPState.Cleared then pure ()
  else do
    (if state ≠ SIP.SIPState.MODClearing then do
        let _ ← engine .MODSendBYE
        pure ()
      else do
        let _ ← engine .MODResendBYE
        pure ())
    let _ ← engine .MODWaitForOK
    pure ()

/-- Source function `abortCall`: abort the call; does not remove the transaction from the table.
`LCH` is `none` for a null channel pointer. -/
def abortCall (LCH : Option Nat) (cause : Nat) : Ctl Unit := do
  (match LCH with
    | some ch => forceGSMClearing ch cause
    | none => pure ())
  forceSIPClearing

/-- Source function `abortAndRemoveCall`: abort the call and remove the transaction. -/
def abortAndRemoveCall (LCH : Option Nat) (cause : Nat) : Ctl Unit := do
  abortCall LCH cause
  gTransactionTable.remove

/-- Source function `InCallMOSMSStarter` (`Control/SMSControl.cpp`): create and register the partial record of
an SMS submitted during a call. -/
def InCallMOSMSStarter : Ctl Unit := do
  let parallelCall ← getTr
  assert parallelCall.channel.isSome
  gTransactionTable.addNew

open transaction in
/-- Source function `callManagementDispatchGSM`: process a message received from the phone during a call.
`message` is `none` for a null pointer. Returns true if the call has been cleared and the
channel released. -/
def callManagementDispatchGSM (LCH : Nat) (message : Option L3Message) : Ctl Bool :=
  match message with
  | some (.L3ConnectAcknowledge _) => do
    resetTimers
    setGSMState GSM.CallState.Active
    pure false
  | some (.L3Connect _) => do
    resetTimers
    setGSMState GSM.CallState.Active
    pure false
  | some (.L3CallConfirmed _) => do
    resetTimer "303"
    setTimer "301"
    setGSMState GSM.CallState.MTCConfirmed
    pure false
  | some (.L3Alerting _) => do
    resetTimer "310"
    setTimer "301"
    setGSMState GSM.CallState.CallReceived
    pure false
  | some (.L3Disconnect _ _) => do
    resetTimers
    let ti ← L3TI
    LogicalChannel.send LCH (.L3Release ti) 0
    setTimer "308"
    setGSMState GSM.CallState.ReleaseRequest
    let _ ← engine .MODSendBYE
    pure false
  | some (.L3Release _) => do
    resetTimers
    let ti ← L3TI
    LogicalChannel.send LCH (.L3ReleaseComplete ti none) 0
    LogicalChannel.send LCH .L3ChannelRelease 0
    setGSMState GSM.CallState.NullState
    let _ ← engine .MTDSendOK
    pure true
  | some (.L3ReleaseComplete _ _) => do
    resetTimers
    LogicalChannel.send LCH .L3ChannelRelease 0
    setGSMState GSM.CallState.NullState
    let _ ← engine .MODWaitForOK
    pure true
  | some .L3IMSIDetachIndication => do
    emit (.IMSIDetachController LCH)
    forceSIPClearing
    pure true
  | some (.L3StartDTMF _ key) => do
    let cfg ← getConfig
    let s1 ← (if cfg.dtmfRFC2833 then engineBool (.startDTMF key) else pure false)
    let s2 ← (if cfg.dtmfRFC2967 then engineBool (.sendINFOAndWaitForOK key) else pure false)
    let success := s1 || s2
    let ti ← L3TI
    (if success then LogicalChannel.send LCH (.L3StartDTMFAcknowledge ti key) 0
      else LogicalChannel.send LCH (.L3StartDTMFReject ti 0x3f) 0)
    pure false
  | some (.L3StopDTMF _) => do
    let _ ← engine .stopDTMF
    let ti ← L3TI
    LogicalChannel.send LCH (.L3StopDTMFAcknowledge ti) 0
    pure false
  | some (.L3CMServiceRequest serviceType _) =>
    if serviceType = GSM.L3CMServiceType.ShortMessage then do
      InCallMOSMSStarter
      LogicalChannel.send LCH .L3CMServiceAccept 0
      pure false
    else do
      LogicalChannel.send LCH (.L3CMServiceReject 0x20) 0
      pure false
  | some (.L3Hold _) => do
    let ti ← L3TI
    LogicalChannel.send LCH (.L3HoldReject ti 0x3f) 0
    pure false
  | _ => pure false

/-- The loop `while (TCH->queueSize() > maxQ) delete[] TCH->recvTCH();` of
`updateCallTraffic`. -/
def flushUplink (TCH : Nat) (maxQ : Nat) : Nat → Ctl Unit
  | 0 => outOfFuel
  | fuel + 1 => do
    let size ← LogicalChannel.queueSize TCH
    if size > maxQ then do
      let _ ← LogicalChannel.recvTCH TCH
      flushUplink TCH maxQ fuel
    else pure ()

/-- Source function `updateCallTraffic`: update vocoder data transfers in both directions.
Returns true if anything was transferred. -/
def updateCallTraffic (fuel : Nat) (TCH : Nat) : Ctl Bool := do
  let down ← transaction.rxFrame
  (if down then LogicalChannel.sendTCH TCH else pure ())
  let cfg ← getConfig
  flushUplink TCH cfg.maxSpeechLatency fuel
  let txFrame ← LogicalChannel.recvTCH TCH
  match txFrame with
  | some frame => do
    transaction.txFrame frame
    pure true
  | none => pure down

open transaction in
/-- Source function `updateGSMSignalling`: check GSM signalling. Returns true if the call was cleared, but
the transaction is still there. -/
def updateGSMSignalling (LCH : Nat) (timeout : Nat) : Ctl Bool := do
  let state ← GSMState
  if state = GSM.CallState.NullState then pure true
  else do
    let expired ← anyTimerExpired
    if expired then do
      abortCall (some LCH) 0x66
      pure true
    else do
      let l3 ← LogicalChannel.recv LCH timeout 0
      match l3 with
      | some l3 =>
        if l3.primitive = GSM.Primitive.ERROR then pure true
        else
          match l3.parseL3 with
          | some l3msg => callManagementDispatchGSM LCH (some l3msg)
          | none => pure false
      | none => pure false

open transaction in
/-- Source function `updateSIPSignalling`: check SIP signalling. Returns true if the call is cleared in the
SIP domain. -/
def updateSIPSignalling (LCH : Nat) (GSMCleared : Bool) : Ctl Bool := do
  let state ← SIPState
  if state = SIP.SIPState.Cleared then pure true
  else do
    let clearing ← clearingGSM
    let GSMClearedOrClearing := GSMCleared || clearing
    let bye ← engine .MTDCheckBYE
    (if bye = SIP.SIPState.MTDClearing then
        if !GSMClearedOrClearing then do
          let ti ← L3TI
          LogicalChannel.send LCH (.L3Disconnect ti none) 0
          setTimer "305"
          setGSMState GSM.CallState.DisconnectIndication
        else do
          let _ ← engine .MTDSendOK
          pure ()
      else pure ())
    let state ← SIPState
    pure (decide (state = SIP.SIPState.Cleared))

/-- Source function `updateSignalling`: check SIP and GSM signalling. Returns true if the call is cleared in
both domains. -/
def updateSignalling (LCH : Nat) (timeout : Nat) : Ctl Bool := do
  let GSMCleared ← updateGSMSignalling LCH timeout
  let SIPCleared ← updateSIPSignalling LCH GSMCleared
  pure (GSMCleared && SIPCleared)

/-- Source function `pollInCall`: poll for activity while in a call. Returns true if the call was cleared. -/
def pollInCall (fuel : Nat) (TCH : Nat) : Ctl Bool := do
  let failure ← LogicalChannel.radioFailure TCH
  if failure then do
    forceSIPClearing
    pure true
  else do
    let cleared ← updateSignalling TCH 0
    if cleared then pure true
    else do
      let requested ← transaction.terminationRequested
      if requested then do
        abortCall (some TCH) 25
        pure true
      else do
        let activity ← updateCallTraffic fuel TCH
        if activity then pure false
        else do
          emit (.msleep 50)
          pure false

/-- Source function `callManagementLoop`: the standard call management loop; returns when the call is
cleared. `fuel` bounds the number of polls. -/
def callManagementLoop (TCH : Nat) : Nat → Ctl Unit
  | 0 => outOfFuel
  | fuel + 1 => do
    let cleared ← pollInCall (fuel + 1) TCH
    if cleared then gTransactionTable.remove
    else callManagementLoop TCH fuel

/-- Modelled from the spec: `getMessage` (`ControlCommon.cpp` is not among the sources) reads
one Layer-3 message from the channel; the result is `none` (a null pointer) when no frame
arrives or the frame does not parse. -/
def getMessage (LCH : Nat) : Ctl (Option L3Message) := do
  let frame ← LogicalChannel.recv LCH 0 0
  match frame with
  | some f => pure f.parseL3
  | none => pure none

/-- The expression `new TransactionEntry(proxy, mobileID, LCH, serviceType, L3TI, called)` of
`MOCStarter`: the constructed record becomes the record the routine works on. -/
def newTransactionEntryMOC (subscriber : String) (LCH : Nat) (L3TI : Nat) (called : String) :
    Ctl Unit := fun w =>
  .ret () { w with tr := { w.newEntry with ID := w.nextID, L3TI := L3TI, channel := some LCH,
                                           subscriber := subscriber, called := some called },
                   nextID := w.nextID + 1 }

/-- The expression `new TransactionEntry(proxy, mobileID, LCH)` of `MOSMSController`: the
constructed record becomes the record the routine works on. -/
def newTransactionEntrySMS (subscriber : String) (LCH : Nat) : Ctl Unit := fun w =>
  .ret () { w with tr := { w.newEntry with ID := w.nextID, channel := some LCH,
                                           subscriber := subscriber },
                   nextID := w.nextID + 1 }

open transaction in
/-- First loop of `MOCController`: look for RINGING or OK from the SIP side until the radio
leg is in `CallReceived`. The result is true when the controller has returned from inside the
loop. -/
def MOCController.waitForRinging (TCH : Nat) (L3TI : Nat) : Nat → Ctl Bool
  | 0 => outOfFuel
  | fuel + 1 => do
    let gsm ← GSMState
    if gsm = GSM.CallState.CallReceived then pure false
    else do
      let cleared ← updateGSMSignalling TCH 0
      if cleared then pure true
      else do
        let clearing ← clearingGSM
        if clearing then do
          abortAndRemoveCall (some TCH) 0x7F
          pure true
        else do
          let state ← engine .MOCWaitForOK
          match state with
          | .Busy => do
            abortAndRemoveCall (some TCH) 0x11
            pure true
          | .Fail => do
            abortAndRemoveCall (some TCH) 0x7F
            pure true
          | .Ringing => do
            LogicalChannel.send TCH (.L3Alerting L3TI) 0
            setGSMState GSM.CallState.CallReceived
            MOCController.waitForRinging TCH L3TI fuel
          | .Active => do
            setGSMState GSM.CallState.CallReceived
            MOCController.waitForRinging TCH L3TI fuel
          | .Proceeding => do
            LogicalChannel.send TCH (.L3Progress L3TI) 0
            MOCController.waitForRinging TCH L3TI fuel
          | .Timeout => do
            let _ ← engine .MOCResendINVITE
            MOCController.waitForRinging TCH L3TI fuel
          | _ => MOCController.waitForRinging TCH L3TI fuel

open transaction in
/-- Second loop of `MOCController`: wait for the SIP session to start. `state` is the local
variable of that name. The result is true when the controller has returned from inside the
loop. -/
def MOCController.waitForSession (TCH : Nat) (state : SIP.SIPState) : Nat → Ctl Bool
  | 0 => outOfFuel
  | fuel + 1 =>
    if state = SIP.SIPState.Active then pure false
    else do
      let state ← engine .MOCWaitForOK
      let cleared ← updateGSMSignalling TCH 0
      if cleared then pure true
      else do
        let clearing ← clearingGSM
        if clearing then do
          abortAndRemoveCall (some TCH) 0x7F
          pure true
        else
          match state with
          | .Busy => do
            abortAndRemoveCall (some TCH) 0x11
            pure true
          | .Fail => do
            abortAndRemoveCall (some TCH) 0x7F
            pure true
          | _ => MOCController.waitForSession TCH state fuel

open transaction in
/-- Third loop of `MOCController`: get the Connect Acknowledge message. The result is true
when the controller has returned from inside the loop. -/
def MOCController.waitForConnectAck (TCH : Nat) : Nat → Ctl Bool
  | 0 => outOfFuel
  | fuel + 1 => do
    let gsm ← GSMState
    if gsm = GSM.CallState.Active then pure false
    else do
      let cfg ← getConfig
      let cleared ← updateGSMSignalling TCH cfg.T313ms
      if cleared then do
        abortAndRemoveCall (some TCH) 0x7F
        pure true
      else MOCController.waitForConnectAck TCH fuel

open transaction in
/-- Source function `Control::MOCController`: continue the MOC process on the TCH. -/
def MOCController (fuel : Nat) (TCH : Nat) : Ctl Unit := do
  let L3TI ← L3TI
  assert (decide (L3TI > 7))
  let returned ← MOCController.waitForRinging TCH L3TI fuel
  if returned then pure ()
  else do
    let state ← SIPState
    let returned ← MOCController.waitForSession TCH state fuel
    if returned then pure ()
    else do
      LogicalChannel.send TCH (.L3Connect L3TI) 0
      setTimer "313"
      setGSMState GSM.CallState.ConnectIndication
      let _ ← engine .MOCInitRTP
      let _ ← engine .MOCSendACK
      let returned ← MOCController.waitForConnectAck TCH fuel
      if returned then pure ()
      else callManagementLoop TCH fuel

open transaction in
/-- Source function `Control::MOCStarter`: start MOC on the channel the CM Service Request arrived on.
The request is given by its service type and mobile identity. -/
def MOCStarter (fuel : Nat) (_serviceType : GSM.L3CMServiceType) (mobileID : String)
    (LCH : Nat) : Ctl Unit := do
  emit (.resolveIMSI LCH)
  LogicalChannel.send LCH .L3CMServiceAccept 0
  let msg_setup ← getMessage LCH
  match msg_setup with
  | some (.L3Setup TI _ calledParty) =>
    let L3TI := TI ||| 0x08
    match calledParty with
    | none => do
      LogicalChannel.send LCH (.L3ReleaseComplete L3TI (some 0x60)) 0
      LogicalChannel.send LCH .L3ChannelRelease 0
    | some bcdDigits => do
      newTransactionEntryMOC mobileID LCH L3TI bcdDigits
      let id ← ID
      gTransactionTable.add id
      let basePort ← allocateRTPPortsM
      let _ ← engine (.MOCSendINVITE bcdDigits basePort)
      LogicalChannel.send LCH (.L3CallProceeding L3TI) 0
      setGSMState GSM.CallState.MOCProceeding
      MOCController fuel LCH
  | _ => raise (.UnexpectedMessage none)

/-- Source function `Control::MTCController`: first loop, wait for GSM Alerting and Connect. The result is
true when the controller has returned from inside the loop. -/
def MTCController.waitForConnect (TCH : Nat) : Nat → Ctl Bool
  | 0 => outOfFuel
  | fuel + 1 => do
    let gsm ← transaction.GSMState
    if gsm = GSM.CallState.Active then pure false
    else do
      let cleared ← updateGSMSignalling TCH 1000
      if cleared then pure true
      else do
        let gsm ← transaction.GSMState
        if gsm = GSM.CallState.Active then pure false
        else do
          (if gsm = GSM.CallState.CallReceived then do
              let _ ← transaction.engine .MTCSendRinging
              pure ()
            else pure ())
          let cancel ← transaction.engine .MTCCheckForCancel
          if cancel = SIP.SIPState.Fail then do
            abortAndRemoveCall (some TCH) 0x7F
            pure true
          else MTCController.waitForConnect TCH fuel

/-- Source function `Control::MTCController`: second loop, wait for the SIP ACK of our OK. `state` is the
local variable of that name. The result is true when the controller has returned from inside
the loop. -/
def MTCController.waitForACK (TCH : Nat) (RTPPorts : Nat) (state : SIP.SIPState) : Nat → Ctl Bool
  | 0 => outOfFuel
  | fuel + 1 =>
    if state = SIP.SIPState.Active then pure false
    else do
      let cleared ← updateGSMSignalling TCH 0
      if cleared then pure true
      else do
        let state ← transaction.engine .MTCWaitForACK
        match state with
        | .Fail => do
          abortAndRemoveCall (some TCH) 0x7F
          pure true
        | .Timeout => do
          let state ← transaction.engine (.MTCSendOK RTPPorts)
          MTCController.waitForACK TCH RTPPorts state fuel
        | _ => MTCController.waitForACK TCH RTPPorts state fuel

open transaction in
/-- Source function `Control::MTCController`: early assignment mobile terminated call. -/
def MTCController (fuel : Nat) (TCH : Nat) : Ctl Unit := do
  let L3TI ← L3TI
  assert (decide (L3TI < 7))
  let returned ← MTCController.waitForConnect TCH fuel
  if returned then pure ()
  else do
    let RTPPorts ← allocateRTPPortsM
    let state ← engine (.MTCSendOK RTPPorts)
    let returned ← MTCController.waitForACK TCH RTPPorts state fuel
    if returned then pure ()
    else do
      let _ ← engine .MTCInitRTP
      LogicalChannel.send TCH (.L3ConnectAcknowledge L3TI) 0
      callManagementLoop TCH fuel

open transaction in
/-- Source function `Control::MTCStarter`: the loop waiting for the Call Confirmed message. The result is
true when the starter has returned from inside the loop. -/
def MTCStarter.waitForCallConfirmed (LCH : Nat) : Nat → Ctl Bool
  | 0 => outOfFuel
  | fuel + 1 => do
    let gsm ← GSMState
    if gsm = GSM.CallState.MTCConfirmed then pure false
    else do
      let trying ← engine .MTCSendTrying
      if trying = SIP.SIPState.Fail then do
        LogicalChannel.sendPrimitive LCH GSM.Primitive.RELEASE 0
        abortAndRemoveCall (some LCH) 0x03
        pure true
      else do
        let cleared ← updateGSMSignalling LCH 1000
        if cleared then do
          LogicalChannel.sendPrimitive LCH GSM.Primitive.RELEASE 0
          pure true
        else do
          let cancel ← engine .MTCCheckForCancel
          if cancel = SIP.SIPState.Fail then do
            abortAndRemoveCall (some LCH) 0x15
            pure true
          else MTCStarter.waitForCallConfirmed LCH fuel

open transaction in
/-- Source function `Control::MTCStarter`: send Setup on the channel and wait for Call Confirmed. -/
def MTCStarter (fuel : Nat) (LCH : Nat) : Ctl Unit := do
  let L3TI ← L3TI
  assert (decide (L3TI < 7))
  let tr ← getTr
  LogicalChannel.send LCH (.L3Setup L3TI (some tr.calling) none) 0
  setTimer "303"
  setGSMState GSM.CallState.CallPresent
  let returned ← MTCStarter.waitForCallConfirmed LCH fuel
  if returned then pure ()
  else MTCController fuel LCH

/-- Source function `Control::initiateMTTransaction`: register the record and page the subscriber. -/
def initiateMTTransaction (pageTime : Nat) : Ctl Unit := do
  let id ← transaction.ID
  gTransactionTable.add id
  transaction.setGSMState GSM.CallState.Paging
  emit (.pagerAddID id pageTime)

/-! ## SMS control (`Control/SMSControl.cpp`) -/

/-- Source function `getFrameSMS`: read an L3Frame from SAP3; raises on failure. -/
def getFrameSMS (LCH : Nat) (primitive : GSM.Primitive) : Ctl L3Frame := do
  let retVal ← LogicalChannel.recv LCH 20000 3
  match retVal with
  | none => raise .ChannelReadTimeout
  | some frame =>
    if frame.primitive ≠ primitive then raise .UnexpectedPrimitive
    else if frame.primitive = GSM.Primitive.DATA ∧ frame.PD ≠ GSM.L3PD.L3SMSPD then
      raise (.UnexpectedMessage none)
    else pure frame

/-- Source function `sendSIP`: complete the transaction record, send the message to the server and wait for
the response. Returns true for OK or ACCEPTED. The characters at `address` are read twice: by
the constructor `L3CalledPartyBCDNumber calledParty(address)` and by `MOSMSSendMESSAGE`. -/
def sendSIP (address : CharPtr) (body : String) (contentType : String) : Ctl Bool := do
  let calledParty ← readChars address
  transaction.setCalledAndMessage calledParty body
  let toAddress ← readChars address
  let _ ← transaction.engine (.MOSMSSendMESSAGE toAddress contentType)
  let state ← transaction.engine .MOSMSWaitForSubmit
  pure (decide (state = SIP.SIPState.Cleared))

/-- The statements `data.parse(RPDU); submit.parse(data.TPDU());` of `handleRPDU`, which
raise when the payload does not parse. -/
def parseSubmit (RPDU : SMS.RLFrame) : Ctl SMS.TLSubmit :=
  match RPDU.submit with
  | .ok submit => pure submit
  | .SMSReadError => raise .SMSReadError
  | .L3ReadError => raise .L3ReadError

/-- Source function `handleRPDU`: process the RPDU. Returns true if successful. The pointer
`address` handed to `sendSIP` is `gConfig.getStr("SIP.SMSC").c_str()`, taken from a temporary
string that is destroyed at the end of that statement, or else `submit.DA().digits()` of a
`TLSubmit` local to a block that has ended: in both cases the object no longer exists when
`sendSIP` reads the characters. -/
def handleRPDU (RPDU : SMS.RLFrame) : Ctl Bool :=
  match RPDU.MTI with
  | .Data => do
    let cfg ← getConfig
    let contentType := cfg.smsMIMEType
    let body ←
      (if contentType = "text/plain" then do
          let submit ← parseSubmit RPDU
          pure submit.UD
        else if contentType = "application/vnd.3gpp.sms" then pure RPDU.hex
        else pure "")
    match cfg.smsc with
    | some smsc => sendSIP { chars := smsc, live := false } body contentType
    | none => do
      let submit ← parseSubmit RPDU
      sendSIP { chars := submit.DA, live := false } body contentType
  | .Ack => pure true
  | .SMMA => pure true
  | _ => pure false

/-- The `try` block of `MOSMSController` and `InCallMOSMSController`: `data.parse(frame)`,
`ref = data.RPDU().reference()`, `success = handleRPDU(transaction, data.RPDU())`.
Returns the locals `ref` and `success`. -/
def parseAndHandle (CM : L3Frame) : Ctl (Nat × Bool) :=
  match CM.cpData with
  | .ok RPDU => do
    let success ← handleRPDU RPDU
    pure (RPDU.reference, success)
  | .SMSReadError => raise .SMSReadError
  | .L3ReadError => raise .L3ReadError

/-- The value of the local `ref` when a handler of that `try` block runs: the reference of the
RPDU if `CPData::parse` had succeeded, else the initial 0. -/
def refAtCatch (CM : L3Frame) : Nat :=
  match CM.cpData with
  | .ok RPDU => RPDU.reference
  | _ => 0

/-- Source function `Control::MOSMSController`: the request is given by its service type and mobile identity.
The assertions on the pointers and on the channel type are taken to hold. -/
def MOSMSController (serviceType : GSM.L3CMServiceType) (mobileID : String) (LCH : Nat) :
    Ctl Unit := do
  assert (decide (serviceType = GSM.L3CMServiceType.ShortMessage))
  emit (.resolveIMSI LCH)
  newTransactionEntrySMS mobileID LCH
  let id ← transaction.ID
  gTransactionTable.add id
  LogicalChannel.send LCH .L3CMServiceAccept 0
  let _ ← getFrameSMS LCH GSM.Primitive.ESTABLISH
  let CM ← getFrameSMS LCH GSM.Primitive.DATA
  if CM.MTI ≠ SMS.CPMessageType.DATA then raise (.UnexpectedMessage none)
  else do
    let L3TI := CM.TI ||| 0x08
    transaction.setL3TI L3TI
    LogicalChannel.send LCH (.CPAck L3TI) 3
    let (ref, success) ← tryBlock (parseAndHandle CM) (fun e =>
      match e with
      | .SMSReadError => do
        LogicalChannel.send LCH (.CPData L3TI (.RPError 95 (refAtCatch CM))) 3
        raise (.UnexpectedMessage none)
      | .L3ReadError => raise (.UnsupportedMessage none)
      | other => raise other)
    (if success then LogicalChannel.send LCH (.CPData L3TI (.RPAck ref)) 3
      else LogicalChannel.send LCH (.CPData L3TI (.RPError 127 ref)) 3)
    let CM ← getFrameSMS LCH GSM.Primitive.DATA
    if CM.MTI ≠ SMS.CPMessageType.ACK then raise (.UnexpectedMessage none)
    else do
      LogicalChannel.send LCH .L3ChannelRelease 0
      gTransactionTable.remove

/-- Source expression `strncmp(s, literal, n) == 0` for a literal of exactly `n` characters. -/
def strncmpEq (s : String) (literal : String) (n : Nat) : Bool :=
  decide (s.toList.take n = literal.toList)

/-- Source expression `BitVector::unhex(message)` followed by `rp_data.parse(RPDU)`: `none` when the
hexadecimal string is rejected, else what the parser makes of the bits. -/
def unhexAndParse (message : String) : Ctl (Option (SMS.Parsed SMS.RLFrame)) := fun w =>
  .ret (w.unhex message) w

/-- The payload construction of `deliverSMSToMS`: the RP-DATA to deliver, built from the
content type. -/
def buildRPData (message : String) (contentType : String) (callingPartyDigits : String)
    (L3TI : Nat) (LCH : Nat) (reference : Nat) : Ctl SMS.RPMessage := do
  let cfg ← getConfig
  if strncmpEq contentType "text/plain" 10 then
    pure (.RPData reference cfg.fakeSrcSMSC callingPartyDigits message 0)
  else if strncmpEq contentType "application/vnd.3gpp.sms" 24 then do
    let bits ← unhexAndParse message
    match bits with
    | none => raise (.UnexpectedMessage none)
    | some (.ok RPDU) => pure (.parsedRPData RPDU)
    | some .SMSReadError => do
      LogicalChannel.send LCH (.CPData L3TI (.RPError 95 reference)) 3
      raise (.UnexpectedMessage none)
    | some .L3ReadError => raise (.UnsupportedMessage none)
  else raise (.UnexpectedMessage none)

/-- Source expression `random()` as used by `deliverSMSToMS`. -/
def random : Ctl Nat := fun w => .ret (w.random.headD 0) { w with random := w.random.tail }

/-- Source function `Control::deliverSMSToMS`: deliver one short message on the channel. Returns true when
the mobile answered with RP-ACK. -/
def deliverSMSToMS (callingPartyDigits : String) (message : String) (contentType : String)
    (L3TI : Nat) (LCH : Nat) : Ctl Bool := do
  let multiframe ← LogicalChannel.multiframeMode LCH 3
  (if !multiframe then do
      LogicalChannel.sendPrimitive LCH GSM.Primitive.ESTABLISH 3
      let _ ← getFrameSMS LCH GSM.Primitive.ESTABLISH
      pure ()
    else pure ())
  let rnd ← random
  let reference := rnd % 255
  let rp_data ← buildRPData message contentType callingPartyDigits L3TI LCH reference
  LogicalChannel.send LCH (.CPData L3TI rp_data) 3
  let CM ← getFrameSMS LCH GSM.Primitive.DATA
  if CM.MTI ≠ SMS.CPMessageType.ACK then raise (.UnexpectedMessage none)
  else do
    let CM ← getFrameSMS LCH GSM.Primitive.DATA
    if CM.MTI ≠ SMS.CPMessageType.DATA then raise (.UnexpectedMessage none)
    else
      match CM.cpData with
      | .SMSReadError => do
        LogicalChannel.send LCH (.CPError L3TI 95) 3
        raise (.UnexpectedMessage none)
      | .L3ReadError => raise (.UnsupportedMessage none)
      | .ok RPDU => do
        let success := decide (RPDU.MTI = SMS.RPMessageType.Ack)
        LogicalChannel.send LCH (.CPAck L3TI) 3
        pure success

/-- Source function `Control::MTSMSController`: deliver the short message carried by the record. -/
def MTSMSController (LCH : Nat) : Ctl Unit := do
  transaction.setChannel LCH
  transaction.setGSMState GSM.CallState.SMSDelivering
  let tr ← getTr
  let success ← deliverSMSToMS tr.calling tr.message tr.messageType tr.L3TI LCH
  (if success then do
      let _ ← transaction.engine .MTSMSSendOK
      pure ()
    else pure ())
  gTransactionTable.remove

/-- Source function `Control::InCallMOSMSController`: the SMS submission of a CP-DATA already read on an
in-call signalling path. -/
def InCallMOSMSController (cpData : L3Frame) (LCH : Nat) : Ctl Unit := do
  let L3TI := cpData.TI ||| 0x08
  transaction.setL3TI L3TI
  LogicalChannel.send LCH (.CPAck L3TI) 3
  let id ← transaction.ID
  let (ref, success) ← tryBlock (parseAndHandle cpData) (fun e =>
    match e with
    | .SMSReadError => do
      LogicalChannel.send LCH (.CPData L3TI (.RPError 95 (refAtCatch cpData))) 3
      raise (.UnexpectedMessage (some id))
    | .L3ReadError => raise (.UnsupportedMessage (some id))
    | other => raise other)
  (if success then LogicalChannel.send LCH (.CPData L3TI (.RPAck ref)) 3
    else LogicalChannel.send LCH (.CPData L3TI (.RPError 127 ref)) 3)
  let CM ← getFrameSMS LCH GSM.Primitive.DATA
  if CM.MTI ≠ SMS.CPMessageType.ACK then raise (.UnexpectedMessage (some id))
  else gTransactionTable.remove

/-! ## Concrete scenarios -/

/-- The record of an established call: transaction 1 on channel 5, mobile-originated
(`L3TI` 9). -/
def exampleEntry : TransactionEntry :=
  { ID := 1, GSMState := GSM.CallState.Active, SIPState := SIP.SIPState.Active, L3TI := 9,
    timers := [], channel := some 5, subscriber := "001010000000001", calling := "2100",
    called := some "2600", message := "", messageType := "text/plain" }

/-- A configuration with the plain-text SMS payload type and an SMSC address. -/
def exampleConfig : Config :=
  { RTP := { Start := 16484, Range := 98 }, maxSpeechLatency := 2, dtmfRFC2833 := true,
    dtmfRFC2967 := false, smsMIMEType := "text/plain", smsc := some "smsc",
    fakeSrcSMSC := "0000", T313ms := 30000 }

/-- A world holding `exampleEntry`, registered in the table, in which nothing has happened yet
and the collaborators have nothing to report. The radio leg counts as clearing in the states
`DisconnectIndication` and `ReleaseRequest`. -/
def exampleWorld : World :=
  { tr := exampleEntry, trace := [], table := [1], nextID := 2,
    newEntry := { ID := 0, GSMState := GSM.CallState.NullState,
                  SIPState := SIP.SIPState.NullState, L3TI := 0, timers := [], channel := none,
                  subscriber := "", calling := "", called := none, message := "",
                  messageType := "" },
    config := exampleConfig,
    clearingGSM := fun s =>
      decide (s = GSM.CallState.DisconnectIndication ∨ s = GSM.CallState.ReleaseRequest),
    unhex := fun _ => none, rtpPort := none, random := [], rx := [], sip := [],
    radioFailure := [], timerExpired := [], terminationRequested := [], dtmfResult := [],
    rtpFrames := [], uplink := [], stale := [], multiframe := false }

/-- A call-control DATA frame carrying the given Layer-3 message. -/
def callControlFrame (msg : L3Message) : L3Frame :=
  { primitive := GSM.Primitive.DATA, PD := GSM.L3PD.L3CallControlPD,
    MTI := SMS.CPMessageType.unknown 0, TI := 1, parseL3 := some msg,
    cpData := SMS.Parsed.L3ReadError }

/-- The ESTABLISH indication of SAP3. -/
def establishFrame : L3Frame :=
  { primitive := GSM.Primitive.ESTABLISH, PD := GSM.L3PD.L3UndefinedPD,
    MTI := SMS.CPMessageType.unknown 0, TI := 0, parseL3 := none,
    cpData := SMS.Parsed.L3ReadError }

/-- An SMS DATA frame with the given CP message type, transaction identifier 1 and RPDU. -/
def smsFrame (MTI : SMS.CPMessageType) (cpData : SMS.Parsed SMS.RLFrame) : L3Frame :=
  { primitive := GSM.Primitive.DATA, PD := GSM.L3PD.L3SMSPD, MTI := MTI, TI := 1,
    parseL3 := none, cpData := cpData }

/-- An RP-DATA with message reference 42 whose TL-SUBMIT carries the text HELLO for 2600. -/
def helloRPDU : SMS.RLFrame :=
  { MTI := SMS.RPMessageType.Data, reference := 42, hex := "002a",
    submit := SMS.Parsed.ok { UD := "HELLO", DA := "2600" } }

/-- An RP-ACK with message reference 7, as the mobile sends it after a delivery. -/
def ackRPDU : SMS.RLFrame :=
  { MTI := SMS.RPMessageType.Ack, reference := 7, hex := "0207",
    submit := SMS.Parsed.SMSReadError }

/-- Mobile-originated call set-up in progress; the mobile hangs up with a Release. -/
def releaseDuringSetup : World :=
  { exampleWorld with
    tr := { exampleEntry with GSMState := GSM.CallState.MOCProceeding,
                              SIPState := SIP.SIPState.Proceeding },
    rx := [some (callControlFrame (.L3Release 1))] }

/-- A record carrying a text message to deliver; the mobile acknowledges every step. -/
def deliveryWorld : World :=
  { exampleWorld with
    tr := { exampleEntry with GSMState := GSM.CallState.Paging, L3TI := 2, message := "HELLO" },
    rx := [some establishFrame, some (smsFrame SMS.CPMessageType.ACK SMS.Parsed.L3ReadError),
           some (smsFrame SMS.CPMessageType.DATA (SMS.Parsed.ok ackRPDU))],
    random := [300] }

/-- A mobile submits HELLO; the session leg accepts it; the mobile sends the final CP-ACK. -/
def submitWorld : World :=
  { exampleWorld with
    rx := [some establishFrame, some (smsFrame SMS.CPMessageType.DATA (SMS.Parsed.ok helloRPDU)),
           some (smsFrame SMS.CPMessageType.ACK SMS.Parsed.L3ReadError)],
    sip := [SIP.SIPState.MessageSubmit, SIP.SIPState.Cleared] }

/-- After link establishment the mobile sends a CP-ACK where CP-DATA is due. -/
def wrongFirstFrameWorld : World :=
  { exampleWorld with
    rx := [some establishFrame, some (smsFrame SMS.CPMessageType.ACK SMS.Parsed.L3ReadError)] }

/-- What `forceGSMClearing` sends on the channel, read off its source: nothing when the radio
leg is already `NullState`; else L3Disconnect with the cause unless clearing has started,
then L3ReleaseComplete, L3ChannelRelease and the RELEASE primitive. -/
def radioClearingEvents (w : World) (LCH : Nat) (cause : Nat) : List Event :=
  if w.tr.GSMState = GSM.CallState.NullState then []
  else
    (if w.clearingGSM w.tr.GSMState then []
      else [Event.send LCH 0 (.L3Disconnect w.tr.L3TI (some cause))])
    ++ [Event.send LCH 0 (.L3ReleaseComplete w.tr.L3TI none), Event.send LCH 0 .L3ChannelRelease,
        Event.sendPrimitive LCH 0 GSM.Primitive.RELEASE]

/-- What `forceSIPClearing` asks of the SIP engine, read off its source: nothing when the
session leg is `Cleared`; else a BYE (resent when the leg is already `MODClearing`) and the
wait for its OK. -/
def sessionClearingEvents (w : World) : List Event :=
  if w.tr.SIPState = SIP.SIPState.Cleared then []
  else
    [Event.sip w.tr.ID
        (if w.tr.SIPState = SIP.SIPState.MODClearing then SIPOp.MODResendBYE
          else SIPOp.MODSendBYE),
     Event.sip w.tr.ID SIPOp.MODWaitForOK]

/-- The world a run ends in; the starting world when the run does not end. -/
def finalWorld {α : Type} (w : World) (o : Outcome α) : World :=
  o.world.getD w

/-- The submission of `submitWorld`, read by `InCallMOSMSController` on an in-call path; the
mobile's final CP-ACK never arrives. -/
def inCallSubmitWorld : World :=
  { exampleWorld with sip := [SIP.SIPState.MessageSubmit, SIP.SIPState.Cleared] }

/-- The record of `exampleWorld` with the radio leg already in `NullState`. -/
def radioClearedWorld : World :=
  { exampleWorld with tr := { exampleEntry with GSMState := GSM.CallState.NullState } }

/-- The record of `exampleWorld` with the session leg already `Cleared`. -/
def sessionClearedWorld : World :=
  { exampleWorld with tr := { exampleEntry with SIPState := SIP.SIPState.Cleared } }

/-- The established call of `exampleWorld` when the channel reports a radio link failure. -/
def radioFailureWorld : World :=
  { exampleWorld with radioFailure := [true] }

/-- A mobile starts a call; its Setup (transaction identifier 3) carries no called-party
number. -/
def setupWithoutNumberWorld : World :=
  { exampleWorld with rx := [some (callControlFrame (.L3Setup 3 none none))] }

/-- A mobile starts a call; no message follows the CM Service Accept. -/
def noSetupWorld : World :=
  { exampleWorld with rx := [none] }

/-- A mobile starts a call; an Alerting arrives where the Setup is due. -/
def alertingForSetupWorld : World :=
  { exampleWorld with rx := [some (callControlFrame (.L3Alerting 3))] }

/-- The RP-DATA that `deliverSMSToMS` builds when the payload construction succeeds: a deliver
PDU for plain text, else the re-parsed raw payload. -/
def deliveredRPData (w : World) (callingPartyDigits message contentType : String)
    (reference : Nat) : SMS.RPMessage :=
  if strncmpEq contentType "text/plain" 10 then
    .RPData reference w.config.fakeSrcSMSC callingPartyDigits message 0
  else
    match w.unhex message with
    | some (.ok RPDU) => .parsedRPData RPDU
    | _ => .RPData reference w.config.fakeSrcSMSC callingPartyDigits message 0

/-- What `deliverSMSToMS` records to bring up SAP3: nothing when the link is already in
multiframe mode, else the ESTABLISH request and the read of its indication. -/
def establishEvents (w : World) (LCH : Nat) : List Event :=
  if w.multiframe then []
  else [Event.sendPrimitive LCH 3 GSM.Primitive.ESTABLISH, Event.recv LCH 3 20000]

/-- The frames `deliverSMSToMS` reads to bring up SAP3: none when the link is already in
multiframe mode, else the given frame. -/
def establishFrames (w : World) (est : L3Frame) : List (Option L3Frame) :=
  if w.multiframe then [] else [some est]

/-- The message body `handleRPDU` hands to the session leg for an RP-DATA whose TL-SUBMIT
parses: the decoded text for plain text, the hexadecimal RPDU for the raw payload type, and
nothing for any other configured type. -/
def submittedBody (contentType : String) (RPDU : SMS.RLFrame) (submit : SMS.TLSubmit) : String :=
  if contentType = "text/plain" then submit.UD
  else if contentType = "application/vnd.3gpp.sms" then RPDU.hex
  else ""

/-- The received CP-DATA fails to decode at the RP/TL layer with the given parser outcome:
either `CPData::parse` ends so, or it yields an RP-DATA whose TL-SUBMIT parse, which
`handleRPDU` runs for plain text and whenever no SMSC address is configured, ends so. -/
def DecodeFails (w : World) (CM : L3Frame) (outcome : SMS.Parsed SMS.TLSubmit)
    (atCP : SMS.Parsed SMS.RLFrame) : Prop :=
  CM.cpData = atCP
    ∨ ∃ RPDU, CM.cpData = SMS.Parsed.ok RPDU ∧ RPDU.MTI = SMS.RPMessageType.Data
        ∧ RPDU.submit = outcome
        ∧ (w.config.smsMIMEType = "text/plain" ∨ w.config.smsc = none)

/-- A mobile-terminated call (transaction identifier 2) about to be set up on the channel;
the session leg has nothing to report and the mobile sends nothing. -/
def incomingCallWorld : World :=
  { exampleWorld with
    tr := { exampleEntry with GSMState := GSM.CallState.Paging,
                              SIPState := SIP.SIPState.NullState, L3TI := 2 } }

/-- The incoming call of `incomingCallWorld` when the caller cancels before the mobile has
confirmed: Trying is answered with Proceeding, the check for a cancel with Fail. -/
def cancelledCallWorld : World :=
  { incomingCallWorld with sip := [SIP.SIPState.Proceeding, SIP.SIPState.Fail] }

/-- The incoming call of `incomingCallWorld` when the mobile answers the Setup with Call
Confirmed. -/
def callConfirmedWorld : World :=
  { incomingCallWorld with
    rx := [some (callControlFrame (.L3CallConfirmed 2))],
    sip := [SIP.SIPState.Proceeding, SIP.SIPState.Proceeding] }

/-- A mobile-originated call in set-up (radio leg `MOCProceeding`); the session leg reports
Proceeding on the first wait and Busy on the second. -/
def busyCallWorld : World :=
  { exampleWorld with
    tr := { exampleEntry with GSMState := GSM.CallState.MOCProceeding,
                              SIPState := SIP.SIPState.Proceeding },
    sip := [SIP.SIPState.Proceeding, SIP.SIPState.Busy] }

/-- The call of `busyCallWorld` at the top of the second iteration of the first loop of
`MOCController`: Progress has been sent and Busy is the next report of the session leg. -/
def busyCallSecondPoll : World :=
  { busyCallWorld with
    trace := [Event.recv 5 0 0, Event.sip 1 SIPOp.MOCWaitForOK,
              Event.send 5 0 (L3Message.L3Progress 9)],
    sip := [SIP.SIPState.Busy] }

/-- A delivery in which the mobile answers the RP-DATA with CP-ACK and then with a CP-DATA
that carries an RP-DATA (`helloRPDU`) where the RP-ACK is due. -/
def deliveryUnackedWorld : World :=
  { exampleWorld with
    tr := { exampleEntry with GSMState := GSM.CallState.Paging, L3TI := 2, message := "HELLO" },
    rx := [some establishFrame, some (smsFrame SMS.CPMessageType.ACK SMS.Parsed.L3ReadError),
           some (smsFrame SMS.CPMessageType.DATA (SMS.Parsed.ok helloRPDU))],
    random := [300] }

/-- A delivery of a raw payload whose hexadecimal string does not decode; the link comes
up. -/
def badHexWorld : World :=
  { exampleWorld with rx := [some establishFrame], random := [300] }

/-- A delivery of a raw payload whose bits do not re-parse as RP-DATA; the link comes up. -/
def badPayloadWorld : World :=
  { exampleWorld with
    rx := [some establishFrame], random := [300],
    unhex := fun _ => some SMS.Parsed.SMSReadError }

/-- The submission of `submitWorld` under the SMSC address `smsc.example.org:5063`, when the
memory that held the address reads `jga` by the time `sendSIP` builds the called party and is
empty by the time the MESSAGE is sent. -/
def staleSubmitWorld : World :=
  { submitWorld with
    config := { exampleConfig with smsc := some "smsc.example.org:5063" },
    stale := ["jga", ""] }

/-- The submission of `staleSubmitWorld` when the session leg answers the MESSAGE with a
failure. -/
def staleRejectedSubmitWorld : World :=
  { staleSubmitWorld with sip := [SIP.SIPState.MessageSubmit, SIP.SIPState.Fail] }

/-- The call of `callConfirmedWorld` at the top of the second iteration of the loop of
`MTCStarter`: the Setup was sent, the mobile's Call Confirmed was read and dispatched, and no
cancel was reported. -/
def callConfirmedSecondPoll : World :=
  { callConfirmedWorld with
    trace := [Event.send 5 0 (L3Message.L3Setup 2 (some "2100") none),
              Event.sip 1 SIPOp.MTCSendTrying, Event.recv 5 0 1000,
              Event.sip 1 SIPOp.MTCCheckForCancel],
    rx := [], sip := [],
    tr := { callConfirmedWorld.tr with timers := ["301"],
                                       GSMState := GSM.CallState.MTCConfirmed,
                                       SIPState := SIP.SIPState.Proceeding } }

/-- Steps 2 to 4 of `Control::MOSMSController`: the part of the function that follows the
check of the first frame `CM`, from `unsigned L3TI = CM->TI() | 0x08;` to its end. -/
def MOSMSController.steps2to4 (CM : L3Frame) (LCH : Nat) : Ctl Unit := do
  let L3TI := CM.TI ||| 0x08
  transaction.setL3TI L3TI
  LogicalChannel.send LCH (.CPAck L3TI) 3
  let (ref, success) ← tryBlock (parseAndHandle CM) (fun e =>
    match e with
    | .SMSReadError => do
      LogicalChannel.send LCH (.CPData L3TI (.RPError 95 (refAtCatch CM))) 3
      raise (.UnexpectedMessage none)
    | .L3ReadError => raise (.UnsupportedMessage none)
    | other => raise other)
  (if success then LogicalChannel.send LCH (.CPData L3TI (.RPAck ref)) 3
    else LogicalChannel.send LCH (.CPData L3TI (.RPError 127 ref)) 3)
  let CM ← getFrameSMS LCH GSM.Primitive.DATA
  if CM.MTI ≠ SMS.CPMessageType.ACK then raise (.UnexpectedMessage none)
  else do
    LogicalChannel.send LCH .L3ChannelRelease 0
    gTransactionTable.remove

/-- A mobile starts a call to 2600; its Setup carries transaction identifier 3. -/
def setupWorld : World :=
  { exampleWorld with rx := [some (callControlFrame (.L3Setup 3 none (some "2600")))] }

/-- The established call of `exampleWorld` with timer 313 armed and a protocol timer reported
as expired. -/
def timerExpiredWorld : World :=
  { exampleWorld with tr := { exampleEntry with timers := ["313"] }, timerExpired := [true] }

/-- The established call of `exampleWorld` when the mobile sends Release and the session leg
then reports a BYE, which is acknowledged. -/
def releaseAndByeWorld : World :=
  { exampleWorld with
    rx := [some (callControlFrame (.L3Release 1))],
    sip := [SIP.SIPState.Active, SIP.SIPState.MTDClearing, SIP.SIPState.Cleared] }

/-- The established call of `exampleWorld` when only the session leg reports a BYE. -/
def byeWorld : World :=
  { exampleWorld with sip := [SIP.SIPState.MTDClearing] }

/-- The established call of `exampleWorld` when an outside process has requested its
termination. -/
def terminationWorld : World :=
  { exampleWorld with terminationRequested := [true] }

/-- The established call of `exampleWorld` with five uplink frames queued (10 the oldest), a
downlink frame waiting, and a configured maximum speech latency of 2. -/
def queuedWorld : World :=
  { exampleWorld with uplink := [10, 11, 12, 13, 14], rtpFrames := [true] }

/-- The established call of `exampleWorld` with a key press relayed successfully by the one
configured method (RFC 2833). -/
def dtmfWorld : World :=
  { exampleWorld with dtmfResult := [true] }

/-! ## Specification vocabulary for the port allocator -/

/-- Ports on the cycle walked by the allocator: `Start + 2 * j` below `Start + Range`. -/
def OnCycle (cfg : RTPConfig) (s : Option Nat) : Prop :=
  ∀ p, s = some p → ∃ j, p = cfg.Start + 2 * j ∧ 2 * j < cfg.Range

/-- Number of ports on the allocator's cycle. -/
def cycleLength (cfg : RTPConfig) : Nat := (cfg.Range + 1) / 2


/-! ## Specifications of runs -/

/-- The events recorded from `w` to `w1` all satisfy `p`. -/
def Ext (p : Event → Prop) (w w1 : World) : Prop :=
  ∃ d, w1.trace = w.trace ++ d ∧ ∀ e ∈ d, p e

/-- A run from `w` to `w1` kept the record's identifier and recorded only events in `p`. -/
def Appends (p : Event → Prop) (w w1 : World) : Prop :=
  w1.tr.ID = w.tr.ID ∧ Ext p w w1

/-- Every run of `m` that ends, by returning or by raising, kept the record's identifier and
recorded only events in `p`. -/
structure Only {α : Type} (p : Event → Prop) (m : Ctl α) : Prop where
  run : ∀ w, match m w with
    | .ret _ w1 => Appends p w w1
    | .raised _ w1 => Appends p w w1
    | .outOfFuel => True

/-- Every run of `m` that ends recorded only events in `p` (the record may be replaced). -/
structure OnlyExt {α : Type} (p : Event → Prop) (m : Ctl α) : Prop where
  run : ∀ w, match m w with
    | .ret _ w1 => Ext p w w1
    | .raised _ w1 => Ext p w w1
    | .outOfFuel => True

/-- Events other than a removal from the transaction table. -/
def notRemove : Event → Prop
  | .tableRemove _ => False
  | _ => True

/-- The identifiers handed to the table's remove operation by the events `d`, in order. -/
def removals (d : List Event) : List Nat :=
  d.filterMap fun e =>
    match e with
    | .tableRemove id => some id
    | _ => none

/-- A run from `w` to `w1` kept the record's identifier and invoked the table's remove
operation exactly once, on that record. -/
def RemovedOnce (w w1 : World) : Prop :=
  w1.tr.ID = w.tr.ID ∧ ∃ d, w1.trace = w.trace ++ d ∧ removals d = [w.tr.ID]

/-- Specification of a routine by its removals: a run that returns `a` either removed nothing,
and then `keep a` holds, or removed the record exactly once, and then `gone a` holds; a run
that raises removed nothing. -/
structure Removes {α : Type} (m : Ctl α) (keep : α → Prop) (gone : α → Prop) : Prop where
  run : ∀ w, match m w with
    | .ret a w1 => (keep a ∧ Appends notRemove w w1) ∨ (gone a ∧ RemovedOnce w w1)
    | .raised _ w1 => Appends notRemove w w1
    | .outOfFuel => True

/-- The same specification for a routine that creates its record: the removal is of the
record the routine ends with. -/
structure RemovesFinal {α : Type} (m : Ctl α) (keep : α → Prop) (gone : α → Prop) : Prop where
  run : ∀ w, match m w with
    | .ret a w1 => (keep a ∧ Ext notRemove w w1)
        ∨ (gone a ∧ ∃ d, w1.trace = w.trace ++ d ∧ removals d = [w1.tr.ID])
    | .raised _ w1 => Ext notRemove w w1
    | .outOfFuel => True

/-- Events that are no part of a cleanup: not a removal from the table, not a channel release,
not a message or primitive of the radio-leg force-clear, not an operation of the session-leg
force-clear. -/
def notCleanup : Event → Prop
  | .tableRemove _ => False
  | .send _ _ .L3ChannelRelease => False
  | .send _ _ (.L3Disconnect _ _) => False
  | .send _ _ (.L3ReleaseComplete _ _) => False
  | .sendPrimitive _ _ .RELEASE => False
  | .sip _ .MODSendBYE => False
  | .sip _ .MODResendBYE => False
  | .sip _ .MODWaitForOK => False
  | _ => True

/-- Every run of `m` that raises recorded only events in `p`. -/
structure Unwinds {α : Type} (p : Event → Prop) (m : Ctl α) : Prop where
  run : ∀ w, match m w with
    | .raised _ w1 => Ext p w w1
    | _ => True

/-- Every run of `m` that returns has recorded the events `tail` last. -/
structure EndsWith {α : Type} (tail : World → List Event) (m : Ctl α) : Prop where
  run : ∀ w, match m w with
    | .ret _ w1 => ∃ d, w1.trace = w.trace ++ d ++ tail w1
    | _ => True

/-- Events other than sending an L3 Connect to the mobile. -/
def notConnect : Event → Prop
  | .send _ _ (.L3Connect _) => False
  | _ => True

/-- A Call Confirmed message that reaches the dispatcher is among the frames `pre`: a frame
that is no ERROR primitive and parses to L3CallConfirmed. -/
def CallConfirmedIn (pre : List (Option L3Frame)) : Prop :=
  ∃ f ti, some f ∈ pre ∧ f.primitive ≠ GSM.Primitive.ERROR
    ∧ f.parseL3 = some (L3Message.L3CallConfirmed ti)

/-- From `w` to `w1` frames `pre` were read from the channel, and the radio leg is
`MTCConfirmed` in `w1` only if it was so in `w` or a Call Confirmed message is among `pre`. -/
def Confirms (w w1 : World) : Prop :=
  ∃ pre, w.rx = pre ++ w1.rx ∧
    (w1.tr.GSMState = GSM.CallState.MTCConfirmed →
      w.tr.GSMState = GSM.CallState.MTCConfirmed ∨ CallConfirmedIn pre)

/-- Every run of `m` that ends, by returning or by raising, is related to its start by
`Confirms`. -/
structure Confirming {α : Type} (m : Ctl α) : Prop where
  run : ∀ w, match m w with
    | .ret _ w1 => Confirms w w1
    | .raised _ w1 => Confirms w w1
    | .outOfFuel => True

/-- The world in which `MTCStarter` enters its loop: Setup sent, T303 running, radio leg in
`CallPresent`. -/
def MTCStarter.setupSent (LCH : Nat) (w : World) : World :=
  { w with
    trace := w.trace ++ [Event.send LCH 0 (.L3Setup w.tr.L3TI (some w.tr.calling) none)],
    tr := { w.tr with timers := "303" :: w.tr.timers.filter (fun t => t ≠ "303"),
                      GSMState := GSM.CallState.CallPresent } }

/-- Every run of `m` that ends, by returning or by raising, read no frame from the channel and
left the radio leg in `MTCConfirmed` only if it was so before. -/
structure Keeps {α : Type} (m : Ctl α) : Prop where
  run : ∀ w, match m w with
    | .ret _ w1 => w1.rx = w.rx ∧
        (w1.tr.GSMState = GSM.CallState.MTCConfirmed → w.tr.GSMState = GSM.CallState.MTCConfirmed)
    | .raised _ w1 => w1.rx = w.rx ∧
        (w1.tr.GSMState = GSM.CallState.MTCConfirmed → w.tr.GSMState = GSM.CallState.MTCConfirmed)
    | .outOfFuel => True

/-- Every run of `m` that ends, by returning or by raising, has left the script of
termination requests and the stored L3TI as they were. -/
structure Untouched {α : Type} (m : Ctl α) : Prop where
  run : ∀ w, match m w with
    | .ret _ w1 => w1.terminationRequested = w.terminationRequested ∧ w1.tr.L3TI = w.tr.L3TI
    | .raised _ w1 => w1.terminationRequested = w.terminationRequested ∧ w1.tr.L3TI = w.tr.L3TI
    | .outOfFuel => True

/-- Every run of `m` that ends has asked for the termination flag at most once: the script
of termination requests is as it was, or has lost its first entry. -/
structure ExaminesOnce {α : Type} (m : Ctl α) : Prop where
  run : ∀ w, match m w with
    | .ret _ w1 => w1.terminationRequested = w.terminationRequested
        ∨ w1.terminationRequested = w.terminationRequested.tail
    | .raised _ w1 => w1.terminationRequested = w.terminationRequested
        ∨ w1.terminationRequested = w.terminationRequested.tail
    | .outOfFuel => True

/-- Events other than a media transfer: no frame is taken from or handed to the RTP session,
none is sent on or taken from the traffic channel. -/
def notMedia : Event → Prop
  | .rxFrame _ => False
  | .txFrame _ _ => False
  | .sendTCH _ => False
  | .recvTCH _ => False
  | _ => True

/-- The radio-leg state after the dispatcher as the specification gives it, by the kind of
the message alone: Connect Acknowledge or Connect gives Active, Call Confirmed MTCConfirmed,
Alerting CallReceived, Disconnect ReleaseRequest, Release or Release Complete Null; every
other message, an unrecognized and a null one leave the state `old`. -/
def stateAfterDispatch (message : Option L3Message) (old : GSM.CallState) : GSM.CallState :=
  match message with
  | some (.L3ConnectAcknowledge _) => GSM.CallState.Active
  | some (.L3Connect _) => GSM.CallState.Active
  | some (.L3CallConfirmed _) => GSM.CallState.MTCConfirmed
  | some (.L3Alerting _) => GSM.CallState.CallReceived
  | some (.L3Disconnect _ _) => GSM.CallState.ReleaseRequest
  | some (.L3Release _) => GSM.CallState.NullState
  | some (.L3ReleaseComplete _ _) => GSM.CallState.NullState
  | _ => old

/-- The message kinds on which the dispatcher releases the radio leg itself. -/
def isRelease (message : Option L3Message) : Prop :=
  (∃ ti, message = some (L3Message.L3Release ti))
    ∨ ∃ ti cause, message = some (L3Message.L3ReleaseComplete ti cause)

/-- The key press is relayed: a relay method is configured and reports success. The methods
are tried in the order RFC 2833, RFC 2967, each configured one once, and each takes its
answer from the script of relay results. -/
def dtmfRelayed (w : World) : Bool :=
  (w.config.dtmfRFC2833 && w.dtmfResult.headD false)
    || (w.config.dtmfRFC2967
          && (if w.config.dtmfRFC2833 then w.dtmfResult.tail else w.dtmfResult).headD false)

/-- What the dispatcher asks of the SIP engine to relay a key press: one operation for each
configured method. -/
def dtmfRelayEvents (w : World) (key : Char) : List Event :=
  (if w.config.dtmfRFC2833 then [Event.sip w.tr.ID (SIPOp.startDTMF key)] else [])
    ++ (if w.config.dtmfRFC2967 then [Event.sip w.tr.ID (SIPOp.sendINFOAndWaitForOK key)]
        else [])

/-- The kind of a raised condition: the condition without the transaction identifier it may
carry. -/
def conditionKind : ControlException → ControlException
  | .UnexpectedMessage _ => .UnexpectedMessage none
  | .UnsupportedMessage _ => .UnsupportedMessage none
  | e => e

/-- The events of `d` on service access point 3 of the channel: messages and primitives sent
there and reads made there. -/
def sap3 (d : List Event) : List Event :=
  d.filter fun e =>
    match e with
    | .send _ 3 _ => true
    | .sendPrimitive _ 3 _ => true
    | .recv _ 3 _ => true
    | _ => false

/-- The outcome `o1` of the in-call submission and the outcome `o2` of steps 2 to 4 of the
stand-alone submission, both run from `w` on channel `LCH`, agree but for the channel release:
either both return, with the same events up to the removal of the record, before which only
the stand-alone run has sent L3ChannelRelease, and otherwise in the same world; or both raise
a condition of the same kind in the same world. -/
def AgreeButRelease (LCH : Nat) (w : World) : Outcome Unit → Outcome Unit → Prop
  | .ret _ w1, .ret _ w2 =>
    ∃ d, w1.trace = w.trace ++ d ++ [Event.tableRemove w1.tr.ID]
      ∧ w2.trace = w.trace ++ d
          ++ [Event.send LCH 0 L3Message.L3ChannelRelease, Event.tableRemove w1.tr.ID]
      ∧ w2 = { w1 with trace := w2.trace }
  | .raised e1 w1, .raised e2 w2 => conditionKind e1 = conditionKind e2 ∧ w1 = w2
  | _, _ => False

/-- Every run of `m` ends, by returning or by raising: no bound on loop iterations stops
it. -/
structure Ends {α : Type} (m : Ctl α) : Prop where
  run : ∀ w, m w ≠ Outcome.outOfFuel

/-! ## Reasoning about runs -/

set_option linter.unusedTactic false
set_option linter.unreachableTactic false
set_option linter.unusedVariables false

theorem bind_apply {α β : Type} (m : Ctl α) (f : α → Ctl β) (w : World) :
    (m >>= f) w = match m w with
      | .ret a w1 => f a w1
      | .raised e w1 => .raised e w1
      | .outOfFuel => .outOfFuel := rfl

theorem pure_apply {α : Type} (a : α) (w : World) : (pure a : Ctl α) w = .ret a w := rfl

theorem Ext_refl (p : Event → Prop) (w : World) : Ext p w w :=
  ⟨[], by simp, by simp⟩

theorem Ext_trans {p : Event → Prop} {w w1 w2 : World} (h1 : Ext p w w1) (h2 : Ext p w1 w2) :
    Ext p w w2 := by
  obtain ⟨d1, ht1, hp1⟩ := h1
  obtain ⟨d2, ht2, hp2⟩ := h2
  refine ⟨d1 ++ d2, by rw [ht2, ht1, List.append_assoc], ?_⟩
  intro e he
  rcases List.mem_append.mp he with h | h
  · exact hp1 e h
  · exact hp2 e h

theorem Ext_mono {p q : Event → Prop} (hpq : ∀ e, p e → q e) {w w1 : World} (h : Ext p w w1) :
    Ext q w w1 := by
  obtain ⟨d, ht, hp⟩ := h
  exact ⟨d, ht, fun e he => hpq e (hp e he)⟩

theorem Appends_refl (p : Event → Prop) (w : World) : Appends p w w :=
  ⟨rfl, Ext_refl p w⟩

theorem Appends_trans {p : Event → Prop} {w w1 w2 : World} (h1 : Appends p w w1)
    (h2 : Appends p w1 w2) : Appends p w w2 :=
  ⟨h2.1.trans h1.1, Ext_trans h1.2 h2.2⟩

theorem Appends_mono {p q : Event → Prop} (hpq : ∀ e, p e → q e) {w w1 : World}
    (h : Appends p w w1) : Appends q w w1 :=
  ⟨h.1, Ext_mono hpq h.2⟩

theorem Only_bind {α β : Type} {p : Event → Prop} {m : Ctl α} {f : α → Ctl β}
    (hm : Only p m) (hf : ∀ a, Only p (f a)) : Only p (m >>= f) := by
  constructor
  intro w
  have h1 := hm.run w
  rw [bind_apply]
  cases hmw : m w with
  | ret a w1 =>
    rw [hmw] at h1
    have h2 := (hf a).run w1
    simp only
    cases hfw : f a w1 with
    | ret b w2 => rw [hfw] at h2; exact Appends_trans h1 h2
    | raised e w2 => rw [hfw] at h2; exact Appends_trans h1 h2
    | outOfFuel => trivial
  | raised e w1 => rw [hmw] at h1; exact h1
  | outOfFuel => trivial

@[simp]
theorem Only_pure {α : Type} (p : Event → Prop) (a : α) : Only p (pure a : Ctl α) :=
  ⟨fun w => Appends_refl p w⟩

@[simp]
theorem Only_raise {α : Type} (p : Event → Prop) (e : ControlException) :
    Only p (raise e : Ctl α) :=
  ⟨fun w => Appends_refl p w⟩

@[simp]
theorem Only_outOfFuel {α : Type} (p : Event → Prop) : Only p (outOfFuel : Ctl α) :=
  ⟨fun _ => trivial⟩

theorem Only_tryBlock {α : Type} {p : Event → Prop} {m : Ctl α} {h : ControlException → Ctl α}
    (hm : Only p m) (hh : ∀ e, Only p (h e)) : Only p (tryBlock m h) := by
  constructor
  intro w
  have h1 := hm.run w
  unfold OpenBTS.tryBlock
  cases hmw : m w with
  | ret a w1 => rw [hmw] at h1; simpa using h1
  | raised e w1 =>
    rw [hmw] at h1
    have h2 := (hh e).run w1
    simp only
    cases hfw : h e w1 with
    | ret b w2 => rw [hfw] at h2; exact Appends_trans h1 h2
    | raised e w2 => rw [hfw] at h2; exact Appends_trans h1 h2
    | outOfFuel => trivial
  | outOfFuel => trivial

@[simp]
theorem Only_emit {p : Event → Prop} {e : Event} (h : p e) : Only p (emit e) := by
  constructor
  intro w
  exact ⟨rfl, [e], rfl, by simpa using h⟩

/-- A step that records nothing and keeps the record's identifier. -/
theorem Only_silent {α : Type} (p : Event → Prop) {m : Ctl α}
    (h : ∀ w, ∃ a w1, m w = .ret a w1 ∧ w1.tr.ID = w.tr.ID ∧ w1.trace = w.trace) : Only p m := by
  constructor
  intro w
  obtain ⟨a, w1, hm, hid, ht⟩ := h w
  rw [hm]
  exact ⟨hid, [], by simp [ht], by simp⟩

@[simp]
theorem Only_assert (p : Event → Prop) (c : Bool) : Only p (assert c) := by
  unfold OpenBTS.assert
  split
  · exact Only_pure p _
  · exact Only_raise p _

@[simp]
theorem Only_getTr (p : Event → Prop) : Only p getTr :=
  Only_silent p fun _ => ⟨_, _, rfl, rfl, rfl⟩

@[simp]
theorem Only_getConfig (p : Event → Prop) : Only p getConfig :=
  Only_silent p fun _ => ⟨_, _, rfl, rfl, rfl⟩

@[simp]
theorem Only_readChars (p : Event → Prop) (address : CharPtr) : Only p (readChars address) :=
  Only_silent p fun _ => by
    unfold readChars
    split <;> exact ⟨_, _, rfl, rfl, rfl⟩

@[simp]
theorem Only_GSMState (p : Event → Prop) : Only p transaction.GSMState :=
  Only_silent p fun _ => ⟨_, _, rfl, rfl, rfl⟩

@[simp]
theorem Only_setGSMState (p : Event → Prop) (s : GSM.CallState) :
    Only p (transaction.setGSMState s) :=
  Only_silent p fun _ => ⟨_, _, rfl, rfl, rfl⟩

@[simp]
theorem Only_SIPState (p : Event → Prop) : Only p transaction.SIPState :=
  Only_silent p fun _ => ⟨_, _, rfl, rfl, rfl⟩

@[simp]
theorem Only_clearingGSM (p : Event → Prop) : Only p transaction.clearingGSM :=
  Only_silent p fun _ => ⟨_, _, rfl, rfl, rfl⟩

@[simp]
theorem Only_L3TI (p : Event → Prop) : Only p transaction.L3TI :=
  Only_silent p fun _ => ⟨_, _, rfl, rfl, rfl⟩

@[simp]
theorem Only_setL3TI (p : Event → Prop) (ti : Nat) : Only p (transaction.setL3TI ti) :=
  Only_silent p fun _ => ⟨_, _, rfl, rfl, rfl⟩

@[simp]
theorem Only_setChannel (p : Event → Prop) (LCH : Nat) : Only p (transaction.setChannel LCH) :=
  Only_silent p fun _ => ⟨_, _, rfl, rfl, rfl⟩

@[simp]
theorem Only_setCalledAndMessage (p : Event → Prop) (a b : String) :
    Only p (transaction.setCalledAndMessage a b) :=
  Only_silent p fun _ => ⟨_, _, rfl, rfl, rfl⟩

@[simp]
theorem Only_ID (p : Event → Prop) : Only p transaction.ID :=
  Only_silent p fun _ => ⟨_, _, rfl, rfl, rfl⟩

@[simp]
theorem Only_resetTimers (p : Event → Prop) : Only p transaction.resetTimers :=
  Only_silent p fun _ => ⟨_, _, rfl, rfl, rfl⟩

@[simp]
theorem Only_resetTimer (p : Event → Prop) (n : String) : Only p (transaction.resetTimer n) :=
  Only_silent p fun _ => ⟨_, _, rfl, rfl, rfl⟩

@[simp]
theorem Only_setTimer (p : Event → Prop) (n : String) : Only p (transaction.setTimer n) :=
  Only_silent p fun _ => ⟨_, _, rfl, rfl, rfl⟩

@[simp]
theorem Only_anyTimerExpired (p : Event → Prop) : Only p transaction.anyTimerExpired :=
  Only_silent p fun _ => ⟨_, _, rfl, rfl, rfl⟩

@[simp]
theorem Only_terminationRequested (p : Event → Prop) : Only p transaction.terminationRequested :=
  Only_silent p fun _ => ⟨_, _, rfl, rfl, rfl⟩

@[simp]
theorem Only_radioFailure (p : Event → Prop) (LCH : Nat) :
    Only p (LogicalChannel.radioFailure LCH) :=
  Only_silent p fun _ => ⟨_, _, rfl, rfl, rfl⟩

@[simp]
theorem Only_multiframeMode (p : Event → Prop) (LCH sap : Nat) :
    Only p (LogicalChannel.multiframeMode LCH sap) :=
  Only_silent p fun _ => ⟨_, _, rfl, rfl, rfl⟩

@[simp]
theorem Only_queueSize (p : Event → Prop) (LCH : Nat) : Only p (LogicalChannel.queueSize LCH) :=
  Only_silent p fun _ => ⟨_, _, rfl, rfl, rfl⟩

@[simp]
theorem Only_random (p : Event → Prop) : Only p random :=
  Only_silent p fun _ => ⟨_, _, rfl, rfl, rfl⟩

@[simp]
theorem Only_unhexAndParse (p : Event → Prop) (s : String) : Only p (unhexAndParse s) :=
  Only_silent p fun _ => ⟨_, _, rfl, rfl, rfl⟩

@[simp]
theorem Only_send {p : Event → Prop} {LCH sap : Nat} {msg : L3Message}
    (h : p (.send LCH sap msg)) : Only p (LogicalChannel.send LCH msg sap) :=
  Only_emit h

@[simp]
theorem Only_sendPrimitive {p : Event → Prop} {LCH sap : Nat} {prim : GSM.Primitive}
    (h : p (.sendPrimitive LCH sap prim)) : Only p (LogicalChannel.sendPrimitive LCH prim sap) :=
  Only_emit h

@[simp]
theorem Only_sendTCH {p : Event → Prop} {TCH : Nat} (h : p (.sendTCH TCH)) :
    Only p (LogicalChannel.sendTCH TCH) :=
  Only_emit h

@[simp]
theorem Only_recv {p : Event → Prop} {LCH sap timeout : Nat} (h : p (.recv LCH sap timeout)) :
    Only p (LogicalChannel.recv LCH timeout sap) := by
  constructor
  intro w
  exact ⟨rfl, [.recv LCH sap timeout], rfl, by simpa using h⟩

@[simp]
theorem Only_recvTCH {p : Event → Prop} {TCH : Nat} (h : p (.recvTCH TCH)) :
    Only p (LogicalChannel.recvTCH TCH) := by
  constructor
  intro w
  exact ⟨rfl, [.recvTCH TCH], rfl, by simpa using h⟩

@[simp]
theorem Only_engine {p : Event → Prop} {op : SIPOp} (h : ∀ id, p (.sip id op)) :
    Only p (transaction.engine op) := by
  constructor
  intro w
  exact ⟨rfl, [.sip w.tr.ID op], rfl, by simpa using h _⟩

@[simp]
theorem Only_engineBool {p : Event → Prop} {op : SIPOp} (h : ∀ id, p (.sip id op)) :
    Only p (transaction.engineBool op) := by
  constructor
  intro w
  exact ⟨rfl, [.sip w.tr.ID op], rfl, by simpa using h _⟩

@[simp]
theorem Only_rxFrame {p : Event → Prop} (h : ∀ id, p (.rxFrame id)) :
    Only p transaction.rxFrame := by
  constructor
  intro w
  exact ⟨rfl, [.rxFrame w.tr.ID], rfl, by simpa using h _⟩

@[simp]
theorem Only_txFrame {p : Event → Prop} {frame : Nat} (h : ∀ id, p (.txFrame id frame)) :
    Only p (transaction.txFrame frame) := by
  constructor
  intro w
  exact ⟨rfl, [.txFrame w.tr.ID frame], rfl, by simpa using h _⟩

@[simp]
theorem Only_add {p : Event → Prop} {id : Nat} (h : p (.tableAdd id)) :
    Only p (gTransactionTable.add id) := by
  constructor
  intro w
  exact ⟨rfl, [.tableAdd id], rfl, by simpa using h⟩

@[simp]
theorem Only_addNew {p : Event → Prop} (h : ∀ id, p (.tableAdd id)) :
    Only p gTransactionTable.addNew := by
  constructor
  intro w
  exact ⟨rfl, [.tableAdd w.nextID], rfl, by simpa using h _⟩

@[simp]
theorem Only_remove {p : Event → Prop} (h : ∀ id, p (.tableRemove id)) :
    Only p gTransactionTable.remove := by
  constructor
  intro w
  exact ⟨rfl, [.tableRemove w.tr.ID], rfl, by simpa using h _⟩

@[simp]
theorem Only_allocateRTPPortsM (p : Event → Prop) : Only p allocateRTPPortsM := by
  constructor
  intro w
  unfold OpenBTS.allocateRTPPortsM
  cases allocateRTPPorts w.config.RTP (w.random.headD 0) w.rtpPort with
  | none => exact Appends_refl p w
  | some r => exact ⟨rfl, [], by simp, by simp⟩


theorem Only_mono {α : Type} {p q : Event → Prop} (hpq : ∀ e, p e → q e) {m : Ctl α}
    (h : Only p m) : Only q m := by
  constructor
  intro w
  have h1 := h.run w
  cases hmw : m w with
  | ret a w1 => rw [hmw] at h1; exact Appends_mono hpq h1
  | raised e w1 => rw [hmw] at h1; exact Appends_mono hpq h1
  | outOfFuel => trivial

theorem Only_toExt {α : Type} {p : Event → Prop} {m : Ctl α} (h : Only p m) : OnlyExt p m := by
  constructor
  intro w
  have h1 := h.run w
  cases hmw : m w with
  | ret a w1 => rw [hmw] at h1; exact h1.2
  | raised e w1 => rw [hmw] at h1; exact h1.2
  | outOfFuel => trivial

theorem OnlyExt_newTransactionEntrySMS (p : Event → Prop) (s : String) (LCH : Nat) :
    OnlyExt p (newTransactionEntrySMS s LCH) :=
  ⟨fun _ => ⟨[], by simp [OpenBTS.newTransactionEntrySMS], by simp⟩⟩

theorem OnlyExt_newTransactionEntryMOC (p : Event → Prop) (s : String) (LCH ti : Nat)
    (c : String) : OnlyExt p (newTransactionEntryMOC s LCH ti c) :=
  ⟨fun _ => ⟨[], by simp [OpenBTS.newTransactionEntryMOC], by simp⟩⟩

/-! ## RTP port allocation -/

theorem base_eq (cfg : RTPConfig) (h : cfg.Start + cfg.Range + 1 < 2 ^ 32) :
    cfg.base = cfg.Start ∧ cfg.range = cfg.Range ∧ cfg.top = cfg.Start + cfg.Range := by
  simp only [RTPConfig.top, RTPConfig.base, RTPConfig.range, UNSIGNED]
  omega

theorem advancePort_eq (cfg : RTPConfig) (h : cfg.Start + cfg.Range + 1 < 2 ^ 32) (p : Nat)
    (hp : p < cfg.Start + cfg.Range) :
    advancePort cfg p = (p, if p + 2 < cfg.Start + cfg.Range then p + 2 else cfg.Start) := by
  obtain ⟨hb, -, ht⟩ := base_eq cfg h
  simp only [advancePort, hb, ht, UNSIGNED]
  have : (p + 2) % 2 ^ 32 = p + 2 := Nat.mod_eq_of_lt (by omega)
  rw [this]
  by_cases hc : p + 2 < cfg.Start + cfg.Range
  · simp [hc, Nat.not_le.mpr hc]
  · simp [hc, Nat.not_lt.mp hc]

theorem initialPort_eq (cfg : RTPConfig) (rnd : Nat) (h2 : 2 ≤ cfg.Range)
    (h : cfg.Start + cfg.Range + 1 < 2 ^ 32) :
    initialPort cfg rnd = some (cfg.Start + 2 * (rnd % (cfg.Range / 2))) := by
  obtain ⟨hb, hr, -⟩ := base_eq cfg h
  have hpos : 0 < cfg.Range / 2 := by omega
  have hlt : rnd % (cfg.Range / 2) < cfg.Range / 2 := Nat.mod_lt _ hpos
  simp only [initialPort, hb, hr, UNSIGNED]
  rw [if_neg (by omega)]
  congr 1
  exact Nat.mod_eq_of_lt (by omega)

theorem allocate_onCycle (cfg : RTPConfig) (rnd : Nat) (h2 : 2 ≤ cfg.Range)
    (h : cfg.Start + cfg.Range + 1 < 2 ^ 32) (s : Option Nat) (hs : OnCycle cfg s) :
    ∃ p, allocateRTPPorts cfg rnd s
        = some (p, if p + 2 < cfg.Start + cfg.Range then p + 2 else cfg.Start)
      ∧ OnCycle cfg (some p)
      ∧ OnCycle cfg (some (if p + 2 < cfg.Start + cfg.Range then p + 2 else cfg.Start))
      ∧ (∀ q, s = some q → p = q) := by
  have key : ∀ p, OnCycle cfg (some p) →
      OnCycle cfg (some (if p + 2 < cfg.Start + cfg.Range then p + 2 else cfg.Start)) := by
    intro p hp q hq
    obtain ⟨j, hj, hjr⟩ := hp p rfl
    simp only [Option.some.injEq] at hq
    by_cases hc : p + 2 < cfg.Start + cfg.Range
    · rw [if_pos hc] at hq
      exact ⟨j + 1, by omega, by omega⟩
    · rw [if_neg hc] at hq
      exact ⟨0, by omega, by omega⟩
  cases s with
  | some p =>
    obtain ⟨j, hj, hjr⟩ := hs p rfl
    refine ⟨p, ?_, hs, key p hs, ?_⟩
    · simp only [allocateRTPPorts]
      rw [advancePort_eq cfg h p (by omega)]
    · intro q hq
      simpa using hq
  | none =>
    have hpos : 0 < cfg.Range / 2 := by omega
    have hlt : rnd % (cfg.Range / 2) < cfg.Range / 2 := Nat.mod_lt _ hpos
    have hc : OnCycle cfg (some (cfg.Start + 2 * (rnd % (cfg.Range / 2)))) := by
      intro q hq
      simp only [Option.some.injEq] at hq
      exact ⟨rnd % (cfg.Range / 2), hq.symm, by omega⟩
    refine ⟨cfg.Start + 2 * (rnd % (cfg.Range / 2)), ?_, hc, key _ hc, ?_⟩
    · simp only [allocateRTPPorts, initialPort_eq cfg rnd h2 h]
      rw [advancePort_eq cfg h _ (by omega)]
    · intro q hq
      cases hq

theorem allocateSeq_inRange (cfg : RTPConfig) (rnd : Nat) (h2 : 2 ≤ cfg.Range)
    (h : cfg.Start + cfg.Range + 1 < 2 ^ 32) (n : Nat) :
    ∀ s, OnCycle cfg s → ∃ ports s', allocateSeq cfg rnd n s = some (ports, s') ∧ OnCycle cfg s'
      ∧ ∀ p ∈ ports, cfg.Start ≤ p ∧ p < cfg.Start + cfg.Range := by
  induction n with
  | zero =>
    intro s hs
    exact ⟨[], s, rfl, hs, by simp⟩
  | succ n ih =>
    intro s hs
    obtain ⟨p, hp, hpc, hnext, -⟩ := allocate_onCycle cfg rnd h2 h s hs
    obtain ⟨rest, s', hrest, hs', hall⟩ := ih _ hnext
    refine ⟨p :: rest, s', ?_, hs', ?_⟩
    · simp only [allocateSeq, hp, hrest]
    · intro q hq
      rcases List.mem_cons.mp hq with rfl | hq
      · obtain ⟨j, hj, hjr⟩ := hpc q rfl
        omega
      · exact hall q hq


theorem allocateSeq_closed (cfg : RTPConfig) (rnd : Nat)
    (h : cfg.Start + cfg.Range + 1 < 2 ^ 32) (n : Nat) :
    ∀ j, 2 * j < cfg.Range →
      allocateSeq cfg rnd n (some (cfg.Start + 2 * j))
        = some ((List.range n).map (fun i => cfg.Start + 2 * ((j + i) % cycleLength cfg)),
                some (cfg.Start + 2 * ((j + n) % cycleLength cfg))) := by
  induction n with
  | zero =>
    intro j hj
    have : j % cycleLength cfg = j := Nat.mod_eq_of_lt (by unfold cycleLength; omega)
    simp [allocateSeq, this]
  | succ n ih =>
    intro j hj
    have hstep : (if cfg.Start + 2 * j + 2 < cfg.Start + cfg.Range then cfg.Start + 2 * j + 2
        else cfg.Start) = cfg.Start + 2 * ((j + 1) % cycleLength cfg) := by
      by_cases hc : cfg.Start + 2 * j + 2 < cfg.Start + cfg.Range
      · rw [if_pos hc, Nat.mod_eq_of_lt (by unfold cycleLength; omega)]
        omega
      · have : j + 1 = cycleLength cfg := by unfold cycleLength; omega
        rw [if_neg hc, this, Nat.mod_self]
        rfl
    have hlt : 2 * ((j + 1) % cycleLength cfg) < cfg.Range := by
      have : (j + 1) % cycleLength cfg < cycleLength cfg :=
        Nat.mod_lt _ (by unfold cycleLength; omega)
      unfold cycleLength at this ⊢
      omega
    have hj0 : j % cycleLength cfg = j := Nat.mod_eq_of_lt (by unfold cycleLength; omega)
    simp only [allocateSeq, allocateRTPPorts]
    rw [advancePort_eq cfg h _ (by omega)]
    simp only [hstep, ih _ hlt]
    rw [List.range_succ_eq_map]
    simp only [List.map_cons, List.map_map, Nat.add_zero, hj0]
    congr 3
    · apply List.map_congr_left
      intro i _
      simp only [Function.comp, Nat.succ_eq_add_one]
      rw [Nat.mod_add_mod, Nat.add_assoc, Nat.add_comm 1 i]
    · rw [Nat.mod_add_mod, Nat.add_assoc, Nat.add_comm 1 n]

theorem cycle_nodup (cfg : RTPConfig) (j n : Nat) (hn : n ≤ cycleLength cfg) :
    ((List.range n).map (fun i => cfg.Start + 2 * ((j + i) % cycleLength cfg))).Nodup := by
  apply List.Nodup.map_on _ (List.nodup_range n)
  intro a ha b hb hab
  rw [List.mem_range] at ha hb
  have h1 : (j + a) % cycleLength cfg = (j + b) % cycleLength cfg := by omega
  have h2 : a % cycleLength cfg = b % cycleLength cfg := Nat.ModEq.add_left_cancel' j h1
  rwa [Nat.mod_eq_of_lt (by omega), Nat.mod_eq_of_lt (by omega)] at h2

theorem allocateSeq_nodup (cfg : RTPConfig) (rnd : Nat) (h2 : 2 ≤ cfg.Range)
    (h : cfg.Start + cfg.Range + 1 < 2 ^ 32) (s : Option Nat) (hs : OnCycle cfg s) (n : Nat)
    (hn : n ≤ cfg.Range / 2) :
    ∃ run s', allocateSeq cfg rnd n s = some (run, s') ∧ run.Nodup := by
  have hK : n ≤ cycleLength cfg := by unfold cycleLength; omega
  cases n with
  | zero => exact ⟨[], s, rfl, List.nodup_nil⟩
  | succ n =>
    obtain ⟨p, hp, hpc, -, -⟩ := allocate_onCycle cfg rnd h2 h s hs
    obtain ⟨j, hj, hjr⟩ := hpc p rfl
    have hsame : allocateSeq cfg rnd (n + 1) s
        = allocateSeq cfg rnd (n + 1) (some (cfg.Start + 2 * j)) := by
      rw [allocateSeq, allocateSeq, hp, ← hj]
      simp only [allocateRTPPorts]
      rw [advancePort_eq cfg h p (by omega)]
    rw [hsame, allocateSeq_closed cfg rnd h (n + 1) j hjr]
    exact ⟨_, _, rfl, cycle_nodup cfg j (n + 1) hK⟩


/-! ## No routine but the table removal records a removal -/

@[simp]
theorem only_forceGSMClearing (LCH cause : Nat) : Only notRemove (forceGSMClearing LCH cause) := by
  unfold forceGSMClearing
  repeat' first
    | (simp [notRemove]; done)
    | apply Only_bind
    | intro _
    | split

@[simp]
theorem only_forceSIPClearing : Only notRemove forceSIPClearing := by
  unfold forceSIPClearing
  repeat' first
    | (simp [notRemove]; done)
    | apply Only_bind
    | intro _
    | split

@[simp]
theorem only_abortCall (LCH : Option Nat) (cause : Nat) : Only notRemove (abortCall LCH cause) := by
  unfold abortCall
  repeat' first
    | (simp [notRemove]; done)
    | apply Only_bind
    | intro _
    | split

@[simp]
theorem only_InCallMOSMSStarter : Only notRemove InCallMOSMSStarter := by
  unfold InCallMOSMSStarter
  repeat' first
    | (simp [notRemove]; done)
    | apply Only_bind
    | intro _
    | split

@[simp]
theorem only_callManagementDispatchGSM (LCH : Nat) (message : Option L3Message) :
    Only notRemove (callManagementDispatchGSM LCH message) := by
  unfold callManagementDispatchGSM
  repeat' first
    | (simp [notRemove]; done)
    | apply Only_bind
    | intro _
    | split

@[simp]
theorem only_flushUplink (TCH maxQ fuel : Nat) : Only notRemove (flushUplink TCH maxQ fuel) := by
  induction fuel with
  | zero => unfold flushUplink; simp
  | succ n ih =>
    unfold flushUplink
    repeat' first
      | assumption
      | (simp [notRemove]; done)
      | apply Only_bind
      | intro _
      | split

@[simp]
theorem only_updateCallTraffic (fuel TCH : Nat) : Only notRemove (updateCallTraffic fuel TCH) := by
  unfold updateCallTraffic
  repeat' first
    | (simp [notRemove]; done)
    | apply Only_bind
    | intro _
    | split

@[simp]
theorem only_updateGSMSignalling (LCH timeout : Nat) :
    Only notRemove (updateGSMSignalling LCH timeout) := by
  unfold updateGSMSignalling
  repeat' first
    | (simp [notRemove]; done)
    | apply Only_bind
    | intro _
    | split

@[simp]
theorem only_updateSIPSignalling (LCH : Nat) (GSMCleared : Bool) :
    Only notRemove (updateSIPSignalling LCH GSMCleared) := by
  unfold updateSIPSignalling
  repeat' first
    | (simp [notRemove]; done)
    | apply Only_bind
    | intro _
    | split

@[simp]
theorem only_updateSignalling (LCH timeout : Nat) :
    Only notRemove (updateSignalling LCH timeout) := by
  unfold updateSignalling
  repeat' first
    | (simp [notRemove]; done)
    | apply Only_bind
    | intro _
    | split

@[simp]
theorem only_pollInCall (fuel TCH : Nat) : Only notRemove (pollInCall fuel TCH) := by
  unfold pollInCall
  repeat' first
    | (simp [notRemove]; done)
    | apply Only_bind
    | intro _
    | split

/-! ## Counting removals -/

theorem removals_append (d1 d2 : List Event) : removals (d1 ++ d2) = removals d1 ++ removals d2 := by
  simp [removals, List.filterMap_append]

theorem removals_of_notRemove (d : List Event) (h : ∀ e ∈ d, notRemove e) : removals d = [] := by
  induction d with
  | nil => rfl
  | cons e d ih =>
    have he := h e (List.mem_cons_self _ _)
    have hd := ih fun x hx => h x (List.mem_cons_of_mem _ hx)
    cases e <;> simp_all [removals, notRemove, List.filterMap_cons]

theorem Appends_then_removedOnce {w w1 w2 : World} (h1 : Appends notRemove w w1)
    (h2 : RemovedOnce w1 w2) : RemovedOnce w w2 := by
  obtain ⟨hid1, d1, ht1, hp1⟩ := h1
  obtain ⟨hid2, d2, ht2, hr2⟩ := h2
  refine ⟨hid2.trans hid1, d1 ++ d2, by rw [ht2, ht1, List.append_assoc], ?_⟩
  rw [removals_append, removals_of_notRemove d1 hp1, hr2, hid1]
  rfl

theorem Removes_of_only {α : Type} {m : Ctl α} {keep gone : α → Prop} (hm : Only notRemove m)
    (hk : ∀ a, keep a) : Removes m keep gone := by
  constructor
  intro w
  have h := hm.run w
  cases hmw : m w with
  | ret a w1 => rw [hmw] at h; exact Or.inl ⟨hk a, h⟩
  | raised e w1 => rw [hmw] at h; exact h
  | outOfFuel => trivial

theorem Removes_bind {α β : Type} {m : Ctl α} {f : α → Ctl β} {keep1 gone1 : α → Prop}
    {keep gone : β → Prop} (hm : Removes m keep1 gone1)
    (hk : ∀ a, keep1 a → Removes (f a) keep gone)
    (hg : ∀ a, gone1 a → ∃ b, f a = pure b ∧ gone b) : Removes (m >>= f) keep gone := by
  constructor
  intro w
  have h1 := hm.run w
  rw [bind_apply]
  cases hmw : m w with
  | ret a w1 =>
    rw [hmw] at h1
    simp only
    rcases h1 with ⟨hka, happ⟩ | ⟨hga, hrem⟩
    · have h2 := (hk a hka).run w1
      cases hfw : f a w1 with
      | ret b w2 =>
        rw [hfw] at h2
        rcases h2 with ⟨hkb, happ2⟩ | ⟨hgb, hrem2⟩
        · exact Or.inl ⟨hkb, Appends_trans happ happ2⟩
        · exact Or.inr ⟨hgb, Appends_then_removedOnce happ hrem2⟩
      | raised e w2 => rw [hfw] at h2; exact Appends_trans happ h2
      | outOfFuel => trivial
    · obtain ⟨b, hfb, hgb⟩ := hg a hga
      rw [hfb, pure_apply]
      exact Or.inr ⟨hgb, hrem⟩
  | raised e w1 => rw [hmw] at h1; exact h1
  | outOfFuel => trivial

theorem Removes_bind_only {α β : Type} {m : Ctl α} {f : α → Ctl β} {keep gone : β → Prop}
    (hm : Only notRemove m) (hf : ∀ a, Removes (f a) keep gone) : Removes (m >>= f) keep gone :=
  Removes_bind (Removes_of_only hm fun _ => trivial : Removes m (fun _ => True) (fun _ => False))
    (fun a _ => hf a) (fun _ h => h.elim)

@[simp]
theorem Removes_pure {α : Type} {keep gone : α → Prop} {a : α} (h : keep a) :
    Removes (pure a : Ctl α) keep gone :=
  ⟨fun w => Or.inl ⟨h, Appends_refl _ w⟩⟩

@[simp]
theorem Removes_raise {α : Type} {keep gone : α → Prop} (e : ControlException) :
    Removes (raise e : Ctl α) keep gone :=
  ⟨fun w => Appends_refl _ w⟩

@[simp]
theorem Removes_outOfFuel {α : Type} {keep gone : α → Prop} :
    Removes (outOfFuel : Ctl α) keep gone :=
  ⟨fun _ => trivial⟩

@[simp]
theorem Removes_remove {keep gone : Unit → Prop} (h : gone ()) :
    Removes gTransactionTable.remove keep gone := by
  constructor
  intro w
  exact Or.inr ⟨h, rfl, [.tableRemove w.tr.ID], rfl, rfl⟩

@[simp]
theorem removes_abortAndRemoveCall {keep gone : Unit → Prop} (LCH : Option Nat) (cause : Nat)
    (h : gone ()) : Removes (abortAndRemoveCall LCH cause) keep gone := by
  unfold abortAndRemoveCall
  exact Removes_bind_only (only_abortCall LCH cause) fun _ => Removes_remove h

@[simp]
theorem removes_abortAndRemoveCall_then {β : Type} {keep gone : β → Prop} (LCH : Option Nat)
    (cause : Nat) (b : β) (h : gone b) :
    Removes (abortAndRemoveCall LCH cause >>= fun _ => (pure b : Ctl β)) keep gone :=
  Removes_bind (removes_abortAndRemoveCall LCH cause trivial :
      Removes (abortAndRemoveCall LCH cause) (fun _ => False) (fun _ => True))
    (fun _ hf => hf.elim) (fun _ _ => ⟨b, rfl, h⟩)

@[simp]
theorem removes_callManagementLoop {keep gone : Unit → Prop} (TCH fuel : Nat) (h : gone ()) :
    Removes (callManagementLoop TCH fuel) keep gone := by
  induction fuel with
  | zero => unfold callManagementLoop; simp
  | succ n ih =>
    unfold callManagementLoop
    repeat' first
      | assumption
      | (simp [notRemove, h]; done)
      | apply Removes_bind_only
      | intro _
      | split

@[simp]
theorem removes_waitForRinging (TCH L3TI fuel : Nat) :
    Removes (MOCController.waitForRinging TCH L3TI fuel) (fun _ => True) (fun r => r = true) := by
  induction fuel with
  | zero => unfold MOCController.waitForRinging; simp
  | succ n ih =>
    unfold MOCController.waitForRinging
    repeat' first
      | assumption
      | (simp [notRemove]; done)
      | apply Removes_bind_only
      | intro _
      | split

@[simp]
theorem removes_waitForSession (TCH fuel : Nat) (state : SIP.SIPState) :
    Removes (MOCController.waitForSession TCH state fuel) (fun _ => True) (fun r => r = true) := by
  induction fuel generalizing state with
  | zero => unfold MOCController.waitForSession; simp
  | succ n ih =>
    unfold MOCController.waitForSession
    repeat' first
      | exact ih _
      | (simp [notRemove]; done)
      | apply Removes_bind_only
      | intro _
      | split

@[simp]
theorem removes_waitForConnectAck (TCH fuel : Nat) :
    Removes (MOCController.waitForConnectAck TCH fuel) (fun _ => True) (fun r => r = true) := by
  induction fuel with
  | zero => unfold MOCController.waitForConnectAck; simp
  | succ n ih =>
    unfold MOCController.waitForConnectAck
    repeat' first
      | assumption
      | (simp [notRemove]; done)
      | apply Removes_bind_only
      | intro _
      | split

/-! ## SMS control: what the routines record -/

theorem notRemove_of_notCleanup (e : Event) (h : notCleanup e) : notRemove e := by
  cases e <;> simp_all [notCleanup, notRemove]

@[simp]
theorem quiet_getFrameSMS (LCH : Nat) (prim : GSM.Primitive) :
    Only notCleanup (getFrameSMS LCH prim) := by
  unfold getFrameSMS
  repeat' first
    | (simp [notCleanup]; done)
    | apply Only_bind
    | intro _
    | split

@[simp]
theorem quiet_sendSIP (address : CharPtr) (body contentType : String) :
    Only notCleanup (sendSIP address body contentType) := by
  unfold sendSIP
  repeat' first
    | (simp [notCleanup]; done)
    | apply Only_bind
    | intro _
    | split

@[simp]
theorem quiet_parseSubmit (RPDU : SMS.RLFrame) : Only notCleanup (parseSubmit RPDU) := by
  unfold parseSubmit
  repeat' first
    | (simp [notCleanup]; done)
    | apply Only_bind
    | intro _
    | split

@[simp]
theorem quiet_handleRPDU (RPDU : SMS.RLFrame) : Only notCleanup (handleRPDU RPDU) := by
  unfold handleRPDU
  repeat' first
    | (simp [notCleanup]; done)
    | apply Only_bind
    | intro _
    | split

@[simp]
theorem quiet_parseAndHandle (CM : L3Frame) : Only notCleanup (parseAndHandle CM) := by
  unfold parseAndHandle
  repeat' first
    | (simp [notCleanup]; done)
    | apply Only_bind
    | intro _
    | split

@[simp]
theorem quiet_buildRPData (message contentType calling : String) (L3TI LCH reference : Nat) :
    Only notCleanup (buildRPData message contentType calling L3TI LCH reference) := by
  unfold buildRPData
  repeat' first
    | (simp [notCleanup]; done)
    | apply Only_bind
    | intro _
    | split

@[simp]
theorem quiet_deliverSMSToMS (calling message contentType : String) (L3TI LCH : Nat) :
    Only notCleanup (deliverSMSToMS calling message contentType L3TI LCH) := by
  unfold deliverSMSToMS
  repeat' first
    | (simp [notCleanup]; done)
    | apply Only_bind
    | intro _
    | split

@[simp]
theorem only_getFrameSMS (LCH : Nat) (prim : GSM.Primitive) :
    Only notRemove (getFrameSMS LCH prim) :=
  Only_mono notRemove_of_notCleanup (quiet_getFrameSMS LCH prim)

@[simp]
theorem only_parseAndHandle (CM : L3Frame) : Only notRemove (parseAndHandle CM) :=
  Only_mono notRemove_of_notCleanup (quiet_parseAndHandle CM)

@[simp]
theorem only_deliverSMSToMS (calling message contentType : String) (L3TI LCH : Nat) :
    Only notRemove (deliverSMSToMS calling message contentType L3TI LCH) :=
  Only_mono notRemove_of_notCleanup (quiet_deliverSMSToMS calling message contentType L3TI LCH)

theorem Unwinds_bind {α β : Type} {p : Event → Prop} {m : Ctl α} {f : α → Ctl β}
    (hm : OnlyExt p m) (hf : ∀ a, Unwinds p (f a)) : Unwinds p (m >>= f) := by
  constructor
  intro w
  have h1 := hm.run w
  rw [bind_apply]
  cases hmw : m w with
  | ret a w1 =>
    rw [hmw] at h1
    have h2 := (hf a).run w1
    simp only
    cases hfw : f a w1 with
    | ret b w2 => trivial
    | raised e w2 => rw [hfw] at h2; exact Ext_trans h1 h2
    | outOfFuel => trivial
  | raised e w1 => rw [hmw] at h1; exact h1
  | outOfFuel => trivial

theorem Unwinds_bind_only {α β : Type} {p : Event → Prop} {m : Ctl α} {f : α → Ctl β}
    (hm : Only p m) (hf : ∀ a, Unwinds p (f a)) : Unwinds p (m >>= f) :=
  Unwinds_bind (Only_toExt hm) hf

@[simp]
theorem Unwinds_raise {α : Type} (p : Event → Prop) (e : ControlException) :
    Unwinds p (raise e : Ctl α) :=
  ⟨fun w => Ext_refl p w⟩

@[simp]
theorem Unwinds_pure {α : Type} (p : Event → Prop) (a : α) : Unwinds p (pure a : Ctl α) :=
  ⟨fun _ => trivial⟩

@[simp]
theorem Unwinds_remove (p : Event → Prop) : Unwinds p gTransactionTable.remove :=
  ⟨fun _ => trivial⟩

@[simp]
theorem Unwinds_send_then_remove (p : Event → Prop) (LCH sap : Nat) (msg : L3Message) :
    Unwinds p (LogicalChannel.send LCH msg sap >>= fun _ => gTransactionTable.remove) :=
  ⟨fun _ => trivial⟩

theorem unwinds_MOSMSController (serviceType : GSM.L3CMServiceType) (mobileID : String)
    (LCH : Nat) : Unwinds notCleanup (MOSMSController serviceType mobileID LCH) := by
  unfold MOSMSController
  apply Unwinds_bind_only (Only_assert _ _); intro _
  apply Unwinds_bind_only (Only_emit trivial); intro _
  apply Unwinds_bind (OnlyExt_newTransactionEntrySMS _ _ _); intro _
  repeat' first
    | (simp [notCleanup]; done)
    | apply Unwinds_bind_only
    | apply Only_tryBlock
    | apply Only_bind
    | intro _
    | split

theorem unwinds_MTSMSController (LCH : Nat) : Unwinds notCleanup (MTSMSController LCH) := by
  unfold MTSMSController
  repeat' first
    | (simp [notCleanup]; done)
    | apply Unwinds_bind_only
    | apply Only_bind
    | intro _
    | split

theorem unwinds_InCallMOSMSController (cpData : L3Frame) (LCH : Nat) :
    Unwinds notCleanup (InCallMOSMSController cpData LCH) := by
  unfold InCallMOSMSController
  repeat' first
    | (simp [notCleanup]; done)
    | apply Unwinds_bind_only
    | apply Only_tryBlock
    | apply Only_bind
    | intro _
    | split

/-! ## Removals of the control routines -/

@[simp]
theorem removes_MTSMSController (LCH : Nat) :
    Removes (MTSMSController LCH) (fun _ => False) (fun _ => True) := by
  unfold MTSMSController
  repeat' first
    | (simp [notRemove]; done)
    | apply Removes_bind_only
    | apply Only_bind
    | intro _
    | split

@[simp]
theorem removes_InCallMOSMSController (cpData : L3Frame) (LCH : Nat) :
    Removes (InCallMOSMSController cpData LCH) (fun _ => False) (fun _ => True) := by
  unfold InCallMOSMSController
  repeat' first
    | (simp [notRemove]; done)
    | apply Removes_bind_only
    | apply Only_tryBlock
    | apply Only_bind
    | intro _
    | split

theorem Removes_toFinal {α : Type} {m : Ctl α} {keep gone : α → Prop} (h : Removes m keep gone) :
    RemovesFinal m keep gone := by
  constructor
  intro w
  have h1 := h.run w
  cases hmw : m w with
  | ret a w1 =>
    rw [hmw] at h1
    rcases h1 with ⟨hk, happ⟩ | ⟨hg, hid, d, ht, hr⟩
    · exact Or.inl ⟨hk, happ.2⟩
    · exact Or.inr ⟨hg, d, ht, by rw [hr, hid]⟩
  | raised e w1 => rw [hmw] at h1; exact h1.2
  | outOfFuel => trivial

theorem RemovesFinal_bind {α β : Type} {m : Ctl α} {f : α → Ctl β} {keep gone : β → Prop}
    (hm : OnlyExt notRemove m) (hf : ∀ a, RemovesFinal (f a) keep gone) :
    RemovesFinal (m >>= f) keep gone := by
  constructor
  intro w
  have h1 := hm.run w
  rw [bind_apply]
  cases hmw : m w with
  | ret a w1 =>
    rw [hmw] at h1
    have h2 := (hf a).run w1
    simp only
    cases hfw : f a w1 with
    | ret b w2 =>
      rw [hfw] at h2
      rcases h2 with ⟨hk, hext⟩ | ⟨hg, d2, ht2, hr2⟩
      · exact Or.inl ⟨hk, Ext_trans h1 hext⟩
      · obtain ⟨d1, ht1, hp1⟩ := h1
        refine Or.inr ⟨hg, d1 ++ d2, by rw [ht2, ht1, List.append_assoc], ?_⟩
        rw [removals_append, removals_of_notRemove d1 hp1, hr2]
        rfl
    | raised e w2 => rw [hfw] at h2; exact Ext_trans h1 h2
    | outOfFuel => trivial
  | raised e w1 => rw [hmw] at h1; exact h1
  | outOfFuel => trivial

@[simp]
theorem removes_send_then_remove {keep gone : Unit → Prop} (LCH sap : Nat) (msg : L3Message)
    (h : gone ()) :
    Removes (LogicalChannel.send LCH msg sap >>= fun _ => gTransactionTable.remove) keep gone :=
  Removes_bind_only (Only_emit (by cases msg <;> trivial)) fun _ => Removes_remove h

theorem removes_MOSMSController (serviceType : GSM.L3CMServiceType) (mobileID : String)
    (LCH : Nat) :
    RemovesFinal (MOSMSController serviceType mobileID LCH) (fun _ => False) (fun _ => True) := by
  unfold MOSMSController
  apply RemovesFinal_bind (Only_toExt (Only_assert _ _)); intro _
  apply RemovesFinal_bind (Only_toExt (Only_emit (show notRemove (Event.resolveIMSI LCH) from trivial))); intro _
  apply RemovesFinal_bind (OnlyExt_newTransactionEntrySMS _ _ _); intro _
  apply Removes_toFinal
  repeat' first
    | (simp [notRemove]; done)
    | apply Removes_bind_only
    | apply Only_tryBlock
    | apply Only_bind
    | intro _
    | split

@[simp]
theorem removes_MOCController (fuel TCH : Nat) :
    Removes (MOCController fuel TCH) (fun _ => True) (fun _ => True) := by
  unfold MOCController
  apply Removes_bind_only (Only_L3TI _); intro L3TI
  apply Removes_bind_only (Only_assert _ _); intro _
  apply Removes_bind (removes_waitForRinging TCH L3TI fuel)
  · intro returned _
    split
    · simp
    · apply Removes_bind_only (Only_SIPState _); intro state
      apply Removes_bind (removes_waitForSession TCH fuel state)
      · intro returned _
        split
        · simp
        · apply Removes_bind_only (Only_send trivial); intro _
          apply Removes_bind_only (Only_setTimer _ _); intro _
          apply Removes_bind_only (Only_setGSMState _ _); intro _
          apply Removes_bind_only (Only_engine fun _ => trivial); intro _
          apply Removes_bind_only (Only_engine fun _ => trivial); intro _
          apply Removes_bind (removes_waitForConnectAck TCH fuel)
          · intro returned _
            split
            · simp
            · simp
          · intro a ha
            exact ⟨(), by simp [ha], trivial⟩
      · intro a ha
        exact ⟨(), by simp [ha], trivial⟩
  · intro a ha
    exact ⟨(), by simp [ha], trivial⟩

@[simp]
theorem removes_MTC_waitForConnect (TCH fuel : Nat) :
    Removes (MTCController.waitForConnect TCH fuel) (fun _ => True) (fun r => r = true) := by
  induction fuel with
  | zero => unfold MTCController.waitForConnect; simp
  | succ n ih =>
    unfold MTCController.waitForConnect
    repeat' first
      | assumption
      | (simp [notRemove]; done)
      | apply Removes_bind_only
      | apply Only_bind
      | intro _
      | split

@[simp]
theorem removes_MTC_waitForACK (TCH RTPPorts fuel : Nat) (state : SIP.SIPState) :
    Removes (MTCController.waitForACK TCH RTPPorts state fuel) (fun _ => True)
      (fun r => r = true) := by
  induction fuel generalizing state with
  | zero => unfold MTCController.waitForACK; simp
  | succ n ih =>
    unfold MTCController.waitForACK
    repeat' first
      | exact ih _
      | (simp [notRemove]; done)
      | apply Removes_bind_only
      | apply Only_bind
      | intro _
      | split

@[simp]
theorem removes_MTCController (fuel TCH : Nat) :
    Removes (MTCController fuel TCH) (fun _ => True) (fun _ => True) := by
  unfold MTCController
  apply Removes_bind_only (Only_L3TI _); intro L3TI
  apply Removes_bind_only (Only_assert _ _); intro _
  apply Removes_bind (removes_MTC_waitForConnect TCH fuel)
  · intro returned _
    split
    · simp
    · apply Removes_bind_only (Only_allocateRTPPortsM _); intro ports
      apply Removes_bind_only (Only_engine fun _ => trivial); intro state
      apply Removes_bind (removes_MTC_waitForACK TCH ports fuel state)
      · intro returned _
        split
        · simp
        · repeat' first
            | (simp [notRemove]; done)
            | apply Removes_bind_only
            | intro _
      · intro a ha
        exact ⟨(), by simp [ha], trivial⟩
  · intro a ha
    exact ⟨(), by simp [ha], trivial⟩

@[simp]
theorem removes_MTC_waitForCallConfirmed (LCH fuel : Nat) :
    Removes (MTCStarter.waitForCallConfirmed LCH fuel) (fun _ => True) (fun r => r = true) := by
  induction fuel with
  | zero => unfold MTCStarter.waitForCallConfirmed; simp
  | succ n ih =>
    unfold MTCStarter.waitForCallConfirmed
    repeat' first
      | assumption
      | (simp [notRemove]; done)
      | apply Removes_bind_only
      | apply Only_bind
      | intro _
      | split

@[simp]
theorem removes_MTCStarter (fuel LCH : Nat) :
    Removes (MTCStarter fuel LCH) (fun _ => True) (fun _ => True) := by
  unfold MTCStarter
  apply Removes_bind_only (Only_L3TI _); intro L3TI
  apply Removes_bind_only (Only_assert _ _); intro _
  apply Removes_bind_only (Only_getTr _); intro _
  apply Removes_bind_only (Only_send trivial); intro _
  apply Removes_bind_only (Only_setTimer _ _); intro _
  apply Removes_bind_only (Only_setGSMState _ _); intro _
  apply Removes_bind (removes_MTC_waitForCallConfirmed LCH fuel)
  · intro returned _
    split
    · simp
    · simp
  · intro a ha
    exact ⟨(), by simp [ha], trivial⟩

@[simp]
theorem only_getMessage (LCH : Nat) : Only notRemove (getMessage LCH) := by
  unfold getMessage
  repeat' first
    | (simp [notRemove]; done)
    | apply Only_bind
    | intro _
    | split

theorem removes_MOCStarter (fuel : Nat) (serviceType : GSM.L3CMServiceType) (mobileID : String)
    (LCH : Nat) :
    RemovesFinal (MOCStarter fuel serviceType mobileID LCH) (fun _ => True) (fun _ => True) := by
  unfold MOCStarter
  apply RemovesFinal_bind (Only_toExt (Only_emit (show notRemove (Event.resolveIMSI LCH) from trivial))); intro _
  apply RemovesFinal_bind (Only_toExt (Only_send trivial)); intro _
  apply RemovesFinal_bind (Only_toExt (only_getMessage LCH)); intro msg
  split
  · split
    · apply Removes_toFinal
      apply Removes_bind_only (Only_send trivial); intro _
      exact Removes_of_only (Only_send trivial) fun _ => trivial
    · apply RemovesFinal_bind (OnlyExt_newTransactionEntryMOC _ _ _ _ _); intro _
      apply Removes_toFinal
      repeat' first
        | (simp [notRemove]; done)
        | apply Removes_bind_only
        | intro _
  · exact Removes_toFinal (Removes_raise _)

/-! ## Forced clearing -/

theorem forceGSMClearing_null (LCH cause : Nat) (w : World)
    (h : w.tr.GSMState = GSM.CallState.NullState) : forceGSMClearing LCH cause w = .ret () w := by
  simp [forceGSMClearing, bind_apply, pure_apply, transaction.GSMState, h]

theorem forceGSMClearing_run (LCH cause : Nat) (w : World)
    (h : w.tr.GSMState ≠ GSM.CallState.NullState) :
    forceGSMClearing LCH cause w = .ret ()
      { w with
        trace := w.trace ++
          ((if w.clearingGSM w.tr.GSMState then []
            else [Event.send LCH 0 (.L3Disconnect w.tr.L3TI (some cause))])
          ++ [Event.send LCH 0 (.L3ReleaseComplete w.tr.L3TI none),
              Event.send LCH 0 .L3ChannelRelease,
              Event.sendPrimitive LCH 0 GSM.Primitive.RELEASE]),
        tr := { w.tr with timers := [], GSMState := GSM.CallState.NullState } } := by
  cases hc : w.clearingGSM w.tr.GSMState <;>
    simp [forceGSMClearing, bind_apply, pure_apply, transaction.GSMState, h, hc,
      transaction.clearingGSM, transaction.L3TI, LogicalChannel.send,
      LogicalChannel.sendPrimitive, emit, transaction.resetTimers, transaction.setGSMState]

theorem forceSIPClearing_cleared (w : World) (h : w.tr.SIPState = SIP.SIPState.Cleared) :
    forceSIPClearing w = .ret () w := by
  simp [forceSIPClearing, bind_apply, pure_apply, transaction.SIPState, h]

theorem forceSIPClearing_run (w : World) (h : w.tr.SIPState ≠ SIP.SIPState.Cleared) :
    forceSIPClearing w = .ret ()
      { w with
        trace := w.trace ++ sessionClearingEvents w,
        sip := w.sip.tail.tail,
        tr := { w.tr with SIPState := w.sip.tail.headD (w.sip.headD w.tr.SIPState) } } := by
  by_cases h2 : w.tr.SIPState = SIP.SIPState.MODClearing <;>
    simp [forceSIPClearing, bind_apply, pure_apply, transaction.SIPState, h, h2,
      transaction.engine, sessionClearingEvents]

theorem forceSIPClearing_trace (w : World) :
    ∃ w1, forceSIPClearing w = .ret () w1 ∧ w1.trace = w.trace ++ sessionClearingEvents w
      ∧ w1.tr.GSMState = w.tr.GSMState ∧ w1.tr.ID = w.tr.ID
      ∧ (w1.tr.SIPState = SIP.SIPState.Cleared
          ∨ Event.sip w.tr.ID SIPOp.MODWaitForOK ∈ sessionClearingEvents w) := by
  by_cases h : w.tr.SIPState = SIP.SIPState.Cleared
  · exact ⟨w, forceSIPClearing_cleared w h, by simp [sessionClearingEvents, h], rfl, rfl,
      Or.inl h⟩
  · exact ⟨_, forceSIPClearing_run w h, rfl, rfl, rfl, Or.inr (by simp [sessionClearingEvents, h])⟩

theorem forceGSMClearing_trace (LCH cause : Nat) (w : World) :
    ∃ w1, forceGSMClearing LCH cause w = .ret () w1
      ∧ w1.trace = w.trace ++ radioClearingEvents w LCH cause
      ∧ w1.tr.GSMState = GSM.CallState.NullState ∧ w1.tr.SIPState = w.tr.SIPState
      ∧ w1.tr.ID = w.tr.ID ∧ w1.sip = w.sip := by
  by_cases h : w.tr.GSMState = GSM.CallState.NullState
  · exact ⟨w, forceGSMClearing_null LCH cause w h, by simp [radioClearingEvents, h], h, rfl, rfl,
      rfl⟩
  · exact ⟨_, forceGSMClearing_run LCH cause w h, by simp [radioClearingEvents, h], rfl, rfl,
      rfl, rfl⟩

theorem abortCall_trace (LCH cause : Nat) (w : World) :
    ∃ w1, abortCall (some LCH) cause w = .ret () w1
      ∧ w1.trace = w.trace ++ radioClearingEvents w LCH cause ++ sessionClearingEvents w
      ∧ w1.tr.GSMState = GSM.CallState.NullState ∧ w1.tr.ID = w.tr.ID
      ∧ (w1.tr.SIPState = SIP.SIPState.Cleared
          ∨ Event.sip w.tr.ID SIPOp.MODWaitForOK ∈ sessionClearingEvents w) := by
  obtain ⟨w1, h1, ht1, hg1, hs1, hid1, -⟩ := forceGSMClearing_trace LCH cause w
  obtain ⟨w2, h2, ht2, hg2, hid2, hc2⟩ := forceSIPClearing_trace w1
  have hev : sessionClearingEvents w1 = sessionClearingEvents w := by
    simp [sessionClearingEvents, hs1, hid1]
  refine ⟨w2, ?_, ?_, hg2.trans hg1, hid2.trans hid1, ?_⟩
  · simp [abortCall, bind_apply, h1, h2]
  · rw [ht2, ht1, hev]
  · rw [hev, hid1] at hc2
    exact hc2

/-! ## Mobile-originated SMS: the accepted submission -/

theorem getFrameSMS_establish (LCH : Nat) (w : World) (est : L3Frame)
    (rest : List (Option L3Frame)) (hrx : w.rx = some est :: rest)
    (hest : est.primitive = GSM.Primitive.ESTABLISH) :
    getFrameSMS LCH GSM.Primitive.ESTABLISH w
      = .ret est { w with trace := w.trace ++ [.recv LCH 3 20000], rx := rest } := by
  simp [getFrameSMS, bind_apply, pure_apply, LogicalChannel.recv, hrx, hest]

theorem getFrameSMS_data (LCH : Nat) (w : World) (cm : L3Frame)
    (rest : List (Option L3Frame)) (hrx : w.rx = some cm :: rest)
    (h1 : cm.primitive = GSM.Primitive.DATA) (h2 : cm.PD = GSM.L3PD.L3SMSPD) :
    getFrameSMS LCH GSM.Primitive.DATA w
      = .ret cm { w with trace := w.trace ++ [.recv LCH 3 20000], rx := rest } := by
  simp [getFrameSMS, bind_apply, pure_apply, LogicalChannel.recv, hrx, h1, h2]

theorem handleRPDU_text_accepted (w : World) (RPDU : SMS.RLFrame) (submit : SMS.TLSubmit)
    (s1 : SIP.SIPState) (sips : List SIP.SIPState)
    (hrp1 : RPDU.MTI = SMS.RPMessageType.Data) (hrp2 : RPDU.submit = SMS.Parsed.ok submit)
    (hmime : w.config.smsMIMEType = "text/plain")
    (hsip : w.sip = s1 :: SIP.SIPState.Cleared :: sips) :
    handleRPDU RPDU w = .ret true
      { w with
        trace := w.trace ++
          [.sip w.tr.ID (.MOSMSSendMESSAGE (w.stale.tail.headD "") "text/plain"),
           .sip w.tr.ID .MOSMSWaitForSubmit],
        sip := sips, stale := w.stale.tail.tail,
        tr := { w.tr with called := some (w.stale.headD ""), message := submit.UD,
                          SIPState := SIP.SIPState.Cleared } } := by
  cases hs : w.config.smsc <;>
    simp [handleRPDU, hrp1, hrp2, bind_apply, pure_apply, getConfig, hmime, parseSubmit, hs,
      sendSIP, readChars, transaction.setCalledAndMessage, transaction.engine, hsip]

/-- Step 4 of the MO submission as `MOSMSController` performs it: read the final CP-ACK,
release the channel, remove the record. -/
theorem MOSMS_step4_trace (LCH : Nat) (w : World) :
    ∃ tail,
      ((getFrameSMS LCH GSM.Primitive.DATA >>= fun CM =>
          if CM.MTI ≠ SMS.CPMessageType.ACK then raise (.UnexpectedMessage none)
          else (LogicalChannel.send LCH .L3ChannelRelease 0 >>= fun _ =>
            gTransactionTable.remove)) w).trace
        = w.trace ++ [.recv LCH 3 20000] ++ tail
      ∧ (tail = [] ∨ tail = [.send LCH 0 .L3ChannelRelease, .tableRemove w.tr.ID]) := by
  rcases hrx : w.rx with _ | ⟨_ | f, rest⟩
  · exact ⟨[], by simp [getFrameSMS, bind_apply, LogicalChannel.recv, hrx, raise, Outcome.trace,
      Outcome.world], Or.inl rfl⟩
  · exact ⟨[], by simp [getFrameSMS, bind_apply, LogicalChannel.recv, hrx, raise, Outcome.trace,
      Outcome.world], Or.inl rfl⟩
  · by_cases h1 : f.primitive = GSM.Primitive.DATA
    · by_cases h2 : f.PD = GSM.L3PD.L3SMSPD
      · by_cases h3 : f.MTI = SMS.CPMessageType.ACK
        · exact ⟨[.send LCH 0 .L3ChannelRelease, .tableRemove w.tr.ID], by
            simp [getFrameSMS, bind_apply, pure_apply, LogicalChannel.recv, hrx, raise,
              Outcome.trace, Outcome.world, h1, h2, h3, LogicalChannel.send, emit,
              gTransactionTable.remove], Or.inr rfl⟩
        · exact ⟨[], by
            simp [getFrameSMS, bind_apply, pure_apply, LogicalChannel.recv, hrx, raise,
              Outcome.trace, Outcome.world, h1, h2, h3], Or.inl rfl⟩
      · exact ⟨[], by
          simp [getFrameSMS, bind_apply, pure_apply, LogicalChannel.recv, hrx, raise,
            Outcome.trace, Outcome.world, h1, h2], Or.inl rfl⟩
    · exact ⟨[], by
        simp [getFrameSMS, bind_apply, pure_apply, LogicalChannel.recv, hrx, raise,
          Outcome.trace, Outcome.world, h1], Or.inl rfl⟩

/-- Step 4 when the final CP-ACK arrives. -/
theorem MOSMS_step4_ack (LCH : Nat) (w : World) (ack : L3Frame) (rest : List (Option L3Frame))
    (hrx : w.rx = some ack :: rest) (h1 : ack.primitive = GSM.Primitive.DATA)
    (h2 : ack.PD = GSM.L3PD.L3SMSPD) (h3 : ack.MTI = SMS.CPMessageType.ACK) :
    (getFrameSMS LCH GSM.Primitive.DATA >>= fun CM =>
        if CM.MTI ≠ SMS.CPMessageType.ACK then raise (.UnexpectedMessage none)
        else (LogicalChannel.send LCH .L3ChannelRelease 0 >>= fun _ =>
          gTransactionTable.remove)) w
      = .ret ()
          { w with
            trace := w.trace ++ [.recv LCH 3 20000] ++
              [.send LCH 0 .L3ChannelRelease, .tableRemove w.tr.ID],
            rx := rest, table := w.table.erase w.tr.ID } := by
  simp [getFrameSMS, bind_apply, pure_apply, LogicalChannel.recv, hrx, h1, h2, h3,
    LogicalChannel.send, emit, gTransactionTable.remove]

/-- The world `MOSMSController` is in when it has sent the RP-ACK of an accepted plain-text
submission and is about to read the final CP-ACK. -/
theorem MOSMSController_accepted_prefix (mobileID : String) (LCH : Nat) (w : World)
    (est cm : L3Frame) (rest : List (Option L3Frame)) (RPDU : SMS.RLFrame)
    (submit : SMS.TLSubmit) (s1 : SIP.SIPState) (sips : List SIP.SIPState)
    (hrx : w.rx = some est :: some cm :: rest)
    (hest : est.primitive = GSM.Primitive.ESTABLISH)
    (hcm1 : cm.primitive = GSM.Primitive.DATA) (hcm2 : cm.PD = GSM.L3PD.L3SMSPD)
    (hcm3 : cm.MTI = SMS.CPMessageType.DATA) (hcm4 : cm.cpData = SMS.Parsed.ok RPDU)
    (hrp1 : RPDU.MTI = SMS.RPMessageType.Data) (hrp2 : RPDU.submit = SMS.Parsed.ok submit)
    (hmime : w.config.smsMIMEType = "text/plain")
    (hsip : w.sip = s1 :: SIP.SIPState.Cleared :: sips) :
    MOSMSController GSM.L3CMServiceType.ShortMessage mobileID LCH w
      = (getFrameSMS LCH GSM.Primitive.DATA >>= fun CM =>
          if CM.MTI ≠ SMS.CPMessageType.ACK then raise (.UnexpectedMessage none)
          else (LogicalChannel.send LCH .L3ChannelRelease 0 >>= fun _ =>
            gTransactionTable.remove))
        { w with
          trace := w.trace ++
            [.resolveIMSI LCH, .tableAdd w.nextID, .send LCH 0 .L3CMServiceAccept,
             .recv LCH 3 20000, .recv LCH 3 20000, .send LCH 3 (.CPAck (cm.TI ||| 8)),
             .sip w.nextID (.MOSMSSendMESSAGE (w.stale.tail.headD "") "text/plain"),
             .sip w.nextID .MOSMSWaitForSubmit,
             .send LCH 3 (.CPData (cm.TI ||| 8) (.RPAck RPDU.reference))],
          table := w.table ++ [w.nextID], nextID := w.nextID + 1, rx := rest, sip := sips,
          stale := w.stale.tail.tail,
          tr := { w.newEntry with ID := w.nextID, channel := some LCH, subscriber := mobileID,
                                  L3TI := cm.TI ||| 8,
                                  called := some (w.stale.headD ""),
                                  message := submit.UD,
                                  SIPState := SIP.SIPState.Cleared } } := by
  cases hs : w.config.smsc <;>
    simp [MOSMSController, bind_apply, assert, pure_apply, emit, newTransactionEntrySMS,
      transaction.ID, gTransactionTable.add, LogicalChannel.send, getFrameSMS,
      LogicalChannel.recv, hrx, hest, hcm1, hcm2, hcm3, hcm4, transaction.setL3TI, tryBlock,
      parseAndHandle, handleRPDU, hrp1, hrp2, getConfig, hmime, parseSubmit, hs, sendSIP, readChars,
      transaction.setCalledAndMessage, transaction.engine, hsip, raise]

/-! ## The channel release before the removal in `MOSMSController` -/

theorem EndsWith_bind {α β : Type} {p : Event → Prop} {tail : World → List Event} {m : Ctl α}
    {f : α → Ctl β} (hm : OnlyExt p m) (hf : ∀ a, EndsWith tail (f a)) :
    EndsWith tail (m >>= f) := by
  constructor
  intro w
  have h1 := hm.run w
  rw [bind_apply]
  cases hmw : m w with
  | ret a w1 =>
    rw [hmw] at h1
    have h2 := (hf a).run w1
    simp only
    cases hfw : f a w1 with
    | ret b w2 =>
      rw [hfw] at h2
      obtain ⟨d1, ht1, -⟩ := h1
      obtain ⟨d2, ht2⟩ := h2
      exact ⟨d1 ++ d2, by rw [ht2, ht1]; simp [List.append_assoc]⟩
    | raised e w2 => trivial
    | outOfFuel => trivial
  | raised e w1 => trivial
  | outOfFuel => trivial

theorem EndsWith_bind_only {α β : Type} {tail : World → List Event} {m : Ctl α}
    {f : α → Ctl β} (hm : Only notCleanup m) (hf : ∀ a, EndsWith tail (f a)) :
    EndsWith tail (m >>= f) :=
  EndsWith_bind (Only_toExt hm) hf

@[simp]
theorem EndsWith_raise {α : Type} (tail : World → List Event) (e : ControlException) :
    EndsWith tail (raise e : Ctl α) :=
  ⟨fun _ => trivial⟩

@[simp]
theorem EndsWith_release_then_remove (LCH : Nat) :
    EndsWith (fun w1 => [Event.send LCH 0 .L3ChannelRelease, Event.tableRemove w1.tr.ID])
      (LogicalChannel.send LCH .L3ChannelRelease 0 >>= fun _ => gTransactionTable.remove) :=
  ⟨fun _ => ⟨[], by simp [bind_apply, LogicalChannel.send, emit, gTransactionTable.remove]⟩⟩

theorem endsWith_MOSMSController (serviceType : GSM.L3CMServiceType) (mobileID : String)
    (LCH : Nat) :
    EndsWith (fun w1 => [Event.send LCH 0 .L3ChannelRelease, Event.tableRemove w1.tr.ID])
      (MOSMSController serviceType mobileID LCH) := by
  unfold MOSMSController
  apply EndsWith_bind_only (Only_assert _ _); intro _
  apply EndsWith_bind_only (Only_emit (show notCleanup (Event.resolveIMSI LCH) from trivial)); intro _
  apply EndsWith_bind (OnlyExt_newTransactionEntrySMS notCleanup _ _); intro _
  repeat' first
    | (simp [notCleanup]; done)
    | apply EndsWith_bind_only
    | apply Only_tryBlock
    | apply Only_bind
    | intro _
    | split

/-! ## Reading the specifications at a run -/

theorem Removes_ret {α : Type} {m : Ctl α} {keep gone : α → Prop} (h : Removes m keep gone)
    {w w1 : World} {a : α} (hm : m w = .ret a w1) :
    (keep a ∧ Appends notRemove w w1) ∨ (gone a ∧ RemovedOnce w w1) := by
  have h1 := h.run w
  rw [hm] at h1
  exact h1

theorem RemovesFinal_ret {α : Type} {m : Ctl α} {keep gone : α → Prop}
    (h : RemovesFinal m keep gone) {w w1 : World} {a : α} (hm : m w = .ret a w1) :
    (keep a ∧ Ext notRemove w w1)
      ∨ (gone a ∧ ∃ d, w1.trace = w.trace ++ d ∧ removals d = [w1.tr.ID]) := by
  have h1 := h.run w
  rw [hm] at h1
  exact h1

theorem Unwinds_raised {α : Type} {p : Event → Prop} {m : Ctl α} (h : Unwinds p m)
    {w w1 : World} {e : ControlException} (hm : m w = .raised e w1) : Ext p w w1 := by
  have h1 := h.run w
  rw [hm] at h1
  exact h1

theorem EndsWith_ret {α : Type} {tail : World → List Event} {m : Ctl α} (h : EndsWith tail m)
    {w w1 : World} {a : α} (hm : m w = .ret a w1) :
    ∃ d, w1.trace = w.trace ++ d ++ tail w1 := by
  have h1 := h.run w
  rw [hm] at h1
  exact h1

theorem atMostOnce_of_removes {α : Type} {m : Ctl α} (h : Removes m (fun _ => True) fun _ => True)
    {w w1 : World} {a : α} (hm : m w = .ret a w1) :
    ∃ d, w1.trace = w.trace ++ d ∧ (removals d = [] ∨ removals d = [w.tr.ID]) := by
  rcases Removes_ret h hm with ⟨-, -, d, ht, hp⟩ | ⟨-, -, d, ht, hr⟩
  · exact ⟨d, ht, Or.inl (removals_of_notRemove d hp)⟩
  · exact ⟨d, ht, Or.inr hr⟩

theorem once_of_removes {α : Type} {m : Ctl α} (h : Removes m (fun _ => False) fun _ => True)
    {w w1 : World} {a : α} (hm : m w = .ret a w1) :
    ∃ d, w1.trace = w.trace ++ d ∧ removals d = [w.tr.ID] := by
  rcases Removes_ret h hm with ⟨hf, -⟩ | ⟨-, -, d, ht, hr⟩
  · exact hf.elim
  · exact ⟨d, ht, hr⟩


/-! ## The in-call poll after a radio link failure -/

theorem pollInCall_radioFailure_run (fuel TCH : Nat) (w : World) (rest : List Bool)
    (h : w.radioFailure = true :: rest) :
    pollInCall fuel TCH w
      = (forceSIPClearing >>= fun _ => (pure true : Ctl Bool)) { w with radioFailure := rest } := by
  simp [pollInCall, bind_apply, LogicalChannel.radioFailure, h]

/-! ## `MOCStarter` before the record exists -/

theorem MOCStarter_noSetup_run (fuel : Nat) (serviceType : GSM.L3CMServiceType)
    (mobileID : String) (LCH : Nat) (w : World)
    (h : ∀ f rest TI calling called, w.rx = some f :: rest →
      f.parseL3 ≠ some (.L3Setup TI calling called)) :
    MOCStarter fuel serviceType mobileID LCH w
      = .raised (.UnexpectedMessage none)
          { w with
            trace := w.trace ++
              [.resolveIMSI LCH, .send LCH 0 .L3CMServiceAccept, .recv LCH 0 0],
            rx := w.rx.tail } := by
  rcases hrx : w.rx with _ | ⟨_ | f, rest⟩
  · simp [MOCStarter, bind_apply, pure_apply, emit, LogicalChannel.send, getMessage,
      LogicalChannel.recv, hrx, raise]
  · simp [MOCStarter, bind_apply, pure_apply, emit, LogicalChannel.send, getMessage,
      LogicalChannel.recv, hrx, raise]
  · have hf := h f rest
    cases hp : f.parseL3 with
    | none =>
      simp [MOCStarter, bind_apply, pure_apply, emit, LogicalChannel.send, getMessage,
        LogicalChannel.recv, hrx, hp, raise]
    | some msg =>
      cases msg <;>
        first
        | (exfalso; exact hf _ _ _ hrx hp)
        | simp [MOCStarter, bind_apply, pure_apply, emit, LogicalChannel.send, getMessage,
            LogicalChannel.recv, hrx, hp, raise]

theorem MOCStarter_noNumber_run (fuel : Nat) (serviceType : GSM.L3CMServiceType)
    (mobileID : String) (LCH : Nat) (w : World) (f : L3Frame) (rest : List (Option L3Frame))
    (TI : Nat) (calling : Option String) (hrx : w.rx = some f :: rest)
    (hf : f.parseL3 = some (.L3Setup TI calling none)) :
    MOCStarter fuel serviceType mobileID LCH w
      = .ret ()
          { w with
            trace := w.trace ++
              [.resolveIMSI LCH, .send LCH 0 .L3CMServiceAccept, .recv LCH 0 0,
               .send LCH 0 (.L3ReleaseComplete (TI ||| 8) (some 0x60)),
               .send LCH 0 .L3ChannelRelease],
            rx := rest } := by
  simp [MOCStarter, bind_apply, pure_apply, emit, LogicalChannel.send, getMessage,
    LogicalChannel.recv, hrx, hf]

/-! ## `MOSMSController`: the first frame -/

theorem MOSMSController_wrongFirst_run (mobileID : String) (LCH : Nat) (w : World)
    (est cm : L3Frame) (rest : List (Option L3Frame))
    (hrx : w.rx = some est :: some cm :: rest)
    (hest : est.primitive = GSM.Primitive.ESTABLISH)
    (hcm1 : cm.primitive = GSM.Primitive.DATA) (hcm2 : cm.PD = GSM.L3PD.L3SMSPD)
    (hcm3 : cm.MTI ≠ SMS.CPMessageType.DATA) :
    MOSMSController GSM.L3CMServiceType.ShortMessage mobileID LCH w
      = .raised (.UnexpectedMessage none)
          { w with
            trace := w.trace ++
              [.resolveIMSI LCH, .tableAdd w.nextID, .send LCH 0 .L3CMServiceAccept,
               .recv LCH 3 20000, .recv LCH 3 20000],
            table := w.table ++ [w.nextID], nextID := w.nextID + 1, rx := rest,
            tr := { w.newEntry with ID := w.nextID, channel := some LCH,
                                    subscriber := mobileID } } := by
  simp [MOSMSController, bind_apply, assert, pure_apply, emit, newTransactionEntrySMS,
    transaction.ID, gTransactionTable.add, LogicalChannel.send, getFrameSMS,
    LogicalChannel.recv, hrx, hest, hcm1, hcm2, hcm3, raise]

/-! ## Mobile-terminated delivery -/

theorem deliverSMSToMS_run (calling message contentType : String) (L3TI LCH : Nat) (w : World)
    (est ack cm : L3Frame) (rest : List (Option L3Frame)) (RPDU : SMS.RLFrame)
    (hpay : strncmpEq contentType "text/plain" 10 = true
      ∨ (strncmpEq contentType "application/vnd.3gpp.sms" 24 = true
          ∧ ∃ R, w.unhex message = some (.ok R)))
    (hrx : w.rx = establishFrames w est ++ some ack :: some cm :: rest)
    (hest : est.primitive = GSM.Primitive.ESTABLISH)
    (hack1 : ack.primitive = GSM.Primitive.DATA) (hack2 : ack.PD = GSM.L3PD.L3SMSPD)
    (hack3 : ack.MTI = SMS.CPMessageType.ACK)
    (hcm1 : cm.primitive = GSM.Primitive.DATA) (hcm2 : cm.PD = GSM.L3PD.L3SMSPD)
    (hcm3 : cm.MTI = SMS.CPMessageType.DATA) (hcm4 : cm.cpData = SMS.Parsed.ok RPDU) :
    deliverSMSToMS calling message contentType L3TI LCH w
      = .ret (decide (RPDU.MTI = SMS.RPMessageType.Ack))
          { w with
            trace := w.trace ++ establishEvents w LCH ++
              [.send LCH 3 (.CPData L3TI
                  (deliveredRPData w calling message contentType (w.random.headD 0 % 255))),
               .recv LCH 3 20000, .recv LCH 3 20000, .send LCH 3 (.CPAck L3TI)],
            rx := rest, random := w.random.tail } := by
  have hcases : (strncmpEq contentType "text/plain" 10 = true)
      ∨ (strncmpEq contentType "text/plain" 10 = false
          ∧ strncmpEq contentType "application/vnd.3gpp.sms" 24 = true
          ∧ ∃ R, w.unhex message = some (.ok R)) := by
    cases hp0 : strncmpEq contentType "text/plain" 10
    · rcases hpay with hp | hp
      · rw [hp0] at hp; cases hp
      · exact Or.inr ⟨rfl, hp⟩
    · exact Or.inl rfl
  cases hm : w.multiframe
  · rw [establishFrames, hm] at hrx
    rcases hcases with hp | ⟨hp0, hp, R, hR⟩
    · simp [deliverSMSToMS, bind_apply, pure_apply, LogicalChannel.multiframeMode,
        LogicalChannel.sendPrimitive, emit, getFrameSMS, LogicalChannel.recv, establishEvents,
        random, buildRPData, getConfig, deliveredRPData, LogicalChannel.send, raise,
        hm, hrx, hest, hack1, hack2, hack3, hcm1, hcm2, hcm3, hcm4, hp]
    · simp [deliverSMSToMS, bind_apply, pure_apply, LogicalChannel.multiframeMode,
        LogicalChannel.sendPrimitive, emit, getFrameSMS, LogicalChannel.recv, establishEvents,
        random, buildRPData, getConfig, deliveredRPData, unhexAndParse, LogicalChannel.send,
        raise, hm, hrx, hest, hack1, hack2, hack3, hcm1, hcm2, hcm3, hcm4, hp, hp0, hR]
  · rw [establishFrames, hm] at hrx
    rcases hcases with hp | ⟨hp0, hp, R, hR⟩
    · simp [deliverSMSToMS, bind_apply, pure_apply, LogicalChannel.multiframeMode,
        emit, getFrameSMS, LogicalChannel.recv, establishEvents,
        random, buildRPData, getConfig, deliveredRPData, LogicalChannel.send, raise,
        hm, hrx, hack1, hack2, hack3, hcm1, hcm2, hcm3, hcm4, hp]
    · simp [deliverSMSToMS, bind_apply, pure_apply, LogicalChannel.multiframeMode,
        emit, getFrameSMS, LogicalChannel.recv, establishEvents,
        random, buildRPData, getConfig, deliveredRPData, unhexAndParse, LogicalChannel.send,
        raise, hm, hrx, hack1, hack2, hack3, hcm1, hcm2, hcm3, hcm4, hp, hp0, hR]

theorem deliverSMSToMS_unhex_fails (calling message contentType : String) (L3TI LCH : Nat)
    (w : World) (est : L3Frame) (rest : List (Option L3Frame))
    (hp0 : strncmpEq contentType "text/plain" 10 = false)
    (hp : strncmpEq contentType "application/vnd.3gpp.sms" 24 = true)
    (hrx : w.rx = establishFrames w est ++ rest)
    (hest : est.primitive = GSM.Primitive.ESTABLISH)
    (hbad : w.unhex message = none) :
    deliverSMSToMS calling message contentType L3TI LCH w
      = .raised (.UnexpectedMessage none)
          { w with trace := w.trace ++ establishEvents w LCH, rx := rest,
                   random := w.random.tail } := by
  cases hm : w.multiframe
  · rw [establishFrames, hm] at hrx
    simp [deliverSMSToMS, bind_apply, pure_apply, LogicalChannel.multiframeMode,
      LogicalChannel.sendPrimitive, emit, getFrameSMS, LogicalChannel.recv, establishEvents,
      random, buildRPData, getConfig, unhexAndParse, raise, hm, hrx, hest, hp, hp0, hbad]
  · rw [establishFrames, hm] at hrx
    simp [deliverSMSToMS, bind_apply, pure_apply, LogicalChannel.multiframeMode,
      emit, establishEvents, random, buildRPData, getConfig, unhexAndParse, raise, hm, hrx, hp,
      hp0, hbad]

theorem deliverSMSToMS_reparse_unsupported (calling message contentType : String) (L3TI LCH : Nat)
    (w : World) (est : L3Frame) (rest : List (Option L3Frame))
    (hp0 : strncmpEq contentType "text/plain" 10 = false)
    (hp : strncmpEq contentType "application/vnd.3gpp.sms" 24 = true)
    (hrx : w.rx = establishFrames w est ++ rest)
    (hest : est.primitive = GSM.Primitive.ESTABLISH)
    (hbad : w.unhex message = some SMS.Parsed.L3ReadError) :
    deliverSMSToMS calling message contentType L3TI LCH w
      = .raised (.UnsupportedMessage none)
          { w with trace := w.trace ++ establishEvents w LCH, rx := rest,
                   random := w.random.tail } := by
  cases hm : w.multiframe
  · rw [establishFrames, hm] at hrx
    simp [deliverSMSToMS, bind_apply, pure_apply, LogicalChannel.multiframeMode,
      LogicalChannel.sendPrimitive, emit, getFrameSMS, LogicalChannel.recv, establishEvents,
      random, buildRPData, getConfig, unhexAndParse, raise, hm, hrx, hest, hp, hp0, hbad]
  · rw [establishFrames, hm] at hrx
    simp [deliverSMSToMS, bind_apply, pure_apply, LogicalChannel.multiframeMode,
      emit, establishEvents, random, buildRPData, getConfig, unhexAndParse, raise, hm, hrx, hp,
      hp0, hbad]

theorem deliverSMSToMS_reparse_fails (calling message contentType : String) (L3TI LCH : Nat)
    (w : World) (est : L3Frame) (rest : List (Option L3Frame))
    (hp0 : strncmpEq contentType "text/plain" 10 = false)
    (hp : strncmpEq contentType "application/vnd.3gpp.sms" 24 = true)
    (hrx : w.rx = establishFrames w est ++ rest)
    (hest : est.primitive = GSM.Primitive.ESTABLISH)
    (hbad : w.unhex message = some SMS.Parsed.SMSReadError) :
    deliverSMSToMS calling message contentType L3TI LCH w
      = .raised (.UnexpectedMessage none)
          { w with
            trace := w.trace ++ establishEvents w LCH ++
              [.send LCH 3 (.CPData L3TI (.RPError 95 (w.random.headD 0 % 255)))],
            rx := rest, random := w.random.tail } := by
  cases hm : w.multiframe
  · rw [establishFrames, hm] at hrx
    simp [deliverSMSToMS, bind_apply, pure_apply, LogicalChannel.multiframeMode,
      LogicalChannel.sendPrimitive, emit, getFrameSMS, LogicalChannel.recv, establishEvents,
      random, buildRPData, getConfig, unhexAndParse, raise, LogicalChannel.send, hm, hrx, hest,
      hp, hp0, hbad]
  · rw [establishFrames, hm] at hrx
    simp [deliverSMSToMS, bind_apply, pure_apply, LogicalChannel.multiframeMode,
      emit, establishEvents, random, buildRPData, getConfig, unhexAndParse, raise,
      LogicalChannel.send, hm, hrx, hp, hp0, hbad]

/-! ## Mobile-originated submission: decoding failures and rejection -/

theorem parseAndHandle_SMSReadError (w : World) (CM : L3Frame)
    (h : DecodeFails w CM SMS.Parsed.SMSReadError SMS.Parsed.SMSReadError) :
    parseAndHandle CM w = .raised .SMSReadError w := by
  rcases h with h | ⟨RPDU, h1, h2, h3, h4 | h4⟩
  · simp [parseAndHandle, h, raise]
  · simp [parseAndHandle, h1, handleRPDU, h2, bind_apply, getConfig, h4, parseSubmit, h3, raise]
  · by_cases ht : w.config.smsMIMEType = "text/plain"
    · simp [parseAndHandle, h1, handleRPDU, h2, bind_apply, getConfig, ht, parseSubmit, h3,
        raise]
    · by_cases hx : w.config.smsMIMEType = "application/vnd.3gpp.sms" <;>
        simp [parseAndHandle, h1, handleRPDU, h2, bind_apply, pure_apply, getConfig, ht, hx, h4,
          parseSubmit, h3, raise]

theorem parseAndHandle_L3ReadError (w : World) (CM : L3Frame)
    (h : DecodeFails w CM SMS.Parsed.L3ReadError SMS.Parsed.L3ReadError) :
    parseAndHandle CM w = .raised .L3ReadError w := by
  rcases h with h | ⟨RPDU, h1, h2, h3, h4 | h4⟩
  · simp [parseAndHandle, h, raise]
  · simp [parseAndHandle, h1, handleRPDU, h2, bind_apply, getConfig, h4, parseSubmit, h3, raise]
  · by_cases ht : w.config.smsMIMEType = "text/plain"
    · simp [parseAndHandle, h1, handleRPDU, h2, bind_apply, getConfig, ht, parseSubmit, h3,
        raise]
    · by_cases hx : w.config.smsMIMEType = "application/vnd.3gpp.sms" <;>
        simp [parseAndHandle, h1, handleRPDU, h2, bind_apply, pure_apply, getConfig, ht, hx, h4,
          parseSubmit, h3, raise]

theorem parseAndHandle_rejected (w : World) (CM : L3Frame) (RPDU : SMS.RLFrame)
    (submit : SMS.TLSubmit) (s1 s2 : SIP.SIPState) (sips : List SIP.SIPState)
    (h1 : CM.cpData = SMS.Parsed.ok RPDU) (h2 : RPDU.MTI = SMS.RPMessageType.Data)
    (h3 : RPDU.submit = SMS.Parsed.ok submit) (hsip : w.sip = s1 :: s2 :: sips)
    (hs2 : s2 ≠ SIP.SIPState.Cleared) :
    parseAndHandle CM w = .ret (RPDU.reference, false)
      { w with
        trace := w.trace ++
          [.sip w.tr.ID (.MOSMSSendMESSAGE (w.stale.tail.headD "")
              w.config.smsMIMEType),
           .sip w.tr.ID .MOSMSWaitForSubmit],
        sip := sips, stale := w.stale.tail.tail,
        tr := { w.tr with called := some (w.stale.headD ""),
                          message := submittedBody w.config.smsMIMEType RPDU submit,
                          SIPState := s2 } } := by
  by_cases ht : w.config.smsMIMEType = "text/plain"
  · cases hs : w.config.smsc <;>
      simp [parseAndHandle, h1, handleRPDU, h2, bind_apply, pure_apply, getConfig, ht,
        parseSubmit, h3, hs, sendSIP, readChars, transaction.setCalledAndMessage,
        transaction.engine, hsip,
        hs2, submittedBody]
  · by_cases hx : w.config.smsMIMEType = "application/vnd.3gpp.sms" <;>
    cases hs : w.config.smsc <;>
      simp [parseAndHandle, h1, handleRPDU, h2, bind_apply, pure_apply, getConfig, ht, hx,
        parseSubmit, h3, hs, sendSIP, readChars, transaction.setCalledAndMessage,
        transaction.engine, hsip,
        hs2, submittedBody]

theorem DecodeFails_config {w w1 : World} {CM : L3Frame} {o : SMS.Parsed SMS.TLSubmit}
    {c : SMS.Parsed SMS.RLFrame} (hc : w1.config = w.config) (h : DecodeFails w CM o c) :
    DecodeFails w1 CM o c := by
  unfold DecodeFails at h ⊢
  rw [hc]
  exact h

theorem InCallMOSMSController_SMSReadError (cpData : L3Frame) (LCH : Nat) (w : World)
    (h : DecodeFails w cpData SMS.Parsed.SMSReadError SMS.Parsed.SMSReadError) :
    InCallMOSMSController cpData LCH w
      = .raised (.UnexpectedMessage (some w.tr.ID))
          { w with
            trace := w.trace ++
              [.send LCH 3 (.CPAck (cpData.TI ||| 8)),
               .send LCH 3 (.CPData (cpData.TI ||| 8) (.RPError 95 (refAtCatch cpData)))],
            tr := { w.tr with L3TI := cpData.TI ||| 8 } } := by
  have key : ∀ w1 : World, w1.config = w.config →
      parseAndHandle cpData w1 = .raised .SMSReadError w1 :=
    fun w1 hc => parseAndHandle_SMSReadError w1 cpData (DecodeFails_config hc h)
  simp [InCallMOSMSController, bind_apply, pure_apply, transaction.setL3TI, LogicalChannel.send,
    emit, transaction.ID, tryBlock, key, raise]

theorem InCallMOSMSController_L3ReadError (cpData : L3Frame) (LCH : Nat) (w : World)
    (h : DecodeFails w cpData SMS.Parsed.L3ReadError SMS.Parsed.L3ReadError) :
    InCallMOSMSController cpData LCH w
      = .raised (.UnsupportedMessage (some w.tr.ID))
          { w with
            trace := w.trace ++ [.send LCH 3 (.CPAck (cpData.TI ||| 8))],
            tr := { w.tr with L3TI := cpData.TI ||| 8 } } := by
  have key : ∀ w1 : World, w1.config = w.config →
      parseAndHandle cpData w1 = .raised .L3ReadError w1 :=
    fun w1 hc => parseAndHandle_L3ReadError w1 cpData (DecodeFails_config hc h)
  simp [InCallMOSMSController, bind_apply, pure_apply, transaction.setL3TI, LogicalChannel.send,
    emit, transaction.ID, tryBlock, key, raise]

/-- Step 4 of the MO submission as `InCallMOSMSController` performs it: read the final CP-ACK
and remove the record. -/
theorem InCall_step4_trace (LCH : Nat) (tid : Option Nat) (w : World) :
    ∃ tail,
      ((getFrameSMS LCH GSM.Primitive.DATA >>= fun CM =>
          if CM.MTI ≠ SMS.CPMessageType.ACK then raise (.UnexpectedMessage tid)
          else gTransactionTable.remove) w).trace
        = w.trace ++ [.recv LCH 3 20000] ++ tail
      ∧ (tail = [] ∨ tail = [.tableRemove w.tr.ID]) := by
  rcases hrx : w.rx with _ | ⟨_ | f, rest⟩
  · exact ⟨[], by simp [getFrameSMS, bind_apply, LogicalChannel.recv, hrx, raise, Outcome.trace,
      Outcome.world], Or.inl rfl⟩
  · exact ⟨[], by simp [getFrameSMS, bind_apply, LogicalChannel.recv, hrx, raise, Outcome.trace,
      Outcome.world], Or.inl rfl⟩
  · by_cases h1 : f.primitive = GSM.Primitive.DATA
    · by_cases h2 : f.PD = GSM.L3PD.L3SMSPD
      · by_cases h3 : f.MTI = SMS.CPMessageType.ACK
        · exact ⟨[.tableRemove w.tr.ID], by
            simp [getFrameSMS, bind_apply, pure_apply, LogicalChannel.recv, hrx, raise,
              Outcome.trace, Outcome.world, h1, h2, h3, gTransactionTable.remove], Or.inr rfl⟩
        · exact ⟨[], by
            simp [getFrameSMS, bind_apply, pure_apply, LogicalChannel.recv, hrx, raise,
              Outcome.trace, Outcome.world, h1, h2, h3], Or.inl rfl⟩
      · exact ⟨[], by
          simp [getFrameSMS, bind_apply, pure_apply, LogicalChannel.recv, hrx, raise,
            Outcome.trace, Outcome.world, h1, h2], Or.inl rfl⟩
    · exact ⟨[], by
        simp [getFrameSMS, bind_apply, pure_apply, LogicalChannel.recv, hrx, raise,
          Outcome.trace, Outcome.world, h1], Or.inl rfl⟩

/-- Step 4 of `InCallMOSMSController` when the final CP-ACK arrives. -/
theorem InCall_step4_ack (LCH : Nat) (tid : Option Nat) (w : World) (ack : L3Frame)
    (rest : List (Option L3Frame)) (hrx : w.rx = some ack :: rest)
    (h1 : ack.primitive = GSM.Primitive.DATA) (h2 : ack.PD = GSM.L3PD.L3SMSPD)
    (h3 : ack.MTI = SMS.CPMessageType.ACK) :
    (getFrameSMS LCH GSM.Primitive.DATA >>= fun CM =>
        if CM.MTI ≠ SMS.CPMessageType.ACK then raise (.UnexpectedMessage tid)
        else gTransactionTable.remove) w
      = .ret ()
          { w with
            trace := w.trace ++ [.recv LCH 3 20000] ++ [.tableRemove w.tr.ID],
            rx := rest, table := w.table.erase w.tr.ID } := by
  simp [getFrameSMS, bind_apply, pure_apply, LogicalChannel.recv, hrx, h1, h2, h3,
    gTransactionTable.remove]

/-- The world `InCallMOSMSController` is in when it has answered a submission that the
session leg did not accept and is about to read the final CP-ACK. -/
theorem InCallMOSMSController_rejected_prefix (cpData : L3Frame) (LCH : Nat) (w : World)
    (RPDU : SMS.RLFrame) (submit : SMS.TLSubmit) (s1 s2 : SIP.SIPState)
    (sips : List SIP.SIPState)
    (h1 : cpData.cpData = SMS.Parsed.ok RPDU) (h2 : RPDU.MTI = SMS.RPMessageType.Data)
    (h3 : RPDU.submit = SMS.Parsed.ok submit) (hsip : w.sip = s1 :: s2 :: sips)
    (hs2 : s2 ≠ SIP.SIPState.Cleared) :
    InCallMOSMSController cpData LCH w
      = (getFrameSMS LCH GSM.Primitive.DATA >>= fun CM =>
          if CM.MTI ≠ SMS.CPMessageType.ACK then raise (.UnexpectedMessage (some w.tr.ID))
          else gTransactionTable.remove)
        { w with
          trace := w.trace ++
            [.send LCH 3 (.CPAck (cpData.TI ||| 8)),
             .sip w.tr.ID (.MOSMSSendMESSAGE (w.stale.tail.headD "")
                w.config.smsMIMEType),
             .sip w.tr.ID .MOSMSWaitForSubmit,
             .send LCH 3 (.CPData (cpData.TI ||| 8) (.RPError 127 RPDU.reference))],
          sip := sips, stale := w.stale.tail.tail,
          tr := { w.tr with L3TI := cpData.TI ||| 8,
                            called := some (w.stale.headD ""),
                            message := submittedBody w.config.smsMIMEType RPDU submit,
                            SIPState := s2 } } := by
  have key := parseAndHandle_rejected
    { w with
      trace := w.trace ++ [.send LCH 3 (.CPAck (cpData.TI ||| 8))],
      tr := { w.tr with L3TI := cpData.TI ||| 8 } }
    cpData RPDU submit s1 s2 sips h1 h2 h3 hsip hs2
  simp only [InCallMOSMSController, bind_apply, pure_apply, transaction.setL3TI,
    LogicalChannel.send, emit, transaction.ID, tryBlock]
  rw [key]
  simp [bind_apply, emit, List.append_assoc]

theorem MOSMSController_SMSReadError (mobileID : String) (LCH : Nat) (w : World)
    (est cm : L3Frame) (rest : List (Option L3Frame))
    (hrx : w.rx = some est :: some cm :: rest)
    (hest : est.primitive = GSM.Primitive.ESTABLISH)
    (hcm1 : cm.primitive = GSM.Primitive.DATA) (hcm2 : cm.PD = GSM.L3PD.L3SMSPD)
    (hcm3 : cm.MTI = SMS.CPMessageType.DATA)
    (h : DecodeFails w cm SMS.Parsed.SMSReadError SMS.Parsed.SMSReadError) :
    MOSMSController GSM.L3CMServiceType.ShortMessage mobileID LCH w
      = .raised (.UnexpectedMessage none)
          { w with
            trace := w.trace ++
              [.resolveIMSI LCH, .tableAdd w.nextID, .send LCH 0 .L3CMServiceAccept,
               .recv LCH 3 20000, .recv LCH 3 20000, .send LCH 3 (.CPAck (cm.TI ||| 8)),
               .send LCH 3 (.CPData (cm.TI ||| 8) (.RPError 95 (refAtCatch cm)))],
            table := w.table ++ [w.nextID], nextID := w.nextID + 1, rx := rest,
            tr := { w.newEntry with ID := w.nextID, channel := some LCH,
                                    subscriber := mobileID, L3TI := cm.TI ||| 8 } } := by
  have key : ∀ w1 : World, w1.config = w.config →
      parseAndHandle cm w1 = .raised .SMSReadError w1 :=
    fun w1 hc => parseAndHandle_SMSReadError w1 cm (DecodeFails_config hc h)
  simp [MOSMSController, bind_apply, assert, pure_apply, emit, newTransactionEntrySMS,
    transaction.ID, gTransactionTable.add, LogicalChannel.send, getFrameSMS,
    LogicalChannel.recv, hrx, hest, hcm1, hcm2, hcm3, transaction.setL3TI, tryBlock, key, raise]

theorem MOSMSController_L3ReadError (mobileID : String) (LCH : Nat) (w : World)
    (est cm : L3Frame) (rest : List (Option L3Frame))
    (hrx : w.rx = some est :: some cm :: rest)
    (hest : est.primitive = GSM.Primitive.ESTABLISH)
    (hcm1 : cm.primitive = GSM.Primitive.DATA) (hcm2 : cm.PD = GSM.L3PD.L3SMSPD)
    (hcm3 : cm.MTI = SMS.CPMessageType.DATA)
    (h : DecodeFails w cm SMS.Parsed.L3ReadError SMS.Parsed.L3ReadError) :
    MOSMSController GSM.L3CMServiceType.ShortMessage mobileID LCH w
      = .raised (.UnsupportedMessage none)
          { w with
            trace := w.trace ++
              [.resolveIMSI LCH, .tableAdd w.nextID, .send LCH 0 .L3CMServiceAccept,
               .recv LCH 3 20000, .recv LCH 3 20000, .send LCH 3 (.CPAck (cm.TI ||| 8))],
            table := w.table ++ [w.nextID], nextID := w.nextID + 1, rx := rest,
            tr := { w.newEntry with ID := w.nextID, channel := some LCH,
                                    subscriber := mobileID, L3TI := cm.TI ||| 8 } } := by
  have key : ∀ w1 : World, w1.config = w.config →
      parseAndHandle cm w1 = .raised .L3ReadError w1 :=
    fun w1 hc => parseAndHandle_L3ReadError w1 cm (DecodeFails_config hc h)
  simp [MOSMSController, bind_apply, assert, pure_apply, emit, newTransactionEntrySMS,
    transaction.ID, gTransactionTable.add, LogicalChannel.send, getFrameSMS,
    LogicalChannel.recv, hrx, hest, hcm1, hcm2, hcm3, transaction.setL3TI, tryBlock, key, raise]

/-- The world `MOSMSController` is in when it has answered a submission that the session leg
did not accept and is about to read the final CP-ACK. -/
theorem MOSMSController_rejected_prefix (mobileID : String) (LCH : Nat) (w : World)
    (est cm : L3Frame) (rest : List (Option L3Frame)) (RPDU : SMS.RLFrame)
    (submit : SMS.TLSubmit) (s1 s2 : SIP.SIPState) (sips : List SIP.SIPState)
    (hrx : w.rx = some est :: some cm :: rest)
    (hest : est.primitive = GSM.Primitive.ESTABLISH)
    (hcm1 : cm.primitive = GSM.Primitive.DATA) (hcm2 : cm.PD = GSM.L3PD.L3SMSPD)
    (hcm3 : cm.MTI = SMS.CPMessageType.DATA) (h1 : cm.cpData = SMS.Parsed.ok RPDU)
    (h2 : RPDU.MTI = SMS.RPMessageType.Data) (h3 : RPDU.submit = SMS.Parsed.ok submit)
    (hsip : w.sip = s1 :: s2 :: sips) (hs2 : s2 ≠ SIP.SIPState.Cleared) :
    MOSMSController GSM.L3CMServiceType.ShortMessage mobileID LCH w
      = (getFrameSMS LCH GSM.Primitive.DATA >>= fun CM =>
          if CM.MTI ≠ SMS.CPMessageType.ACK then raise (.UnexpectedMessage none)
          else (LogicalChannel.send LCH .L3ChannelRelease 0 >>= fun _ =>
            gTransactionTable.remove))
        { w with
          trace := w.trace ++
            [.resolveIMSI LCH, .tableAdd w.nextID, .send LCH 0 .L3CMServiceAccept,
             .recv LCH 3 20000, .recv LCH 3 20000, .send LCH 3 (.CPAck (cm.TI ||| 8)),
             .sip w.nextID (.MOSMSSendMESSAGE (w.stale.tail.headD "")
                w.config.smsMIMEType),
             .sip w.nextID .MOSMSWaitForSubmit,
             .send LCH 3 (.CPData (cm.TI ||| 8) (.RPError 127 RPDU.reference))],
          table := w.table ++ [w.nextID], nextID := w.nextID + 1, rx := rest, sip := sips,
          stale := w.stale.tail.tail,
          tr := { w.newEntry with ID := w.nextID, channel := some LCH, subscriber := mobileID,
                                  L3TI := cm.TI ||| 8,
                                  called := some (w.stale.headD ""),
                                  message := submittedBody w.config.smsMIMEType RPDU submit,
                                  SIPState := s2 } } := by
  have key := parseAndHandle_rejected
    { w with
      trace := w.trace ++
        [.resolveIMSI LCH, .tableAdd w.nextID, .send LCH 0 .L3CMServiceAccept,
         .recv LCH 3 20000, .recv LCH 3 20000, .send LCH 3 (.CPAck (cm.TI ||| 8))],
      table := w.table ++ [w.nextID], nextID := w.nextID + 1, rx := rest,
      tr := { w.newEntry with ID := w.nextID, channel := some LCH, subscriber := mobileID,
                              L3TI := cm.TI ||| 8 } }
    cm RPDU submit s1 s2 sips h1 h2 h3 hsip hs2
  simp only [MOSMSController, bind_apply, assert, pure_apply, emit, newTransactionEntrySMS,
    transaction.ID, gTransactionTable.add, LogicalChannel.send, getFrameSMS,
    LogicalChannel.recv, hrx, hest, hcm1, hcm2, hcm3, transaction.setL3TI, tryBlock,
    decide_True, if_true, List.headD_cons, List.tail_cons, ne_eq, not_true_eq_false, if_false,
    List.append_assoc, List.cons_append, List.nil_append, reduceCtorEq, and_false, and_self,
    not_false_eq_true, false_and]
  simp only [List.append_assoc, List.cons_append, List.nil_append] at key
  rw [key]
  simp [bind_apply, emit, List.append_assoc]

/-! ## The radio leg becomes `MTCConfirmed` by a Call Confirmed message only -/

theorem Keeps_bind {α β : Type} {m : Ctl α} {f : α → Ctl β}
    (hm : Keeps m) (hf : ∀ a, Keeps (f a)) : Keeps (m >>= f) := by
  constructor
  intro w
  have h1 := hm.run w
  rw [bind_apply]
  cases hmw : m w with
  | ret a w1 =>
    rw [hmw] at h1
    have h2 := (hf a).run w1
    simp only
    cases hfw : f a w1 with
    | ret b w2 => rw [hfw] at h2; exact ⟨h2.1.trans h1.1, fun h => h1.2 (h2.2 h)⟩
    | raised e w2 => rw [hfw] at h2; exact ⟨h2.1.trans h1.1, fun h => h1.2 (h2.2 h)⟩
    | outOfFuel => trivial
  | raised e w1 => rw [hmw] at h1; exact h1
  | outOfFuel => trivial

/-- A step that returns, reads no frame and keeps the radio-leg state. -/
theorem Keeps_same {α : Type} {m : Ctl α}
    (h : ∀ w, ∃ a w1, m w = .ret a w1 ∧ w1.rx = w.rx ∧ w1.tr.GSMState = w.tr.GSMState) :
    Keeps m := by
  constructor
  intro w
  obtain ⟨a, w1, hm, hrx, hs⟩ := h w
  rw [hm]
  exact ⟨hrx, fun h => hs ▸ h⟩

@[simp]
theorem Keeps_pure {α : Type} (a : α) : Keeps (pure a : Ctl α) :=
  Keeps_same fun _ => ⟨_, _, rfl, rfl, rfl⟩

@[simp]
theorem Keeps_raise {α : Type} (e : ControlException) : Keeps (raise e : Ctl α) :=
  ⟨fun _ => ⟨rfl, id⟩⟩

@[simp]
theorem Keeps_outOfFuel {α : Type} : Keeps (outOfFuel : Ctl α) :=
  ⟨fun _ => trivial⟩

@[simp]
theorem Keeps_emit (e : Event) : Keeps (emit e) :=
  Keeps_same fun _ => ⟨_, _, rfl, rfl, rfl⟩

@[simp]
theorem Keeps_assert (c : Bool) : Keeps (assert c) := by
  cases c
  · exact Keeps_raise _
  · exact Keeps_pure _

@[simp]
theorem Keeps_getTr : Keeps getTr :=
  Keeps_same fun _ => ⟨_, _, rfl, rfl, rfl⟩

@[simp]
theorem Keeps_getConfig : Keeps getConfig :=
  Keeps_same fun _ => ⟨_, _, rfl, rfl, rfl⟩

@[simp]
theorem Keeps_readChars (address : CharPtr) : Keeps (readChars address) :=
  Keeps_same fun _ => by
    unfold readChars
    split <;> exact ⟨_, _, rfl, rfl, rfl⟩

@[simp]
theorem Keeps_GSMState : Keeps transaction.GSMState :=
  Keeps_same fun _ => ⟨_, _, rfl, rfl, rfl⟩

@[simp]
theorem Keeps_setGSMState (s : GSM.CallState) (h : s ≠ GSM.CallState.MTCConfirmed) :
    Keeps (transaction.setGSMState s) :=
  ⟨fun _ => ⟨rfl, fun hs => absurd hs h⟩⟩

@[simp]
theorem Keeps_SIPState : Keeps transaction.SIPState :=
  Keeps_same fun _ => ⟨_, _, rfl, rfl, rfl⟩

@[simp]
theorem Keeps_clearingGSM : Keeps transaction.clearingGSM :=
  Keeps_same fun _ => ⟨_, _, rfl, rfl, rfl⟩

@[simp]
theorem Keeps_L3TI : Keeps transaction.L3TI :=
  Keeps_same fun _ => ⟨_, _, rfl, rfl, rfl⟩

@[simp]
theorem Keeps_resetTimers : Keeps transaction.resetTimers :=
  Keeps_same fun _ => ⟨_, _, rfl, rfl, rfl⟩

@[simp]
theorem Keeps_resetTimer (n : String) : Keeps (transaction.resetTimer n) :=
  Keeps_same fun _ => ⟨_, _, rfl, rfl, rfl⟩

@[simp]
theorem Keeps_setTimer (n : String) : Keeps (transaction.setTimer n) :=
  Keeps_same fun _ => ⟨_, _, rfl, rfl, rfl⟩

@[simp]
theorem Keeps_anyTimerExpired : Keeps transaction.anyTimerExpired :=
  Keeps_same fun _ => ⟨_, _, rfl, rfl, rfl⟩

@[simp]
theorem Keeps_engine (op : SIPOp) : Keeps (transaction.engine op) :=
  Keeps_same fun _ => ⟨_, _, rfl, rfl, rfl⟩

@[simp]
theorem Keeps_engineBool (op : SIPOp) : Keeps (transaction.engineBool op) :=
  Keeps_same fun _ => ⟨_, _, rfl, rfl, rfl⟩

@[simp]
theorem Keeps_send (LCH sap : Nat) (msg : L3Message) : Keeps (LogicalChannel.send LCH msg sap) :=
  Keeps_emit _

@[simp]
theorem Keeps_sendPrimitive (LCH sap : Nat) (prim : GSM.Primitive) :
    Keeps (LogicalChannel.sendPrimitive LCH prim sap) :=
  Keeps_emit _

@[simp]
theorem Keeps_addNew : Keeps gTransactionTable.addNew :=
  Keeps_same fun _ => ⟨_, _, rfl, rfl, rfl⟩

@[simp]
theorem Keeps_remove : Keeps gTransactionTable.remove :=
  Keeps_same fun _ => ⟨_, _, rfl, rfl, rfl⟩

@[simp]
theorem keeps_forceGSMClearing (LCH cause : Nat) : Keeps (forceGSMClearing LCH cause) := by
  unfold forceGSMClearing
  repeat' first
    | (simp; done)
    | apply Keeps_bind
    | intro _
    | split

@[simp]
theorem keeps_forceSIPClearing : Keeps forceSIPClearing := by
  unfold forceSIPClearing
  repeat' first
    | (simp; done)
    | apply Keeps_bind
    | intro _
    | split

@[simp]
theorem keeps_abortCall (LCH : Option Nat) (cause : Nat) : Keeps (abortCall LCH cause) := by
  unfold abortCall
  repeat' first
    | (simp; done)
    | apply Keeps_bind
    | intro _
    | split

@[simp]
theorem keeps_abortAndRemoveCall (LCH : Option Nat) (cause : Nat) :
    Keeps (abortAndRemoveCall LCH cause) := by
  unfold abortAndRemoveCall
  repeat' first
    | (simp; done)
    | apply Keeps_bind
    | intro _
    | split

@[simp]
theorem keeps_InCallMOSMSStarter : Keeps InCallMOSMSStarter := by
  unfold InCallMOSMSStarter
  repeat' first
    | (simp; done)
    | apply Keeps_bind
    | intro _
    | split

/-- The dispatcher leaves the radio leg unconfirmed for every message but Call Confirmed. -/
theorem keeps_callManagementDispatchGSM (LCH : Nat) (message : Option L3Message)
    (h : ∀ ti, message ≠ some (L3Message.L3CallConfirmed ti)) :
    Keeps (callManagementDispatchGSM LCH message) := by
  unfold callManagementDispatchGSM
  repeat' first
    | exact absurd rfl (h _)
    | (simp; done)
    | apply Keeps_bind
    | intro _
    | split

theorem Confirms_refl (w : World) : Confirms w w :=
  ⟨[], by simp, fun h => Or.inl h⟩

theorem Confirms_kept {w w1 : World} (hrx : w1.rx = w.rx)
    (hs : w1.tr.GSMState = GSM.CallState.MTCConfirmed →
      w.tr.GSMState = GSM.CallState.MTCConfirmed) : Confirms w w1 :=
  ⟨[], by simp [hrx], fun h => Or.inl (hs h)⟩

theorem Confirms_trans {w w1 w2 : World} (h1 : Confirms w w1) (h2 : Confirms w1 w2) :
    Confirms w w2 := by
  obtain ⟨p1, e1, c1⟩ := h1
  obtain ⟨p2, e2, c2⟩ := h2
  refine ⟨p1 ++ p2, by rw [e1, e2, List.append_assoc], fun h => ?_⟩
  rcases c2 h with h | ⟨f, ti, hf, hp, hm⟩
  · rcases c1 h with h | ⟨f, ti, hf, hp, hm⟩
    · exact Or.inl h
    · exact Or.inr ⟨f, ti, List.mem_append_left _ hf, hp, hm⟩
  · exact Or.inr ⟨f, ti, List.mem_append_right _ hf, hp, hm⟩

theorem Confirming_bind {α β : Type} {m : Ctl α} {f : α → Ctl β}
    (hm : Confirming m) (hf : ∀ a, Confirming (f a)) : Confirming (m >>= f) := by
  constructor
  intro w
  have h1 := hm.run w
  rw [bind_apply]
  cases hmw : m w with
  | ret a w1 =>
    rw [hmw] at h1
    have h2 := (hf a).run w1
    simp only
    cases hfw : f a w1 with
    | ret b w2 => rw [hfw] at h2; exact Confirms_trans h1 h2
    | raised e w2 => rw [hfw] at h2; exact Confirms_trans h1 h2
    | outOfFuel => trivial
  | raised e w1 => rw [hmw] at h1; exact h1
  | outOfFuel => trivial

theorem Confirming_of_keeps {α : Type} {m : Ctl α} (h : Keeps m) : Confirming m := by
  constructor
  intro w
  have h1 := h.run w
  cases hmw : m w with
  | ret a w1 => rw [hmw] at h1; exact Confirms_kept h1.1 h1.2
  | raised e w1 => rw [hmw] at h1; exact Confirms_kept h1.1 h1.2
  | outOfFuel => trivial

/-- Reading a frame keeps the radio-leg state. -/
theorem Confirms_read {w w1 : World} (hrx : w1.rx = w.rx.tail)
    (hs : w1.tr.GSMState = w.tr.GSMState) : Confirms w w1 := by
  refine ⟨w.rx.take 1, ?_, fun h => Or.inl (hs ▸ h)⟩
  rw [hrx]
  cases w.rx <;> simp

theorem confirming_updateGSMSignalling (LCH timeout : Nat) :
    Confirming (updateGSMSignalling LCH timeout) := by
  constructor
  intro w
  by_cases hs : w.tr.GSMState = GSM.CallState.NullState
  · simp [updateGSMSignalling, bind_apply, pure_apply, transaction.GSMState, hs, Confirms_refl]
  · cases he : w.timerExpired.headD false
    · -- no timer expired: a frame is read
      rcases hrx : w.rx with _ | ⟨_ | f, rest⟩
      · simp only [updateGSMSignalling, bind_apply, pure_apply, transaction.GSMState, hs,
          transaction.anyTimerExpired, LogicalChannel.recv, he, hrx, if_false, List.headD_nil,
          Bool.false_eq_true, List.tail_nil]
        exact Confirms_read (by simp [hrx]) rfl
      · simp only [updateGSMSignalling, bind_apply, pure_apply, transaction.GSMState, hs,
          transaction.anyTimerExpired, LogicalChannel.recv, he, hrx, if_false, List.headD_cons,
          Bool.false_eq_true, List.tail_cons]
        exact Confirms_read (by simp [hrx]) rfl
      · simp only [updateGSMSignalling, bind_apply, pure_apply, transaction.GSMState, hs,
          transaction.anyTimerExpired, LogicalChannel.recv, he, hrx, if_false, List.headD_cons,
          Bool.false_eq_true, List.tail_cons]
        by_cases hp : f.primitive = GSM.Primitive.ERROR
        · simp only [hp, if_true]
          exact Confirms_read (by simp [hrx]) rfl
        · simp only [hp, if_false]
          cases hm : f.parseL3 with
          | none => exact Confirms_read (by simp [hrx]) rfl
          | some msg =>
            simp only
            by_cases hcc : ∃ ti, msg = L3Message.L3CallConfirmed ti
            · obtain ⟨ti, rfl⟩ := hcc
              simp only [callManagementDispatchGSM, bind_apply, pure_apply,
                transaction.resetTimer, transaction.setTimer, transaction.setGSMState]
              exact ⟨[some f], by simp [hrx],
                fun _ => Or.inr ⟨f, ti, by simp, hp, hm⟩⟩
            · have hk := (keeps_callManagementDispatchGSM LCH (some msg)
                (fun ti h => hcc ⟨ti, Option.some.inj h⟩)).run
                { w with timerExpired := w.timerExpired.tail,
                         trace := w.trace ++ [.recv LCH 0 timeout], rx := rest }
              have hread : Confirms w
                  { w with timerExpired := w.timerExpired.tail,
                           trace := w.trace ++ [.recv LCH 0 timeout], rx := rest } :=
                Confirms_read (by simp [hrx]) rfl
              revert hk
              cases callManagementDispatchGSM LCH (some msg)
                { w with timerExpired := w.timerExpired.tail,
                         trace := w.trace ++ [.recv LCH 0 timeout], rx := rest } with
              | ret b w2 =>
                intro hk
                exact Confirms_trans hread (Confirms_kept hk.1 hk.2)
              | raised e w2 =>
                intro hk
                exact Confirms_trans hread (Confirms_kept hk.1 hk.2)
              | outOfFuel => intro _; trivial
    · -- a timer expired: the call is aborted
      have hk := (keeps_abortCall (some LCH) 0x66).run
        { w with timerExpired := w.timerExpired.tail }
      simp only [updateGSMSignalling, bind_apply, pure_apply, transaction.GSMState, hs,
        transaction.anyTimerExpired, he, if_false, if_true]
      revert hk
      cases abortCall (some LCH) 0x66 { w with timerExpired := w.timerExpired.tail } with
      | ret b w2 => intro hk; exact Confirms_kept hk.1 hk.2
      | raised e w2 => intro hk; exact Confirms_kept hk.1 hk.2
      | outOfFuel => intro _; trivial

@[simp]
theorem confirming_waitForCallConfirmed (LCH fuel : Nat) :
    Confirming (MTCStarter.waitForCallConfirmed LCH fuel) := by
  induction fuel with
  | zero =>
    unfold MTCStarter.waitForCallConfirmed
    exact Confirming_of_keeps Keeps_outOfFuel
  | succ n ih =>
    unfold MTCStarter.waitForCallConfirmed
    repeat' first
      | assumption
      | exact confirming_updateGSMSignalling _ _
      | (apply Confirming_of_keeps; simp; done)
      | apply Confirming_bind
      | intro _
      | split

/-- The loop of `MTCStarter` is left for `MTCController` only with the radio leg in
`MTCConfirmed`. -/
theorem waitForCallConfirmed_false (LCH fuel : Nat) (w w1 : World)
    (h : MTCStarter.waitForCallConfirmed LCH fuel w = .ret false w1) :
    w1.tr.GSMState = GSM.CallState.MTCConfirmed := by
  induction fuel generalizing w with
  | zero => simp [MTCStarter.waitForCallConfirmed, outOfFuel] at h
  | succ n ih =>
    unfold MTCStarter.waitForCallConfirmed at h
    simp only [bind_apply, transaction.GSMState] at h
    by_cases hs : w.tr.GSMState = GSM.CallState.MTCConfirmed
    · simp only [hs, if_true, pure_apply, Outcome.ret.injEq, true_and] at h
      rw [← h]
      exact hs
    · simp only [hs, if_false, bind_apply, transaction.engine] at h
      split at h
      · simp only [LogicalChannel.sendPrimitive, emit, bind_apply] at h
        split at h <;> simp [pure_apply] at h
      · simp only [bind_apply] at h
        split at h
        · rename_i cleared w2 _
          cases cleared
          · simp only [Bool.false_eq_true, if_false, bind_apply, transaction.engine] at h
            split at h
            · simp only [bind_apply] at h
              split at h <;> simp [pure_apply] at h
            · exact ih _ h
          · simp only [if_true, LogicalChannel.sendPrimitive, emit, bind_apply, pure_apply] at h
            simp at h
        · simp at h
        · simp at h

/-- With a transaction identifier below 7, `MTCStarter` sends Setup and enters its loop, and
goes on to `MTCController` exactly when the loop ends by its condition. -/
theorem MTCStarter_enters_loop (fuel LCH : Nat) (w : World) (hti : w.tr.L3TI < 7) :
    MTCStarter fuel LCH w
      = (MTCStarter.waitForCallConfirmed LCH fuel >>= fun returned =>
          if returned then pure () else MTCController fuel LCH) (MTCStarter.setupSent LCH w) := by
  simp [MTCStarter, bind_apply, pure_apply, transaction.L3TI, assert, hti, getTr,
    LogicalChannel.send, emit, transaction.setTimer, transaction.setGSMState,
    MTCStarter.setupSent]

theorem forceGSMClearing_table (LCH cause : Nat) (w w1 : World)
    (h : forceGSMClearing LCH cause w = .ret () w1) : w1.table = w.table := by
  by_cases hg : w.tr.GSMState = GSM.CallState.NullState
  · rw [forceGSMClearing_null LCH cause w hg] at h
    simp only [Outcome.ret.injEq, true_and] at h
    rw [← h]
  · rw [forceGSMClearing_run LCH cause w hg] at h
    simp only [Outcome.ret.injEq, true_and] at h
    rw [← h]

theorem forceSIPClearing_table (w w1 : World) (h : forceSIPClearing w = .ret () w1) :
    w1.table = w.table := by
  by_cases hs : w.tr.SIPState = SIP.SIPState.Cleared
  · rw [forceSIPClearing_cleared w hs] at h
    simp only [Outcome.ret.injEq, true_and] at h
    rw [← h]
  · rw [forceSIPClearing_run w hs] at h
    simp only [Outcome.ret.injEq, true_and] at h
    rw [← h]

/-- Forced clearing of both legs leaves the transaction table as it is. -/
theorem abortCall_table (LCH cause : Nat) (w w1 : World)
    (h : abortCall (some LCH) cause w = .ret () w1) : w1.table = w.table := by
  simp only [abortCall, bind_apply] at h
  obtain ⟨wa, ha, -⟩ := forceGSMClearing_trace LCH cause w
  rw [ha] at h
  exact (forceSIPClearing_table wa w1 h).trans (forceGSMClearing_table LCH cause w wa ha)

/-- One iteration of the loop of `MTCStarter` in which the session leg reports a cancel. -/
theorem waitForCallConfirmed_cancel (LCH fuel : Nat) (w w0 w1 : World) (trying : SIP.SIPState)
    (sips : List SIP.SIPState)
    (hs : w.tr.GSMState ≠ GSM.CallState.MTCConfirmed)
    (htry : transaction.engine SIPOp.MTCSendTrying w = .ret trying w0)
    (hne : trying ≠ SIP.SIPState.Fail)
    (hgsm : updateGSMSignalling LCH 1000 w0 = .ret false w1)
    (hsip : w1.sip = SIP.SIPState.Fail :: sips) :
    ∃ w2, MTCStarter.waitForCallConfirmed LCH (fuel + 1) w = .ret true w2
      ∧ w2.trace = w1.trace ++ [Event.sip w1.tr.ID SIPOp.MTCCheckForCancel]
          ++ radioClearingEvents w1 LCH 0x15
          ++ [Event.sip w1.tr.ID SIPOp.MODSendBYE, Event.sip w1.tr.ID SIPOp.MODWaitForOK,
              Event.tableRemove w1.tr.ID]
      ∧ w2.table = w1.table.erase w1.tr.ID := by
  obtain ⟨w3, h3, ht3, hg3, hid3, -⟩ := abortCall_trace LCH 0x15
    { w1 with trace := w1.trace ++ [Event.sip w1.tr.ID SIPOp.MTCCheckForCancel],
              sip := sips, tr := { w1.tr with SIPState := SIP.SIPState.Fail } }
  have htab := abortCall_table LCH 0x15 _ w3 h3
  refine ⟨{ w3 with trace := w3.trace ++ [Event.tableRemove w3.tr.ID],
                    table := w3.table.erase w3.tr.ID }, ?_, ?_, ?_⟩
  · unfold MTCStarter.waitForCallConfirmed
    simp only [bind_apply, transaction.GSMState, hs, if_false, htry, hne, hgsm]
    simp [transaction.engine, hsip, bind_apply, abortAndRemoveCall, h3, gTransactionTable.remove,
      pure_apply]
  · simp [ht3, radioClearingEvents, sessionClearingEvents, hid3]
  · simp [htab, hid3]

set_option linter.unnecessarySimpa false
/-! ## The first loop of `MOCController` -/

@[simp]
theorem noConnect_forceGSMClearing (LCH cause : Nat) :
    Only notConnect (forceGSMClearing LCH cause) := by
  unfold forceGSMClearing
  repeat' first
    | (simp [notConnect]; done)
    | apply Only_bind
    | intro _
    | split

@[simp]
theorem noConnect_forceSIPClearing : Only notConnect forceSIPClearing := by
  unfold forceSIPClearing
  repeat' first
    | (simp [notConnect]; done)
    | apply Only_bind
    | intro _
    | split

@[simp]
theorem noConnect_abortCall (LCH : Option Nat) (cause : Nat) :
    Only notConnect (abortCall LCH cause) := by
  unfold abortCall
  repeat' first
    | (simp [notConnect]; done)
    | apply Only_bind
    | intro _
    | split

@[simp]
theorem noConnect_abortAndRemoveCall (LCH : Option Nat) (cause : Nat) :
    Only notConnect (abortAndRemoveCall LCH cause) := by
  unfold abortAndRemoveCall
  repeat' first
    | (simp [notConnect]; done)
    | apply Only_bind
    | intro _
    | split

@[simp]
theorem noConnect_InCallMOSMSStarter : Only notConnect InCallMOSMSStarter := by
  unfold InCallMOSMSStarter
  repeat' first
    | (simp [notConnect]; done)
    | apply Only_bind
    | intro _
    | split

@[simp]
theorem noConnect_callManagementDispatchGSM (LCH : Nat) (message : Option L3Message) :
    Only notConnect (callManagementDispatchGSM LCH message) := by
  unfold callManagementDispatchGSM
  repeat' first
    | (simp [notConnect]; done)
    | apply Only_bind
    | intro _
    | split

@[simp]
theorem noConnect_updateGSMSignalling (LCH timeout : Nat) :
    Only notConnect (updateGSMSignalling LCH timeout) := by
  unfold updateGSMSignalling
  repeat' first
    | (simp [notConnect]; done)
    | apply Only_bind
    | intro _
    | split

@[simp]
theorem noConnect_waitForRinging (TCH L3TI fuel : Nat) :
    Only notConnect (MOCController.waitForRinging TCH L3TI fuel) := by
  induction fuel with
  | zero => unfold MOCController.waitForRinging; simp
  | succ n ih =>
    unfold MOCController.waitForRinging
    repeat' first
      | assumption
      | (simp [notConnect]; done)
      | apply Only_bind
      | intro _
      | split

/-- The dispatcher reports the call as not cleared only with the radio leg out of
`NullState`. -/
theorem dispatch_false_notNull (LCH : Nat) (message : Option L3Message) (w w1 : World)
    (hs : w.tr.GSMState ≠ GSM.CallState.NullState)
    (h : callManagementDispatchGSM LCH message w = .ret false w1) :
    w1.tr.GSMState ≠ GSM.CallState.NullState := by
  unfold callManagementDispatchGSM at h
  split at h
  all_goals
    simp only [bind_apply, pure_apply, transaction.resetTimers, transaction.setGSMState,
      transaction.resetTimer, transaction.setTimer, transaction.L3TI, LogicalChannel.send, emit,
      transaction.engine, Outcome.ret.injEq, true_and, Bool.true_eq_false, false_and,
      reduceCtorEq] at h
  case h_8 =>
    obtain ⟨wa, ha, -⟩ := forceSIPClearing_trace
      { w with trace := w.trace ++ [Event.IMSIDetachController LCH] }
    rw [ha] at h
    simp at h
  case h_9 =>
    simp only [getConfig] at h
    cases h1 : w.config.dtmfRFC2833 <;> cases h2 : w.config.dtmfRFC2967 <;>
      simp only [transaction.engineBool, pure_apply, h1, h2, if_true, if_false,
        Bool.false_eq_true] at h <;>
      split_ifs at h <;> simp [emit] at h <;> subst h <;> simpa using hs
  case h_11 =>
    cases hc : w.tr.channel <;> split at h <;>
      simp [InCallMOSMSStarter, bind_apply, pure_apply, getTr, assert, hc, raise,
        gTransactionTable.addNew, emit] at h <;> subst h <;> simpa using hs
  all_goals first | (subst h; simpa using hs) | (subst h; simp)

/-- Source function `updateGSMSignalling` reports the call as not cleared only with the radio
leg out of `NullState`. -/
theorem updateGSMSignalling_false_notNull (LCH timeout : Nat) (w w1 : World)
    (h : updateGSMSignalling LCH timeout w = .ret false w1) :
    w1.tr.GSMState ≠ GSM.CallState.NullState := by
  by_cases hs : w.tr.GSMState = GSM.CallState.NullState
  · simp [updateGSMSignalling, bind_apply, pure_apply, transaction.GSMState, hs] at h
  · cases he : w.timerExpired.headD false
    · rcases hrx : w.rx with _ | ⟨_ | f, rest⟩
      · simp only [updateGSMSignalling, bind_apply, pure_apply, transaction.GSMState, hs,
          transaction.anyTimerExpired, LogicalChannel.recv, he, hrx, if_false, List.headD_nil,
          Bool.false_eq_true, List.tail_nil, Outcome.ret.injEq, true_and] at h
        subst h
        exact hs
      · simp only [updateGSMSignalling, bind_apply, pure_apply, transaction.GSMState, hs,
          transaction.anyTimerExpired, LogicalChannel.recv, he, hrx, if_false, List.headD_cons,
          Bool.false_eq_true, List.tail_cons, Outcome.ret.injEq, true_and] at h
        subst h
        exact hs
      · simp only [updateGSMSignalling, bind_apply, pure_apply, transaction.GSMState, hs,
          transaction.anyTimerExpired, LogicalChannel.recv, he, hrx, if_false, List.headD_cons,
          Bool.false_eq_true, List.tail_cons] at h
        by_cases hp : f.primitive = GSM.Primitive.ERROR
        · simp [hp, pure_apply] at h
        · simp only [hp, if_false] at h
          cases hm : f.parseL3 with
          | none =>
            simp only [hm, pure_apply, Outcome.ret.injEq, true_and] at h
            subst h
            exact hs
          | some msg =>
            simp only [hm] at h
            exact dispatch_false_notNull LCH (some msg) _ w1 (by exact hs) h
    · simp only [updateGSMSignalling, bind_apply, pure_apply, transaction.GSMState, hs,
        transaction.anyTimerExpired, he, if_false, if_true] at h
      split at h <;> simp at h

/-- One iteration of the first loop of `MOCController` in which the session leg reports
Busy. -/
theorem waitForRinging_busy (TCH L3TI fuel : Nat) (w w1 : World) (sips : List SIP.SIPState)
    (hs : w.tr.GSMState ≠ GSM.CallState.CallReceived)
    (hgsm : updateGSMSignalling TCH 0 w = .ret false w1)
    (hclr : w1.clearingGSM w1.tr.GSMState = false)
    (hsip : w1.sip = SIP.SIPState.Busy :: sips) :
    ∃ w2, MOCController.waitForRinging TCH L3TI (fuel + 1) w = .ret true w2
      ∧ w2.trace = w1.trace ++
          [Event.sip w1.tr.ID SIPOp.MOCWaitForOK,
           Event.send TCH 0 (.L3Disconnect w1.tr.L3TI (some 0x11)),
           Event.send TCH 0 (.L3ReleaseComplete w1.tr.L3TI none),
           Event.send TCH 0 .L3ChannelRelease,
           Event.sendPrimitive TCH 0 GSM.Primitive.RELEASE,
           Event.sip w1.tr.ID SIPOp.MODSendBYE, Event.sip w1.tr.ID SIPOp.MODWaitForOK,
           Event.tableRemove w1.tr.ID]
      ∧ w2.table = w1.table.erase w1.tr.ID := by
  have hnn := updateGSMSignalling_false_notNull TCH 0 w w1 hgsm
  obtain ⟨w3, h3, ht3, hg3, hid3, -⟩ := abortCall_trace TCH 0x11
    { w1 with trace := w1.trace ++ [Event.sip w1.tr.ID SIPOp.MOCWaitForOK],
              sip := sips, tr := { w1.tr with SIPState := SIP.SIPState.Busy } }
  have htab := abortCall_table TCH 0x11 _ w3 h3
  refine ⟨{ w3 with trace := w3.trace ++ [Event.tableRemove w3.tr.ID],
                    table := w3.table.erase w3.tr.ID }, ?_, ?_, ?_⟩
  · unfold MOCController.waitForRinging
    simp only [bind_apply, transaction.GSMState, hs, if_false, hgsm]
    simp [transaction.clearingGSM, hclr, transaction.engine, hsip, bind_apply,
      abortAndRemoveCall, h3, gTransactionTable.remove, pure_apply]
  · simp [ht3, radioClearingEvents, sessionClearingEvents, hid3, hnn, hclr]
  · simp [htab, hid3]

/-! ## Small facts used by the claims -/

theorem sessionClearingEvents_sip (w : World) :
    ∀ e ∈ sessionClearingEvents w,
      e = .sip w.tr.ID .MODSendBYE ∨ e = .sip w.tr.ID .MODResendBYE
        ∨ e = .sip w.tr.ID .MODWaitForOK := by
  intro e he
  unfold sessionClearingEvents at he
  split at he
  · simp at he
  · split at he <;> simp at he <;> rcases he with rfl | rfl <;> simp

/-- A content type that starts with the raw payload type does not start with the plain-text
type. -/
theorem strncmpEq_raw_not_text (contentType : String)
    (h : strncmpEq contentType "application/vnd.3gpp.sms" 24 = true) :
    strncmpEq contentType "text/plain" 10 = false := by
  simp only [strncmpEq, decide_eq_true_eq, decide_eq_false_iff_not] at h ⊢
  intro h10
  have h2 : (contentType.toList.take 24).take 10 = contentType.toList.take 10 := by
    rw [List.take_take]
    rfl
  rw [h, h10] at h2
  revert h2
  decide

/-! ## The dispatcher, branch by branch -/

set_option linter.unnecessarySeqFocus false

theorem dispatch_ConnectAcknowledge (LCH TI : Nat) (w : World) :
    callManagementDispatchGSM LCH (some (.L3ConnectAcknowledge TI)) w
      = .ret false { w with tr := { w.tr with timers := [], GSMState := GSM.CallState.Active } } :=
  rfl

theorem dispatch_Connect (LCH TI : Nat) (w : World) :
    callManagementDispatchGSM LCH (some (.L3Connect TI)) w
      = .ret false { w with tr := { w.tr with timers := [], GSMState := GSM.CallState.Active } } :=
  rfl

theorem dispatch_CallConfirmed (LCH TI : Nat) (w : World) :
    callManagementDispatchGSM LCH (some (.L3CallConfirmed TI)) w
      = .ret false
          { w with
            tr := { w.tr with
              timers := "301" :: ((w.tr.timers.filter (fun t => t ≠ "303")).filter
                (fun t => t ≠ "301")),
              GSMState := GSM.CallState.MTCConfirmed } } :=
  rfl

theorem dispatch_Alerting (LCH TI : Nat) (w : World) :
    callManagementDispatchGSM LCH (some (.L3Alerting TI)) w
      = .ret false
          { w with
            tr := { w.tr with
              timers := "301" :: ((w.tr.timers.filter (fun t => t ≠ "310")).filter
                (fun t => t ≠ "301")),
              GSMState := GSM.CallState.CallReceived } } :=
  rfl

theorem dispatch_Disconnect (LCH TI : Nat) (cause : Option Nat) (w : World) :
    callManagementDispatchGSM LCH (some (.L3Disconnect TI cause)) w
      = .ret false
          { w with
            trace := w.trace ++
              [.send LCH 0 (.L3Release w.tr.L3TI), .sip w.tr.ID .MODSendBYE],
            sip := w.sip.tail,
            tr := { w.tr with timers := ["308"], GSMState := GSM.CallState.ReleaseRequest,
                              SIPState := w.sip.headD w.tr.SIPState } } := by
  simp [callManagementDispatchGSM, bind_apply, pure_apply, transaction.resetTimers,
    transaction.L3TI, LogicalChannel.send, emit, transaction.setTimer,
    transaction.setGSMState, transaction.engine]

theorem dispatch_Release (LCH TI : Nat) (w : World) :
    callManagementDispatchGSM LCH (some (.L3Release TI)) w
      = .ret true
          { w with
            trace := w.trace ++
              [.send LCH 0 (.L3ReleaseComplete w.tr.L3TI none), .send LCH 0 .L3ChannelRelease,
               .sip w.tr.ID .MTDSendOK],
            sip := w.sip.tail,
            tr := { w.tr with timers := [], GSMState := GSM.CallState.NullState,
                              SIPState := w.sip.headD w.tr.SIPState } } := by
  simp [callManagementDispatchGSM, bind_apply, pure_apply, transaction.resetTimers,
    transaction.L3TI, LogicalChannel.send, emit, transaction.setGSMState, transaction.engine]

theorem dispatch_ReleaseComplete (LCH TI : Nat) (cause : Option Nat) (w : World) :
    callManagementDispatchGSM LCH (some (.L3ReleaseComplete TI cause)) w
      = .ret true
          { w with
            trace := w.trace ++ [.send LCH 0 .L3ChannelRelease, .sip w.tr.ID .MODWaitForOK],
            sip := w.sip.tail,
            tr := { w.tr with timers := [], GSMState := GSM.CallState.NullState,
                              SIPState := w.sip.headD w.tr.SIPState } } := by
  simp [callManagementDispatchGSM, bind_apply, pure_apply, transaction.resetTimers,
    LogicalChannel.send, emit, transaction.setGSMState, transaction.engine]

theorem dispatch_IMSIDetach (LCH : Nat) (w : World) :
    callManagementDispatchGSM LCH (some .L3IMSIDetachIndication) w
      = (forceSIPClearing >>= fun _ => (pure true : Ctl Bool))
          { w with trace := w.trace ++ [.IMSIDetachController LCH] } :=
  rfl

theorem dispatch_StartDTMF (LCH TI : Nat) (key : Char) (w : World) :
    callManagementDispatchGSM LCH (some (.L3StartDTMF TI key)) w
      = .ret false
          { w with
            trace := w.trace ++ dtmfRelayEvents w key ++
              [.send LCH 0 (if dtmfRelayed w then .L3StartDTMFAcknowledge w.tr.L3TI key
                else .L3StartDTMFReject w.tr.L3TI 0x3f)],
            dtmfResult :=
              (if w.config.dtmfRFC2967 then List.tail else id)
                ((if w.config.dtmfRFC2833 then List.tail else id) w.dtmfResult) } := by
  cases h1 : w.config.dtmfRFC2833 <;> cases h2 : w.config.dtmfRFC2967 <;>
    rcases hd : w.dtmfResult with _ | ⟨_ | _, _ | ⟨_ | _, rest⟩⟩ <;>
    simp [callManagementDispatchGSM, bind_apply, pure_apply, getConfig, h1, h2, hd,
      transaction.engineBool, transaction.L3TI, LogicalChannel.send, emit, dtmfRelayEvents,
      dtmfRelayed]

theorem dispatch_StopDTMF (LCH TI : Nat) (w : World) :
    callManagementDispatchGSM LCH (some (.L3StopDTMF TI)) w
      = .ret false
          { w with
            trace := w.trace ++
              [.sip w.tr.ID .stopDTMF, .send LCH 0 (.L3StopDTMFAcknowledge w.tr.L3TI)],
            sip := w.sip.tail,
            tr := { w.tr with SIPState := w.sip.headD w.tr.SIPState } } := by
  simp [callManagementDispatchGSM, bind_apply, pure_apply, transaction.L3TI,
    LogicalChannel.send, emit, transaction.engine]

theorem dispatch_Hold (LCH TI : Nat) (w : World) :
    callManagementDispatchGSM LCH (some (.L3Hold TI)) w
      = .ret false { w with trace := w.trace ++ [.send LCH 0 (.L3HoldReject w.tr.L3TI 0x3f)] } :=
  rfl

theorem dispatch_CMServiceRequest_sms (LCH : Nat) (mobileID : String) (w : World) :
    callManagementDispatchGSM LCH
        (some (.L3CMServiceRequest GSM.L3CMServiceType.ShortMessage mobileID)) w
      = if w.tr.channel.isSome then
          .ret false
            { w with
              trace := w.trace ++ [.tableAdd w.nextID, .send LCH 0 .L3CMServiceAccept],
              table := w.table ++ [w.nextID], nextID := w.nextID + 1 }
        else .raised .AssertionFailed w := by
  cases hc : w.tr.channel <;>
    simp [callManagementDispatchGSM, InCallMOSMSStarter, bind_apply, pure_apply, getTr, assert,
      hc, raise, gTransactionTable.addNew, LogicalChannel.send, emit]

theorem dispatch_CMServiceRequest_other (LCH : Nat) (serviceType : GSM.L3CMServiceType)
    (mobileID : String) (w : World) (h : serviceType ≠ GSM.L3CMServiceType.ShortMessage) :
    callManagementDispatchGSM LCH (some (.L3CMServiceRequest serviceType mobileID)) w
      = .ret false { w with trace := w.trace ++ [.send LCH 0 (.L3CMServiceReject 0x20)] } := by
  simp [callManagementDispatchGSM, h, bind_apply, pure_apply, LogicalChannel.send, emit]

/-- The dispatcher always ends: it returns, or the assertion of `InCallMOSMSStarter` fails. -/
theorem dispatch_ends (LCH : Nat) (message : Option L3Message) (w : World) :
    ∃ w1, (callManagementDispatchGSM LCH message w).world = some w1 := by
  rcases message with _ | m
  · exact ⟨w, rfl⟩
  · cases m
    case L3IMSIDetachIndication =>
      obtain ⟨w1, h1, -⟩ := forceSIPClearing_trace
        { w with trace := w.trace ++ [.IMSIDetachController LCH] }
      exact ⟨w1, by rw [dispatch_IMSIDetach, bind_apply, h1]; rfl⟩
    case L3StartDTMF TI key => exact ⟨_, by rw [dispatch_StartDTMF]; rfl⟩
    case L3CMServiceRequest serviceType mobileID =>
      by_cases hs : serviceType = GSM.L3CMServiceType.ShortMessage
      · subst hs
        rw [dispatch_CMServiceRequest_sms]
        split
        · exact ⟨_, rfl⟩
        · exact ⟨_, rfl⟩
      · exact ⟨_, by rw [dispatch_CMServiceRequest_other _ _ _ _ hs]; rfl⟩
    all_goals exact ⟨_, rfl⟩

/-- The radio-leg state after the dispatcher is the one the specification gives. -/
theorem dispatch_state (LCH : Nat) (message : Option L3Message) (w w1 : World)
    (h : (callManagementDispatchGSM LCH message w).world = some w1) :
    w1.tr.GSMState = stateAfterDispatch message w.tr.GSMState := by
  rcases message with _ | m
  · simp only [callManagementDispatchGSM, pure_apply, Outcome.world, Option.some.injEq] at h
    subst h
    rfl
  · cases m
    case L3IMSIDetachIndication =>
      obtain ⟨w2, h2, -, hg, -⟩ := forceSIPClearing_trace
        { w with trace := w.trace ++ [.IMSIDetachController LCH] }
      rw [dispatch_IMSIDetach, bind_apply, h2] at h
      simp only [pure_apply, Outcome.world, Option.some.injEq] at h
      subst h
      exact hg
    case L3StartDTMF TI key =>
      rw [dispatch_StartDTMF] at h
      simp only [Outcome.world, Option.some.injEq] at h
      subst h
      rfl
    case L3CMServiceRequest serviceType mobileID =>
      by_cases hs : serviceType = GSM.L3CMServiceType.ShortMessage
      · subst hs
        rw [dispatch_CMServiceRequest_sms] at h
        split at h <;> simp only [Outcome.world, Option.some.injEq] at h <;> subst h <;> rfl
      · rw [dispatch_CMServiceRequest_other _ _ _ _ hs] at h
        simp only [Outcome.world, Option.some.injEq] at h
        subst h
        rfl
    case L3Disconnect TI cause =>
      rw [dispatch_Disconnect] at h
      simp only [Outcome.world, Option.some.injEq] at h
      subst h
      rfl
    case L3Release TI =>
      rw [dispatch_Release] at h
      simp only [Outcome.world, Option.some.injEq] at h
      subst h
      rfl
    case L3ReleaseComplete TI cause =>
      rw [dispatch_ReleaseComplete] at h
      simp only [Outcome.world, Option.some.injEq] at h
      subst h
      rfl
    case L3StopDTMF TI =>
      rw [dispatch_StopDTMF] at h
      simp only [Outcome.world, Option.some.injEq] at h
      subst h
      rfl
    all_goals
      simp only [callManagementDispatchGSM, bind_apply, pure_apply, transaction.resetTimers,
        transaction.resetTimer, transaction.setTimer, transaction.setGSMState,
        transaction.L3TI, LogicalChannel.send, emit, Outcome.world, Option.some.injEq] at h
      subst h
      rfl

/-- The messages on which the dispatcher returns true. -/
theorem dispatch_result (LCH : Nat) (message : Option L3Message) (w w1 : World) (b : Bool)
    (h : callManagementDispatchGSM LCH message w = .ret b w1) :
    b = true ↔ (isRelease message ∨ message = some L3Message.L3IMSIDetachIndication) := by
  rcases message with _ | m
  · simp only [callManagementDispatchGSM, pure_apply, Outcome.ret.injEq] at h
    simp [← h.1, isRelease]
  · cases m
    case L3IMSIDetachIndication =>
      obtain ⟨w2, h2, -⟩ := forceSIPClearing_trace
        { w with trace := w.trace ++ [.IMSIDetachController LCH] }
      rw [dispatch_IMSIDetach, bind_apply, h2] at h
      simp only [pure_apply, Outcome.ret.injEq] at h
      simp [← h.1]
    case L3StartDTMF TI key =>
      rw [dispatch_StartDTMF] at h
      simp only [Outcome.ret.injEq] at h
      simp [← h.1, isRelease]
    case L3CMServiceRequest serviceType mobileID =>
      by_cases hs : serviceType = GSM.L3CMServiceType.ShortMessage
      · subst hs
        rw [dispatch_CMServiceRequest_sms] at h
        split at h
        · simp only [Outcome.ret.injEq] at h
          simp [← h.1, isRelease]
        · simp at h
      · rw [dispatch_CMServiceRequest_other _ _ _ _ hs] at h
        simp only [Outcome.ret.injEq] at h
        simp [← h.1, isRelease]
    case L3Disconnect TI cause =>
      rw [dispatch_Disconnect] at h
      simp only [Outcome.ret.injEq] at h
      simp [← h.1, isRelease]
    case L3Release TI =>
      rw [dispatch_Release] at h
      simp only [Outcome.ret.injEq] at h
      simp [← h.1, isRelease]
    case L3ReleaseComplete TI cause =>
      rw [dispatch_ReleaseComplete] at h
      simp only [Outcome.ret.injEq] at h
      simp [← h.1, isRelease]
    case L3StopDTMF TI =>
      rw [dispatch_StopDTMF] at h
      simp only [Outcome.ret.injEq] at h
      simp [← h.1, isRelease]
    all_goals
      simp only [callManagementDispatchGSM, bind_apply, pure_apply, transaction.resetTimers,
        transaction.resetTimer, transaction.setTimer, transaction.setGSMState,
        transaction.L3TI, LogicalChannel.send, emit, Outcome.ret.injEq] at h
      simp [← h.1, isRelease]

/-! ## Steps that leave the termination requests and the stored L3TI alone -/

theorem Untouched_bind {α β : Type} {m : Ctl α} {f : α → Ctl β}
    (hm : Untouched m) (hf : ∀ a, Untouched (f a)) : Untouched (m >>= f) := by
  constructor
  intro w
  have h1 := hm.run w
  rw [bind_apply]
  cases hmw : m w with
  | ret a w1 =>
    rw [hmw] at h1
    have h2 := (hf a).run w1
    simp only
    cases hfw : f a w1 with
    | ret b w2 => rw [hfw] at h2; exact ⟨h2.1.trans h1.1, h2.2.trans h1.2⟩
    | raised e w2 => rw [hfw] at h2; exact ⟨h2.1.trans h1.1, h2.2.trans h1.2⟩
    | outOfFuel => trivial
  | raised e w1 => rw [hmw] at h1; exact h1
  | outOfFuel => trivial

theorem Untouched_tryBlock {α : Type} {m : Ctl α} {h : ControlException → Ctl α}
    (hm : Untouched m) (hh : ∀ e, Untouched (h e)) : Untouched (tryBlock m h) := by
  constructor
  intro w
  have h1 := hm.run w
  unfold OpenBTS.tryBlock
  cases hmw : m w with
  | ret a w1 => rw [hmw] at h1; simpa using h1
  | raised e w1 =>
    rw [hmw] at h1
    have h2 := (hh e).run w1
    simp only
    cases hfw : h e w1 with
    | ret b w2 => rw [hfw] at h2; exact ⟨h2.1.trans h1.1, h2.2.trans h1.2⟩
    | raised e w2 => rw [hfw] at h2; exact ⟨h2.1.trans h1.1, h2.2.trans h1.2⟩
    | outOfFuel => trivial
  | outOfFuel => trivial

/-- A step that returns and changes neither the termination requests nor the stored L3TI. -/
theorem Untouched_same {α : Type} {m : Ctl α}
    (h : ∀ w, ∃ a w1, m w = .ret a w1 ∧ w1.terminationRequested = w.terminationRequested
      ∧ w1.tr.L3TI = w.tr.L3TI) : Untouched m := by
  constructor
  intro w
  obtain ⟨a, w1, hm, h1, h2⟩ := h w
  rw [hm]
  exact ⟨h1, h2⟩

@[simp]
theorem Untouched_pure {α : Type} (a : α) : Untouched (pure a : Ctl α) :=
  Untouched_same fun _ => ⟨_, _, rfl, rfl, rfl⟩

@[simp]
theorem Untouched_raise {α : Type} (e : ControlException) : Untouched (raise e : Ctl α) :=
  ⟨fun _ => ⟨rfl, rfl⟩⟩

@[simp]
theorem Untouched_outOfFuel {α : Type} : Untouched (outOfFuel : Ctl α) :=
  ⟨fun _ => trivial⟩

@[simp]
theorem Untouched_emit (e : Event) : Untouched (emit e) :=
  Untouched_same fun _ => ⟨_, _, rfl, rfl, rfl⟩

@[simp]
theorem Untouched_assert (c : Bool) : Untouched (assert c) := by
  cases c
  · exact Untouched_raise _
  · exact Untouched_pure _

@[simp]
theorem Untouched_send (LCH sap : Nat) (msg : L3Message) :
    Untouched (LogicalChannel.send LCH msg sap) :=
  Untouched_emit _

@[simp]
theorem Untouched_sendPrimitive (LCH sap : Nat) (prim : GSM.Primitive) :
    Untouched (LogicalChannel.sendPrimitive LCH prim sap) :=
  Untouched_emit _

@[simp]
theorem Untouched_sendTCH (TCH : Nat) : Untouched (LogicalChannel.sendTCH TCH) :=
  Untouched_emit _

@[simp]
theorem Untouched_getTr : Untouched getTr :=
  Untouched_same fun _ => ⟨_, _, rfl, rfl, rfl⟩

@[simp]
theorem Untouched_getConfig : Untouched getConfig :=
  Untouched_same fun _ => ⟨_, _, rfl, rfl, rfl⟩

@[simp]
theorem Untouched_readChars (address : CharPtr) : Untouched (readChars address) :=
  Untouched_same fun _ => by
    unfold readChars
    split <;> exact ⟨_, _, rfl, rfl, rfl⟩

@[simp]
theorem Untouched_GSMState : Untouched transaction.GSMState :=
  Untouched_same fun _ => ⟨_, _, rfl, rfl, rfl⟩

@[simp]
theorem Untouched_setGSMState (s : GSM.CallState) : Untouched (transaction.setGSMState s) :=
  Untouched_same fun _ => ⟨_, _, rfl, rfl, rfl⟩

@[simp]
theorem Untouched_SIPState : Untouched transaction.SIPState :=
  Untouched_same fun _ => ⟨_, _, rfl, rfl, rfl⟩

@[simp]
theorem Untouched_clearingGSM : Untouched transaction.clearingGSM :=
  Untouched_same fun _ => ⟨_, _, rfl, rfl, rfl⟩

@[simp]
theorem Untouched_L3TI : Untouched transaction.L3TI :=
  Untouched_same fun _ => ⟨_, _, rfl, rfl, rfl⟩

@[simp]
theorem Untouched_setChannel (LCH : Nat) : Untouched (transaction.setChannel LCH) :=
  Untouched_same fun _ => ⟨_, _, rfl, rfl, rfl⟩

@[simp]
theorem Untouched_setCalledAndMessage (a b : String) : Untouched (transaction.setCalledAndMessage a b) :=
  Untouched_same fun _ => ⟨_, _, rfl, rfl, rfl⟩

@[simp]
theorem Untouched_ID : Untouched transaction.ID :=
  Untouched_same fun _ => ⟨_, _, rfl, rfl, rfl⟩

@[simp]
theorem Untouched_resetTimers : Untouched transaction.resetTimers :=
  Untouched_same fun _ => ⟨_, _, rfl, rfl, rfl⟩

@[simp]
theorem Untouched_resetTimer (n : String) : Untouched (transaction.resetTimer n) :=
  Untouched_same fun _ => ⟨_, _, rfl, rfl, rfl⟩

@[simp]
theorem Untouched_setTimer (n : String) : Untouched (transaction.setTimer n) :=
  Untouched_same fun _ => ⟨_, _, rfl, rfl, rfl⟩

@[simp]
theorem Untouched_anyTimerExpired : Untouched transaction.anyTimerExpired :=
  Untouched_same fun _ => ⟨_, _, rfl, rfl, rfl⟩

@[simp]
theorem Untouched_engine (op : SIPOp) : Untouched (transaction.engine op) :=
  Untouched_same fun _ => ⟨_, _, rfl, rfl, rfl⟩

@[simp]
theorem Untouched_engineBool (op : SIPOp) : Untouched (transaction.engineBool op) :=
  Untouched_same fun _ => ⟨_, _, rfl, rfl, rfl⟩

@[simp]
theorem Untouched_rxFrame : Untouched transaction.rxFrame :=
  Untouched_same fun _ => ⟨_, _, rfl, rfl, rfl⟩

@[simp]
theorem Untouched_txFrame (frame : Nat) : Untouched (transaction.txFrame frame) :=
  Untouched_same fun _ => ⟨_, _, rfl, rfl, rfl⟩

@[simp]
theorem Untouched_recv (LCH timeout sap : Nat) : Untouched (LogicalChannel.recv LCH timeout sap) :=
  Untouched_same fun _ => ⟨_, _, rfl, rfl, rfl⟩

@[simp]
theorem Untouched_radioFailure (LCH : Nat) : Untouched (LogicalChannel.radioFailure LCH) :=
  Untouched_same fun _ => ⟨_, _, rfl, rfl, rfl⟩

@[simp]
theorem Untouched_multiframeMode (LCH sap : Nat) : Untouched (LogicalChannel.multiframeMode LCH sap) :=
  Untouched_same fun _ => ⟨_, _, rfl, rfl, rfl⟩

@[simp]
theorem Untouched_queueSize (LCH : Nat) : Untouched (LogicalChannel.queueSize LCH) :=
  Untouched_same fun _ => ⟨_, _, rfl, rfl, rfl⟩

@[simp]
theorem Untouched_recvTCH (TCH : Nat) : Untouched (LogicalChannel.recvTCH TCH) :=
  Untouched_same fun _ => ⟨_, _, rfl, rfl, rfl⟩

@[simp]
theorem Untouched_add (id : Nat) : Untouched (gTransactionTable.add id) :=
  Untouched_same fun _ => ⟨_, _, rfl, rfl, rfl⟩

@[simp]
theorem Untouched_addNew : Untouched gTransactionTable.addNew :=
  Untouched_same fun _ => ⟨_, _, rfl, rfl, rfl⟩

@[simp]
theorem Untouched_remove : Untouched gTransactionTable.remove :=
  Untouched_same fun _ => ⟨_, _, rfl, rfl, rfl⟩

@[simp]
theorem Untouched_random : Untouched random :=
  Untouched_same fun _ => ⟨_, _, rfl, rfl, rfl⟩

@[simp]
theorem Untouched_unhexAndParse (s : String) : Untouched (unhexAndParse s) :=
  Untouched_same fun _ => ⟨_, _, rfl, rfl, rfl⟩

@[simp]
theorem untouched_forceGSMClearing (LCH cause : Nat) :
    Untouched (forceGSMClearing LCH cause) := by
  unfold forceGSMClearing
  repeat' first
    | (simp; done)
    | apply Untouched_bind
    | intro _
    | split

@[simp]
theorem untouched_forceSIPClearing :
    Untouched forceSIPClearing := by
  unfold forceSIPClearing
  repeat' first
    | (simp; done)
    | apply Untouched_bind
    | intro _
    | split

@[simp]
theorem untouched_abortCall (LCH : Option Nat) (cause : Nat) :
    Untouched (abortCall LCH cause) := by
  unfold abortCall
  repeat' first
    | (simp; done)
    | apply Untouched_bind
    | intro _
    | split

@[simp]
theorem untouched_InCallMOSMSStarter :
    Untouched InCallMOSMSStarter := by
  unfold InCallMOSMSStarter
  repeat' first
    | (simp; done)
    | apply Untouched_bind
    | intro _
    | split

@[simp]
theorem untouched_callManagementDispatchGSM (LCH : Nat) (message : Option L3Message) :
    Untouched (callManagementDispatchGSM LCH message) := by
  unfold callManagementDispatchGSM
  repeat' first
    | (simp; done)
    | apply Untouched_bind
    | intro _
    | split

@[simp]
theorem untouched_updateGSMSignalling (LCH timeout : Nat) :
    Untouched (updateGSMSignalling LCH timeout) := by
  unfold updateGSMSignalling
  repeat' first
    | (simp; done)
    | apply Untouched_bind
    | intro _
    | split

@[simp]
theorem untouched_updateSIPSignalling (LCH : Nat) (GSMCleared : Bool) :
    Untouched (updateSIPSignalling LCH GSMCleared) := by
  unfold updateSIPSignalling
  repeat' first
    | (simp; done)
    | apply Untouched_bind
    | intro _
    | split

@[simp]
theorem untouched_updateSignalling (LCH timeout : Nat) :
    Untouched (updateSignalling LCH timeout) := by
  unfold updateSignalling
  repeat' first
    | (simp; done)
    | apply Untouched_bind
    | intro _
    | split

@[simp]
theorem untouched_getFrameSMS (LCH : Nat) (prim : GSM.Primitive) :
    Untouched (getFrameSMS LCH prim) := by
  unfold getFrameSMS
  repeat' first
    | (simp; done)
    | apply Untouched_bind
    | intro _
    | split

@[simp]
theorem untouched_sendSIP (address : CharPtr) (body contentType : String) :
    Untouched (sendSIP address body contentType) := by
  unfold sendSIP
  repeat' first
    | (simp; done)
    | apply Untouched_bind
    | intro _
    | split

@[simp]
theorem untouched_parseSubmit (RPDU : SMS.RLFrame) :
    Untouched (parseSubmit RPDU) := by
  unfold parseSubmit
  repeat' first
    | (simp; done)
    | apply Untouched_bind
    | intro _
    | split

@[simp]
theorem untouched_handleRPDU (RPDU : SMS.RLFrame) :
    Untouched (handleRPDU RPDU) := by
  unfold handleRPDU
  repeat' first
    | (simp; done)
    | apply Untouched_bind
    | intro _
    | split

@[simp]
theorem untouched_parseAndHandle (CM : L3Frame) :
    Untouched (parseAndHandle CM) := by
  unfold parseAndHandle
  repeat' first
    | (simp; done)
    | apply Untouched_bind
    | intro _
    | split

@[simp]
theorem untouched_flushUplink (TCH maxQ fuel : Nat) : Untouched (flushUplink TCH maxQ fuel) := by
  induction fuel with
  | zero => unfold flushUplink; simp
  | succ n ih =>
    unfold flushUplink
    repeat' first
      | assumption
      | (simp; done)
      | apply Untouched_bind
      | intro _
      | split

@[simp]
theorem untouched_updateCallTraffic (fuel TCH : Nat) : Untouched (updateCallTraffic fuel TCH) := by
  unfold updateCallTraffic
  repeat' first
    | (simp; done)
    | apply Untouched_bind
    | intro _
    | split

/-! ## Signalling transfers no media -/

@[simp]
theorem noMedia_forceGSMClearing (LCH cause : Nat) :
    Only notMedia (forceGSMClearing LCH cause) := by
  unfold forceGSMClearing
  repeat' first
    | (simp [notMedia]; done)
    | apply Only_bind
    | intro _
    | split

@[simp]
theorem noMedia_forceSIPClearing :
    Only notMedia forceSIPClearing := by
  unfold forceSIPClearing
  repeat' first
    | (simp [notMedia]; done)
    | apply Only_bind
    | intro _
    | split

@[simp]
theorem noMedia_abortCall (LCH : Option Nat) (cause : Nat) :
    Only notMedia (abortCall LCH cause) := by
  unfold abortCall
  repeat' first
    | (simp [notMedia]; done)
    | apply Only_bind
    | intro _
    | split

@[simp]
theorem noMedia_InCallMOSMSStarter :
    Only notMedia InCallMOSMSStarter := by
  unfold InCallMOSMSStarter
  repeat' first
    | (simp [notMedia]; done)
    | apply Only_bind
    | intro _
    | split

@[simp]
theorem noMedia_callManagementDispatchGSM (LCH : Nat) (message : Option L3Message) :
    Only notMedia (callManagementDispatchGSM LCH message) := by
  unfold callManagementDispatchGSM
  repeat' first
    | (simp [notMedia]; done)
    | apply Only_bind
    | intro _
    | split

@[simp]
theorem noMedia_updateGSMSignalling (LCH timeout : Nat) :
    Only notMedia (updateGSMSignalling LCH timeout) := by
  unfold updateGSMSignalling
  repeat' first
    | (simp [notMedia]; done)
    | apply Only_bind
    | intro _
    | split

@[simp]
theorem noMedia_updateSIPSignalling (LCH : Nat) (GSMCleared : Bool) :
    Only notMedia (updateSIPSignalling LCH GSMCleared) := by
  unfold updateSIPSignalling
  repeat' first
    | (simp [notMedia]; done)
    | apply Only_bind
    | intro _
    | split

@[simp]
theorem noMedia_updateSignalling (LCH timeout : Nat) :
    Only notMedia (updateSignalling LCH timeout) := by
  unfold updateSignalling
  repeat' first
    | (simp [notMedia]; done)
    | apply Only_bind
    | intro _
    | split

/-! ## The termination flag is asked for once -/

theorem ExaminesOnce_of_untouched {α : Type} {m : Ctl α} (h : Untouched m) :
    ExaminesOnce m := by
  constructor
  intro w
  have h1 := h.run w
  cases hmw : m w with
  | ret a w1 => rw [hmw] at h1; exact Or.inl h1.1
  | raised e w1 => rw [hmw] at h1; exact Or.inl h1.1
  | outOfFuel => trivial

/-- A step that leaves the flag alone, followed by steps that ask for it at most once. -/
theorem ExaminesOnce_bind {α β : Type} {m : Ctl α} {f : α → Ctl β}
    (hm : Untouched m) (hf : ∀ a, ExaminesOnce (f a)) : ExaminesOnce (m >>= f) := by
  constructor
  intro w
  have h1 := hm.run w
  rw [bind_apply]
  cases hmw : m w with
  | ret a w1 =>
    rw [hmw] at h1
    have h2 := (hf a).run w1
    simp only
    cases hfw : f a w1 with
    | ret b w2 => rw [hfw] at h2; rw [← h1.1]; exact h2
    | raised e w2 => rw [hfw] at h2; rw [← h1.1]; exact h2
    | outOfFuel => trivial
  | raised e w1 => rw [hmw] at h1; exact Or.inl h1.1
  | outOfFuel => trivial

/-- The flag is asked for, and the steps that follow leave it alone. -/
theorem ExaminesOnce_ask {β : Type} {f : Bool → Ctl β} (hf : ∀ a, Untouched (f a)) :
    ExaminesOnce (transaction.terminationRequested >>= f) := by
  constructor
  intro w
  rw [bind_apply]
  simp only [transaction.terminationRequested]
  have h2 := (hf (w.terminationRequested.headD false)).run
    { w with terminationRequested := w.terminationRequested.tail }
  revert h2
  cases f (w.terminationRequested.headD false)
      { w with terminationRequested := w.terminationRequested.tail } with
  | ret b w2 => intro h2; exact Or.inr h2.1
  | raised e w2 => intro h2; exact Or.inr h2.1
  | outOfFuel => intro _; trivial

theorem examinesOnce_pollInCall (fuel TCH : Nat) : ExaminesOnce (pollInCall fuel TCH) := by
  unfold pollInCall
  apply ExaminesOnce_bind (Untouched_radioFailure TCH)
  intro failure
  split
  · exact ExaminesOnce_of_untouched (Untouched_bind untouched_forceSIPClearing
      fun _ => Untouched_pure true)
  · apply ExaminesOnce_bind (untouched_updateSignalling TCH 0)
    intro cleared
    split
    · exact ExaminesOnce_of_untouched (Untouched_pure true)
    · apply ExaminesOnce_ask
      intro requested
      repeat' first
        | (simp; done)
        | apply Untouched_bind
        | intro _
        | split

/-! ## Timer expiry, the two polls, and a requested termination -/

/-- Neither force-clear reads from the channel. -/
theorem clearingEvents_no_recv (w : World) (LCH cause : Nat) :
    ∀ e ∈ radioClearingEvents w LCH cause ++ sessionClearingEvents w,
      ∀ ch sap t, e ≠ Event.recv ch sap t := by
  intro e he ch sap t
  rw [List.mem_append] at he
  rcases he with he | he
  · unfold radioClearingEvents at he
    split at he
    · simp at he
    · split at he <;> simp at he <;> rcases he with rfl | rfl | rfl | rfl <;> simp
  · unfold sessionClearingEvents at he
    split at he
    · simp at he
    · simp at he
      rcases he with rfl | rfl <;> simp

theorem updateGSMSignalling_timer_run (LCH timeout : Nat) (w : World) (rest : List Bool)
    (hs : w.tr.GSMState ≠ GSM.CallState.NullState) (he : w.timerExpired = true :: rest) :
    updateGSMSignalling LCH timeout w
      = (abortCall (some LCH) 0x66 >>= fun _ => (pure true : Ctl Bool))
          { w with timerExpired := rest } := by
  simp [updateGSMSignalling, bind_apply, pure_apply, transaction.GSMState, hs,
    transaction.anyTimerExpired, he]

theorem updateGSMSignalling_timer_expired (LCH timeout : Nat) (w : World) (rest : List Bool)
    (hs : w.tr.GSMState ≠ GSM.CallState.NullState) (he : w.timerExpired = true :: rest) :
    ∃ w1, updateGSMSignalling LCH timeout w = .ret true w1
      ∧ w1.trace = w.trace ++ radioClearingEvents w LCH 0x66 ++ sessionClearingEvents w
      ∧ w1.tr.GSMState = GSM.CallState.NullState
      ∧ (w1.tr.SIPState = SIP.SIPState.Cleared
          ∨ Event.sip w.tr.ID SIPOp.MODWaitForOK ∈ sessionClearingEvents w)
      ∧ w1.rx = w.rx := by
  obtain ⟨w1, h1, ht, hg, -, hc⟩ := abortCall_trace LCH 0x66 { w with timerExpired := rest }
  have hk := (keeps_abortCall (some LCH) 0x66).run { w with timerExpired := rest }
  rw [h1] at hk
  refine ⟨w1, ?_, ?_, hg, ?_, hk.1⟩
  · rw [updateGSMSignalling_timer_run LCH timeout w rest hs he, bind_apply, h1]
    rfl
  · rw [ht]
    simp [radioClearingEvents, sessionClearingEvents]
  · simpa [sessionClearingEvents] using hc

/-- A Release or Release Complete that is read and dispatched makes `updateGSMSignalling`
return true. -/
theorem updateGSMSignalling_release (LCH timeout : Nat) (w : World) (f : L3Frame)
    (rest : List (Option L3Frame)) (msg : L3Message)
    (hs : w.tr.GSMState ≠ GSM.CallState.NullState) (he : w.timerExpired.headD false = false)
    (hrx : w.rx = some f :: rest) (hp : f.primitive ≠ GSM.Primitive.ERROR)
    (hm : f.parseL3 = some msg) (hrel : isRelease (some msg)) :
    (updateGSMSignalling LCH timeout w).value = some true := by
  have hte : w.timerExpired.head?.getD false = false := by
    simpa using he
  rcases hrel with ⟨ti, h⟩ | ⟨ti, c, h⟩
  · obtain rfl : msg = L3Message.L3Release ti := Option.some.inj h
    simp [updateGSMSignalling, bind_apply, pure_apply, transaction.GSMState, hs,
      transaction.anyTimerExpired, hte, LogicalChannel.recv, hrx, hp, hm, dispatch_Release,
      Outcome.value]
  · obtain rfl : msg = L3Message.L3ReleaseComplete ti c := Option.some.inj h
    simp [updateGSMSignalling, bind_apply, pure_apply, transaction.GSMState, hs,
      transaction.anyTimerExpired, hte, LogicalChannel.recv, hrx, hp, hm,
      dispatch_ReleaseComplete, Outcome.value]

theorem updateSIPSignalling_cleared (LCH : Nat) (GSMCleared : Bool) (w : World)
    (h : w.tr.SIPState = SIP.SIPState.Cleared) :
    updateSIPSignalling LCH GSMCleared w = .ret true w := by
  simp [updateSIPSignalling, bind_apply, pure_apply, transaction.SIPState, h]

theorem updateSIPSignalling_no_bye (LCH : Nat) (GSMCleared : Bool) (w : World)
    (h : w.tr.SIPState ≠ SIP.SIPState.Cleared)
    (hbye : w.sip.headD w.tr.SIPState ≠ SIP.SIPState.MTDClearing) :
    updateSIPSignalling LCH GSMCleared w
      = .ret (decide (w.sip.headD w.tr.SIPState = SIP.SIPState.Cleared))
          { w with
            trace := w.trace ++ [.sip w.tr.ID .MTDCheckBYE], sip := w.sip.tail,
            tr := { w.tr with SIPState := w.sip.headD w.tr.SIPState } } := by
  have hb : ¬ w.sip.head?.getD w.tr.SIPState = SIP.SIPState.MTDClearing := by
    simpa using hbye
  simp [updateSIPSignalling, bind_apply, pure_apply, transaction.SIPState, h,
    transaction.clearingGSM, transaction.engine, hb]

theorem updateSIPSignalling_bye_acknowledged (LCH : Nat) (GSMCleared : Bool) (w : World)
    (h : w.tr.SIPState ≠ SIP.SIPState.Cleared)
    (hbye : w.sip.headD w.tr.SIPState = SIP.SIPState.MTDClearing)
    (hg : (GSMCleared || w.clearingGSM w.tr.GSMState) = true) :
    updateSIPSignalling LCH GSMCleared w
      = .ret (decide (w.sip.tail.headD SIP.SIPState.MTDClearing = SIP.SIPState.Cleared))
          { w with
            trace := w.trace ++ [.sip w.tr.ID .MTDCheckBYE, .sip w.tr.ID .MTDSendOK],
            sip := w.sip.tail.tail,
            tr := { w.tr with SIPState := w.sip.tail.headD SIP.SIPState.MTDClearing } } := by
  rcases hsip : w.sip with _ | ⟨s, sips⟩
  · rw [hsip] at hbye
    have hb : w.tr.SIPState = SIP.SIPState.MTDClearing := by simpa using hbye
    cases hG : GSMCleared <;> cases hc : w.clearingGSM w.tr.GSMState <;>
      simp [hG, hc] at hg <;>
      simp [updateSIPSignalling, bind_apply, pure_apply, transaction.SIPState, h,
        transaction.clearingGSM, transaction.engine, hsip, hc, hb]
  · rw [hsip] at hbye
    obtain rfl : s = SIP.SIPState.MTDClearing := by simpa using hbye
    cases hG : GSMCleared <;> cases hc : w.clearingGSM w.tr.GSMState <;>
      simp [hG, hc] at hg <;>
      simp [updateSIPSignalling, bind_apply, pure_apply, transaction.SIPState, h,
        transaction.clearingGSM, transaction.engine, hsip, hc]

theorem updateSIPSignalling_bye_disconnects (LCH : Nat) (GSMCleared : Bool) (w : World)
    (h : w.tr.SIPState ≠ SIP.SIPState.Cleared)
    (hbye : w.sip.headD w.tr.SIPState = SIP.SIPState.MTDClearing)
    (hg : (GSMCleared || w.clearingGSM w.tr.GSMState) = false) :
    updateSIPSignalling LCH GSMCleared w
      = .ret false
          { w with
            trace := w.trace ++
              [.sip w.tr.ID .MTDCheckBYE, .send LCH 0 (.L3Disconnect w.tr.L3TI none)],
            sip := w.sip.tail,
            tr := { w.tr with
              timers := "305" :: w.tr.timers.filter (fun t => t ≠ "305"),
              GSMState := GSM.CallState.DisconnectIndication,
              SIPState := SIP.SIPState.MTDClearing } } := by
  rcases hsip : w.sip with _ | ⟨s, sips⟩
  · rw [hsip] at hbye
    have hb : w.tr.SIPState = SIP.SIPState.MTDClearing := by simpa using hbye
    cases hG : GSMCleared <;> cases hc : w.clearingGSM w.tr.GSMState <;>
      simp [hG, hc] at hg <;>
      simp [updateSIPSignalling, bind_apply, pure_apply, transaction.SIPState, h,
        transaction.clearingGSM, transaction.engine, hsip, hc, hb, transaction.L3TI,
        LogicalChannel.send, emit, transaction.setTimer, transaction.setGSMState]
  · rw [hsip] at hbye
    obtain rfl : s = SIP.SIPState.MTDClearing := by simpa using hbye
    cases hG : GSMCleared <;> cases hc : w.clearingGSM w.tr.GSMState <;>
      simp [hG, hc] at hg <;>
      simp [updateSIPSignalling, bind_apply, pure_apply, transaction.SIPState, h,
        transaction.clearingGSM, transaction.engine, hsip, hc, transaction.L3TI,
        LogicalChannel.send, emit, transaction.setTimer, transaction.setGSMState]

/-- The session-leg poll sends L3Disconnect only on a BYE with the radio leg neither cleared
nor clearing. -/
theorem updateSIPSignalling_disconnect_only (LCH : Nat) (GSMCleared : Bool) (w w1 : World)
    (d : List Event) (ti : Nat) (cause : Option Nat)
    (h : (updateSIPSignalling LCH GSMCleared w).world = some w1)
    (ht : w1.trace = w.trace ++ d)
    (hd : Event.send LCH 0 (.L3Disconnect ti cause) ∈ d) :
    GSMCleared = false ∧ w.clearingGSM w.tr.GSMState = false
      ∧ w.tr.SIPState ≠ SIP.SIPState.Cleared
      ∧ w.sip.headD w.tr.SIPState = SIP.SIPState.MTDClearing := by
  by_cases hs : w.tr.SIPState = SIP.SIPState.Cleared
  · rw [updateSIPSignalling_cleared LCH GSMCleared w hs] at h
    simp only [Outcome.world, Option.some.injEq] at h
    subst h
    have : d = [] := by simpa using ht
    subst this
    simp at hd
  · by_cases hbye : w.sip.headD w.tr.SIPState = SIP.SIPState.MTDClearing
    · cases hg : (GSMCleared || w.clearingGSM w.tr.GSMState)
      · simp only [Bool.or_eq_false_iff] at hg
        exact ⟨hg.1, hg.2, hs, hbye⟩
      · exfalso
        rw [updateSIPSignalling_bye_acknowledged LCH GSMCleared w hs hbye hg] at h
        simp only [Outcome.world, Option.some.injEq] at h
        subst h
        simp at ht
        subst ht
        simp at hd
    · exfalso
      rw [updateSIPSignalling_no_bye LCH GSMCleared w hs hbye] at h
      simp only [Outcome.world, Option.some.injEq] at h
      subst h
      simp at ht
      subst ht
      simp at hd

theorem pollInCall_termination_run (fuel TCH : Nat) (w w1 : World) (rest : List Bool)
    (hrf : w.radioFailure.headD false = false)
    (hsig : updateSignalling TCH 0 { w with radioFailure := w.radioFailure.tail }
      = .ret false w1)
    (hterm : w1.terminationRequested = true :: rest) :
    ∃ w2, pollInCall fuel TCH w = .ret true w2
      ∧ w2.trace = w1.trace ++ radioClearingEvents w1 TCH 25 ++ sessionClearingEvents w1
      ∧ w2.tr.GSMState = GSM.CallState.NullState
      ∧ w2.terminationRequested = rest
      ∧ ∃ d, w2.trace = w.trace ++ d ∧ ∀ e ∈ d, notMedia e := by
  obtain ⟨w2, h2, ht, hg, -, -⟩ := abortCall_trace TCH 25 { w1 with terminationRequested := rest }
  have hu := (untouched_abortCall (some TCH) 25).run { w1 with terminationRequested := rest }
  rw [h2] at hu
  have hm := (noMedia_abortCall (some TCH) 25).run { w1 with terminationRequested := rest }
  rw [h2] at hm
  have hs := (noMedia_updateSignalling TCH 0).run { w with radioFailure := w.radioFailure.tail }
  rw [hsig] at hs
  have hrf2 : w.radioFailure.head?.getD false = false := by simpa using hrf
  refine ⟨w2, ?_, ?_, hg, hu.1, ?_⟩
  · simp [pollInCall, bind_apply, pure_apply, LogicalChannel.radioFailure, hrf2, hsig,
      transaction.terminationRequested, hterm, h2]
  · rw [ht]
    simp [radioClearingEvents, sessionClearingEvents]
  · exact Ext_trans (show Ext notMedia w w1 from hs.2)
      (show Ext notMedia w1 w2 from hm.2)

/-! ## The uplink queue -/

theorem flushUplink_run (TCH maxQ : Nat) :
    ∀ (fuel : Nat) (w : World), w.uplink.length - maxQ < fuel →
      flushUplink TCH maxQ fuel w
        = .ret ()
            { w with
              trace := w.trace ++ List.replicate (w.uplink.length - maxQ) (Event.recvTCH TCH),
              uplink := w.uplink.drop (w.uplink.length - maxQ) } := by
  intro fuel
  induction fuel with
  | zero => intro w h; omega
  | succ n ih =>
    intro w h
    unfold flushUplink
    simp only [bind_apply, LogicalChannel.queueSize]
    by_cases hq : w.uplink.length > maxQ
    · rcases hup : w.uplink with _ | ⟨f, fs⟩
      · rw [hup] at hq
        simp at hq
      · rw [hup] at h hq
        simp only [List.length_cons] at h hq
        have hk : fs.length + 1 - maxQ = (fs.length - maxQ) + 1 := by omega
        simp only [hup, List.length_cons, hq, if_true, bind_apply, LogicalChannel.recvTCH,
          List.tail_cons]
        rw [ih _ (show fs.length - maxQ < n by omega)]
        simp [hk, List.replicate_succ]
    · simp only [hq, if_false, pure_apply]
      have hk : w.uplink.length - maxQ = 0 := by omega
      simp [hk]

theorem updateCallTraffic_run (fuel TCH : Nat) (w : World)
    (hfuel : w.uplink.length - w.config.maxSpeechLatency < fuel) :
    updateCallTraffic fuel TCH w
      = .ret (w.rtpFrames.headD false
            || (w.uplink.drop (w.uplink.length - w.config.maxSpeechLatency)).head?.isSome)
          { w with
            trace := w.trace ++ [Event.rxFrame w.tr.ID]
              ++ (if w.rtpFrames.headD false then [Event.sendTCH TCH] else [])
              ++ List.replicate (w.uplink.length - w.config.maxSpeechLatency)
                  (Event.recvTCH TCH)
              ++ [Event.recvTCH TCH]
              ++ (match (w.uplink.drop
                    (w.uplink.length - w.config.maxSpeechLatency)).head? with
                  | some frame => [Event.txFrame w.tr.ID frame]
                  | none => []),
            rtpFrames := w.rtpFrames.tail,
            uplink := w.uplink.drop (w.uplink.length - w.config.maxSpeechLatency + 1) } := by
  unfold updateCallTraffic
  simp only [bind_apply, transaction.rxFrame, getConfig]
  cases hd : w.rtpFrames.headD false
  · simp only [Bool.false_eq_true, if_false, pure_apply]
    rw [flushUplink_run TCH _ fuel _ (by simpa using hfuel)]
    simp only [LogicalChannel.recvTCH]
    rcases hr : w.uplink.drop (w.uplink.length - w.config.maxSpeechLatency) with _ | ⟨f, fs⟩
    · simp [hr, pure_apply, ← List.drop_drop, List.append_assoc]
    · simp [hr, pure_apply, bind_apply, transaction.txFrame, ← List.drop_drop,
        List.append_assoc]
  · simp only [if_true, LogicalChannel.sendTCH, emit]
    rw [flushUplink_run TCH _ fuel _ (by simpa using hfuel)]
    simp only [LogicalChannel.recvTCH]
    rcases hr : w.uplink.drop (w.uplink.length - w.config.maxSpeechLatency) with _ | ⟨f, fs⟩
    · simp [hr, pure_apply, ← List.drop_drop, List.append_assoc]
    · simp [hr, pure_apply, bind_apply, transaction.txFrame, ← List.drop_drop,
        List.append_assoc]

/-! ## Routines without loops end -/

theorem Ends_bind {α β : Type} {m : Ctl α} {f : α → Ctl β}
    (hm : Ends m) (hf : ∀ a, Ends (f a)) : Ends (m >>= f) := by
  constructor
  intro w
  have h1 := hm.run w
  rw [bind_apply]
  cases hmw : m w with
  | ret a w1 => exact (hf a).run w1
  | raised e w1 => simp
  | outOfFuel => exact absurd hmw h1

/-- A step that returns. -/
theorem Ends_returns {α : Type} {m : Ctl α} (h : ∀ w, ∃ a w1, m w = .ret a w1) : Ends m := by
  constructor
  intro w
  obtain ⟨a, w1, hm⟩ := h w
  rw [hm]
  simp

@[simp]
theorem Ends_pure {α : Type} (a : α) : Ends (pure a : Ctl α) :=
  Ends_returns fun _ => ⟨_, _, rfl⟩

@[simp]
theorem Ends_raise {α : Type} (e : ControlException) : Ends (raise e : Ctl α) :=
  ⟨fun _ => by simp [raise]⟩

@[simp]
theorem Ends_getConfig : Ends getConfig :=
  Ends_returns fun _ => ⟨_, _, rfl⟩

@[simp]
theorem Ends_readChars (address : CharPtr) : Ends (readChars address) :=
  Ends_returns fun _ => by
    unfold readChars
    split <;> exact ⟨_, _, rfl⟩

@[simp]
theorem Ends_setCalledAndMessage (a b : String) : Ends (transaction.setCalledAndMessage a b) :=
  Ends_returns fun _ => ⟨_, _, rfl⟩

@[simp]
theorem Ends_engine (op : SIPOp) : Ends (transaction.engine op) :=
  Ends_returns fun _ => ⟨_, _, rfl⟩

@[simp]
theorem Ends_recv (LCH timeout sap : Nat) : Ends (LogicalChannel.recv LCH timeout sap) :=
  Ends_returns fun _ => ⟨_, _, rfl⟩

@[simp]
theorem ends_getFrameSMS (LCH : Nat) (prim : GSM.Primitive) : Ends (getFrameSMS LCH prim) := by
  unfold getFrameSMS
  repeat' first
    | (simp; done)
    | apply Ends_bind
    | intro _
    | split

@[simp]
theorem ends_sendSIP (address : CharPtr) (body contentType : String) :
    Ends (sendSIP address body contentType) := by
  unfold sendSIP
  repeat' first
    | (simp; done)
    | apply Ends_bind
    | intro _
    | split

@[simp]
theorem ends_parseSubmit (RPDU : SMS.RLFrame) : Ends (parseSubmit RPDU) := by
  unfold parseSubmit
  repeat' first
    | (simp; done)
    | apply Ends_bind
    | intro _
    | split

@[simp]
theorem ends_handleRPDU (RPDU : SMS.RLFrame) : Ends (handleRPDU RPDU) := by
  unfold handleRPDU
  repeat' first
    | (simp; done)
    | apply Ends_bind
    | intro _
    | split

@[simp]
theorem ends_parseAndHandle (CM : L3Frame) : Ends (parseAndHandle CM) := by
  unfold parseAndHandle
  repeat' first
    | (simp; done)
    | apply Ends_bind
    | intro _
    | split

/-! ## The transaction identifier of a mobile -/

theorem TI_or_8 (ti : Nat) (h : ti < 8) :
    8 ≤ ti ||| 8 ∧ ti ||| 8 ≤ 15 ∧ (ti ||| 8) % 8 = ti % 8 ∧ ti ||| 8 = ti + 8 := by
  interval_cases ti <;> decide

/-- What follows `transaction->L3TI(ti)` and leaves the stored L3TI alone ends with `ti`
stored. -/
theorem setL3TI_then {α : Type} (ti : Nat) (f : Unit → Ctl α) (hf : Untouched (f ()))
    (w w1 : World) (h : ((transaction.setL3TI ti >>= f) w).world = some w1) :
    w1.tr.L3TI = ti := by
  rw [bind_apply] at h
  simp only [transaction.setL3TI] at h
  have hu := hf.run { w with tr := { w.tr with L3TI := ti } }
  revert hu h
  cases f () { w with tr := { w.tr with L3TI := ti } } with
  | ret a w2 =>
    intro h hu
    simp only [Outcome.world, Option.some.injEq] at h
    subst h
    exact hu.2
  | raised e w2 =>
    intro h hu
    simp only [Outcome.world, Option.some.injEq] at h
    subst h
    exact hu.2
  | outOfFuel =>
    intro h _
    simp [Outcome.world] at h

theorem InCallMOSMSController_stores (cpData : L3Frame) (LCH : Nat) (w w1 : World)
    (h : (InCallMOSMSController cpData LCH w).world = some w1) :
    w1.tr.L3TI = cpData.TI ||| 8 := by
  unfold InCallMOSMSController at h
  refine setL3TI_then (cpData.TI ||| 8) _ ?_ w w1 h
  repeat' first
    | (simp; done)
    | apply Untouched_bind
    | apply Untouched_tryBlock
    | intro _
    | split

theorem steps2to4_stores (CM : L3Frame) (LCH : Nat) (w w1 : World)
    (h : (MOSMSController.steps2to4 CM LCH w).world = some w1) :
    w1.tr.L3TI = CM.TI ||| 8 := by
  unfold MOSMSController.steps2to4 at h
  refine setL3TI_then (CM.TI ||| 8) _ ?_ w w1 h
  repeat' first
    | (simp; done)
    | apply Untouched_bind
    | apply Untouched_tryBlock
    | intro _
    | split

theorem MOSMSController_steps (serviceType : GSM.L3CMServiceType) (mobileID : String)
    (LCH : Nat) :
    MOSMSController serviceType mobileID LCH = (do
      assert (decide (serviceType = GSM.L3CMServiceType.ShortMessage))
      emit (.resolveIMSI LCH)
      newTransactionEntrySMS mobileID LCH
      let id ← transaction.ID
      gTransactionTable.add id
      LogicalChannel.send LCH .L3CMServiceAccept 0
      let _ ← getFrameSMS LCH GSM.Primitive.ESTABLISH
      let CM ← getFrameSMS LCH GSM.Primitive.DATA
      if CM.MTI ≠ SMS.CPMessageType.DATA then raise (.UnexpectedMessage none)
      else MOSMSController.steps2to4 CM LCH) :=
  rfl

theorem MOCStarter_setup_run (fuel : Nat) (serviceType : GSM.L3CMServiceType)
    (mobileID : String) (LCH : Nat) (w : World) (f : L3Frame) (rest : List (Option L3Frame))
    (TI : Nat) (calling : Option String) (digits : String) (hrx : w.rx = some f :: rest)
    (hf : f.parseL3 = some (.L3Setup TI calling (some digits))) :
    ∃ w1, w1.tr.L3TI = TI ||| 8 ∧ w1.tr.ID = w.nextID
      ∧ (MOCStarter fuel serviceType mobileID LCH w = MOCController fuel LCH w1
          ∨ MOCStarter fuel serviceType mobileID LCH w = .raised .DivisionByZero w1) := by
  cases ha : allocateRTPPorts w.config.RTP (w.random.head?.getD 0) w.rtpPort with
  | none =>
    refine ⟨{ w with
        trace := w.trace ++ [.resolveIMSI LCH, .send LCH 0 .L3CMServiceAccept, .recv LCH 0 0,
          .tableAdd w.nextID],
        rx := rest, table := w.table ++ [w.nextID], nextID := w.nextID + 1,
        tr := { w.newEntry with ID := w.nextID, L3TI := TI ||| 8, channel := some LCH,
                                subscriber := mobileID, called := some digits } },
      rfl, rfl, Or.inr ?_⟩
    simp [MOCStarter, bind_apply, pure_apply, emit, LogicalChannel.send, getMessage,
      LogicalChannel.recv, hrx, hf, newTransactionEntryMOC, transaction.ID,
      gTransactionTable.add, allocateRTPPortsM, ha]
  | some p =>
    obtain ⟨retVal, port⟩ := p
    refine ⟨{ w with
        trace := w.trace ++ [.resolveIMSI LCH, .send LCH 0 .L3CMServiceAccept, .recv LCH 0 0,
          .tableAdd w.nextID, .sip w.nextID (.MOCSendINVITE digits retVal),
          .send LCH 0 (.L3CallProceeding (TI ||| 8))],
        rx := rest, table := w.table ++ [w.nextID], nextID := w.nextID + 1,
        rtpPort := some port,
        random := if w.rtpPort.isSome then w.random else w.random.tail,
        sip := w.sip.tail,
        tr := { w.newEntry with ID := w.nextID, L3TI := TI ||| 8, channel := some LCH,
                                subscriber := mobileID, called := some digits,
                                SIPState := w.sip.headD w.newEntry.SIPState,
                                GSMState := GSM.CallState.MOCProceeding } },
      rfl, rfl, Or.inl ?_⟩
    simp [MOCStarter, bind_apply, pure_apply, emit, LogicalChannel.send, getMessage,
      LogicalChannel.recv, hrx, hf, newTransactionEntryMOC, transaction.ID,
      gTransactionTable.add, allocateRTPPortsM, ha, transaction.engine,
      transaction.setGSMState]

/-! ## The in-call submission against the stand-alone one -/

/-- Step 4 of the two submissions, run from the same world `w4`, which extends `w`. -/
theorem step4_agrees (LCH : Nat) (tid : Option Nat) (w w4 : World) (d4 : List Event)
    (h4 : w4.trace = w.trace ++ d4) :
    AgreeButRelease LCH w
      ((getFrameSMS LCH GSM.Primitive.DATA >>= fun CM =>
          if CM.MTI ≠ SMS.CPMessageType.ACK then raise (.UnexpectedMessage tid)
          else gTransactionTable.remove) w4)
      ((getFrameSMS LCH GSM.Primitive.DATA >>= fun CM =>
          if CM.MTI ≠ SMS.CPMessageType.ACK then raise (.UnexpectedMessage none)
          else (LogicalChannel.send LCH .L3ChannelRelease 0 >>= fun _ =>
            gTransactionTable.remove)) w4) := by
  have hE := (ends_getFrameSMS LCH GSM.Primitive.DATA).run w4
  have hO := (only_getFrameSMS LCH GSM.Primitive.DATA).run w4
  simp only [bind_apply]
  cases hg : getFrameSMS LCH GSM.Primitive.DATA w4 with
  | outOfFuel => exact absurd hg hE
  | raised e w5 => simp [AgreeButRelease]
  | ret CM w5 =>
    rw [hg] at hO
    obtain ⟨-, d5, h5, -⟩ := hO
    by_cases hm : CM.MTI = SMS.CPMessageType.ACK
    · simp only [hm, ne_eq, not_true_eq_false, if_false, gTransactionTable.remove,
        LogicalChannel.send, emit, AgreeButRelease]
      exact ⟨d4 ++ d5, by simp [h5, h4], by simp [h5, h4], rfl⟩
    · simp [hm, raise, AgreeButRelease, conditionKind]

theorem InCallMOSMSController_agrees (cm : L3Frame) (LCH : Nat) (w : World) :
    AgreeButRelease LCH w (InCallMOSMSController cm LCH w)
      (MOSMSController.steps2to4 cm LCH w) := by
  have hE := (ends_parseAndHandle cm).run
    { w with trace := w.trace ++ [.send LCH 3 (.CPAck (cm.TI ||| 8))],
             tr := { w.tr with L3TI := cm.TI ||| 8 } }
  have hO := (only_parseAndHandle cm).run
    { w with trace := w.trace ++ [.send LCH 3 (.CPAck (cm.TI ||| 8))],
             tr := { w.tr with L3TI := cm.TI ||| 8 } }
  unfold InCallMOSMSController MOSMSController.steps2to4
  simp only [bind_apply, transaction.setL3TI, LogicalChannel.send, emit, transaction.ID,
    tryBlock]
  cases hp : parseAndHandle cm
      { w with trace := w.trace ++ [.send LCH 3 (.CPAck (cm.TI ||| 8))],
               tr := { w.tr with L3TI := cm.TI ||| 8 } } with
  | outOfFuel => exact absurd hp hE
  | raised e w3 =>
    cases e <;> simp [AgreeButRelease, conditionKind, bind_apply, emit, raise]
  | ret a w3 =>
    obtain ⟨ref, success⟩ := a
    rw [hp] at hO
    obtain ⟨-, d3, h3, -⟩ := hO
    cases success
    · have key := step4_agrees LCH (some w.tr.ID) w
        { w3 with trace := w3.trace ++
            [.send LCH 3 (.CPData (cm.TI ||| 8) (.RPError 127 ref))] }
        ([.send LCH 3 (.CPAck (cm.TI ||| 8))] ++ d3 ++
          [.send LCH 3 (.CPData (cm.TI ||| 8) (.RPError 127 ref))])
        (by simp [h3])
      simpa only [bind_apply, LogicalChannel.send, emit, Bool.false_eq_true, if_false]
        using key
    · have key := step4_agrees LCH (some w.tr.ID) w
        { w3 with trace := w3.trace ++
            [.send LCH 3 (.CPData (cm.TI ||| 8) (.RPAck ref))] }
        ([.send LCH 3 (.CPAck (cm.TI ||| 8))] ++ d3 ++
          [.send LCH 3 (.CPData (cm.TI ||| 8) (.RPAck ref))])
        (by simp [h3])
      simpa only [bind_apply, LogicalChannel.send, emit, if_true] using key

theorem sap3_append (d1 d2 : List Event) : sap3 (d1 ++ d2) = sap3 d1 ++ sap3 d2 := by
  simp [sap3]

/-- Outcomes that agree but for the channel release show the same events on service access
point 3, the same record, the same table, and the same removals. -/
theorem AgreeButRelease_same (LCH : Nat) (w : World) (o1 o2 : Outcome Unit)
    (h : AgreeButRelease LCH w o1 o2) :
    sap3 o1.trace = sap3 o2.trace
      ∧ (∃ w1 w2, o1.world = some w1 ∧ o2.world = some w2 ∧ w1.tr = w2.tr
          ∧ w1.table = w2.table ∧ w1.rx = w2.rx ∧ w1.sip = w2.sip)
      ∧ removals o1.trace = removals o2.trace
      ∧ (o1.exception.map conditionKind = o2.exception.map conditionKind)
      ∧ o1.value = o2.value := by
  cases o1 with
  | ret a w1 =>
    cases o2 with
    | ret b w2 =>
      obtain ⟨d, h1, h2, h3⟩ := h
      refine ⟨?_, ⟨w1, w2, rfl, rfl, ?_, ?_, ?_, ?_⟩, ?_, rfl, rfl⟩
      · simp only [Outcome.trace, Outcome.world]
        rw [h1, h2]
        simp [sap3_append, sap3]
      · rw [h3]
      · rw [h3]
      · rw [h3]
      · rw [h3]
      · simp only [Outcome.trace, Outcome.world]
        rw [h1, h2]
        simp [removals_append, removals]
    | raised e w2 => exact h.elim
    | outOfFuel => exact h.elim
  | raised e1 w1 =>
    cases o2 with
    | ret b w2 => exact h.elim
    | raised e2 w2 =>
      obtain ⟨hk, rfl⟩ := h
      exact ⟨rfl, ⟨w1, w1, rfl, rfl, rfl, rfl, rfl, rfl⟩, rfl, by simp [Outcome.exception, hk],
        rfl⟩
    | outOfFuel => exact h.elim
  | outOfFuel => exact h.elim

/-! ## The claims -/

/-- C2, as stated, fails: with the radio leg already in `NullState` and a channel given,
`abortCall` sends the BYE and waits for the OK without any channel release having been
sent. -/
theorem abortCall_null_radio_leg_sends_no_release :
    radioClearedWorld.tr.GSMState = GSM.CallState.NullState
      ∧ (abortCall (some 5) 0x7F radioClearedWorld).trace
          = [.sip 1 .MODSendBYE, .sip 1 .MODWaitForOK]
      ∧ Event.send 5 0 .L3ChannelRelease ∉ (abortCall (some 5) 0x7F radioClearedWorld).trace := by
  refine ⟨rfl, rfl, by decide⟩

/-- C2 (amended): for every transaction state and every cause, `abortCall` with a non-null
channel returns with the radio leg in `NullState`; what it records is first the radio-leg
clearing and then the session-leg clearing; when the radio leg was not yet `NullState` the
radio-leg clearing contains the L3ChannelRelease on that channel, so that it precedes the BYE
and the wait for the OK; when the radio leg was already `NullState` nothing is sent on the
channel. -/
theorem abortCall_clears_radio_leg_first (LCH cause : Nat) (w : World) :
    ∃ w1, abortCall (some LCH) cause w = .ret () w1
      ∧ w1.tr.GSMState = GSM.CallState.NullState
      ∧ w1.trace = w.trace ++ radioClearingEvents w LCH cause ++ sessionClearingEvents w
      ∧ (w.tr.GSMState ≠ GSM.CallState.NullState →
          Event.send LCH 0 .L3ChannelRelease ∈ radioClearingEvents w LCH cause)
      ∧ (w.tr.GSMState = GSM.CallState.NullState → radioClearingEvents w LCH cause = [])
      ∧ (∀ e ∈ sessionClearingEvents w,
          e = .sip w.tr.ID .MODSendBYE ∨ e = .sip w.tr.ID .MODResendBYE
            ∨ e = .sip w.tr.ID .MODWaitForOK) := by
  obtain ⟨w1, h1, ht, hg, -, -⟩ := abortCall_trace LCH cause w
  refine ⟨w1, h1, hg, ht, ?_, ?_, ?_⟩
  · intro h
    simp [radioClearingEvents, h]
  · intro h
    simp [radioClearingEvents, h]
  · intro e he
    unfold sessionClearingEvents at he
    split at he
    · simp at he
    · split at he <;> simp at he <;> rcases he with rfl | rfl <;> simp

/-- Witness of C2 (amended): aborting the established call of `exampleWorld` with cause
0x7F. -/
theorem abortCall_clears_radio_leg_first_witness :
    ∃ w1, abortCall (some 5) 0x7F exampleWorld = .ret () w1
      ∧ w1.tr.GSMState = GSM.CallState.NullState
      ∧ w1.trace = [.send 5 0 (.L3Disconnect 9 (some 0x7F)), .send 5 0 (.L3ReleaseComplete 9 none),
          .send 5 0 .L3ChannelRelease, .sendPrimitive 5 0 GSM.Primitive.RELEASE,
          .sip 1 .MODSendBYE, .sip 1 .MODWaitForOK] := by
  obtain ⟨w1, h1, hg, ht, -⟩ := abortCall_clears_radio_leg_first 5 0x7F exampleWorld
  exact ⟨w1, h1, hg, ht⟩

/-- C4, as stated, fails: when the first frame after link establishment is not a CP-DATA,
`MOSMSController` raises `UnexpectedMessage` after it registered its record (id 2); up to the
raise it has sent no channel release, started no clearing on either leg and not removed the
record, which is still registered. -/
theorem MOSMSController_unwinds_without_cleanup :
    (MOSMSController GSM.L3CMServiceType.ShortMessage "001010000000001" 5
        wrongFirstFrameWorld).exception = some (.UnexpectedMessage none)
      ∧ (MOSMSController GSM.L3CMServiceType.ShortMessage "001010000000001" 5
          wrongFirstFrameWorld).trace
          = [.resolveIMSI 5, .tableAdd 2, .send 5 0 .L3CMServiceAccept, .recv 5 3 20000,
             .recv 5 3 20000]
      ∧ (finalWorld wrongFirstFrameWorld
          (MOSMSController GSM.L3CMServiceType.ShortMessage "001010000000001" 5
            wrongFirstFrameWorld)).table = [1, 2] := by
  refine ⟨rfl, rfl, rfl⟩

/-- C4 (amended): on every path on which `MOSMSController`, `MTSMSController` (through
`deliverSMSToMS`) or `InCallMOSMSController` unwinds by raising a condition, the routine has
recorded, from its entry to the raise, no removal from the table, no channel release, no
message or primitive of the radio-leg force-clear and no operation of the session-leg
force-clear: the cleanup is left to whoever catches the condition. -/
theorem sms_routines_unwind_without_cleanup (LCH : Nat) (cpData : L3Frame)
    (serviceType : GSM.L3CMServiceType) (mobileID : String) (w w1 : World)
    (e : ControlException)
    (h : MOSMSController serviceType mobileID LCH w = .raised e w1
      ∨ MTSMSController LCH w = .raised e w1
      ∨ InCallMOSMSController cpData LCH w = .raised e w1) :
    ∃ d, w1.trace = w.trace ++ d ∧ ∀ x ∈ d, notCleanup x := by
  rcases h with h | h | h
  · exact Unwinds_raised (unwinds_MOSMSController serviceType mobileID LCH) h
  · exact Unwinds_raised (unwinds_MTSMSController LCH) h
  · exact Unwinds_raised (unwinds_InCallMOSMSController cpData LCH) h

/-- Witness of C4 (amended): the in-call submission of `inCallSubmitWorld`, whose final CP-ACK
never arrives, raises `ChannelReadTimeout`. -/
theorem sms_routines_unwind_without_cleanup_witness :
    InCallMOSMSController (smsFrame SMS.CPMessageType.DATA (SMS.Parsed.ok helloRPDU)) 5
        inCallSubmitWorld
        = .raised .ChannelReadTimeout (finalWorld inCallSubmitWorld
            (InCallMOSMSController (smsFrame SMS.CPMessageType.DATA (SMS.Parsed.ok helloRPDU)) 5
              inCallSubmitWorld))
      ∧ ∃ d, (finalWorld inCallSubmitWorld
            (InCallMOSMSController (smsFrame SMS.CPMessageType.DATA (SMS.Parsed.ok helloRPDU)) 5
              inCallSubmitWorld)).trace
          = inCallSubmitWorld.trace ++ d ∧ ∀ x ∈ d, notCleanup x :=
  ⟨rfl, sms_routines_unwind_without_cleanup 5
      (smsFrame SMS.CPMessageType.DATA (SMS.Parsed.ok helloRPDU))
      GSM.L3CMServiceType.ShortMessage "" inCallSubmitWorld _ .ChannelReadTimeout
      (Or.inr (Or.inr rfl))⟩

/-- C5: when the session-leg state is `Cleared`, `forceSIPClearing` returns the world it was
given: nothing is recorded (no `MODSendBYE`, no `MODResendBYE`, no `MODWaitForOK`) and the
record is unchanged; so invoking it twice is the same as not invoking it. -/
theorem forceSIPClearing_noop_when_cleared (w : World)
    (h : w.tr.SIPState = SIP.SIPState.Cleared) :
    forceSIPClearing w = .ret () w
      ∧ (forceSIPClearing >>= fun _ => forceSIPClearing) w = .ret () w := by
  have h1 := forceSIPClearing_cleared w h
  exact ⟨h1, by rw [bind_apply, h1]; exact h1⟩

/-- Witness of C5: the `Cleared` session leg of `sessionClearedWorld`. -/
theorem forceSIPClearing_noop_when_cleared_witness :
    sessionClearedWorld.tr.SIPState = SIP.SIPState.Cleared
      ∧ forceSIPClearing sessionClearedWorld = .ret () sessionClearedWorld
      ∧ (forceSIPClearing >>= fun _ => forceSIPClearing) sessionClearedWorld
          = .ret () sessionClearedWorld :=
  ⟨rfl, forceSIPClearing_noop_when_cleared sessionClearedWorld rfl⟩

/-- C6, as stated, fails: with the radio leg in `NullState`, where clearing has not started,
`forceGSMClearing` sends nothing at all: no L3Disconnect, no L3ReleaseComplete, no
L3ChannelRelease. -/
theorem forceGSMClearing_null_sends_nothing :
    radioClearedWorld.tr.GSMState = GSM.CallState.NullState
      ∧ radioClearedWorld.clearingGSM radioClearedWorld.tr.GSMState = false
      ∧ (forceGSMClearing 5 0x7F radioClearedWorld).value = some ()
      ∧ (forceGSMClearing 5 0x7F radioClearedWorld).trace = [] := by
  refine ⟨rfl, rfl, rfl, rfl⟩

/-- C6 (amended): for every radio-leg state other than `NullState` and every cause,
`forceGSMClearing` sends L3Disconnect with the given cause if and only if radio-side clearing
has not already started, then in every case L3ReleaseComplete followed by L3ChannelRelease
(and the RELEASE primitive), resets all timers and leaves the radio-leg state `NullState`. -/
theorem forceGSMClearing_forces_release (LCH cause : Nat) (w : World)
    (h : w.tr.GSMState ≠ GSM.CallState.NullState) :
    forceGSMClearing LCH cause w = .ret ()
      { w with
        trace := w.trace ++
          ((if w.clearingGSM w.tr.GSMState then []
            else [Event.send LCH 0 (.L3Disconnect w.tr.L3TI (some cause))])
          ++ [Event.send LCH 0 (.L3ReleaseComplete w.tr.L3TI none),
              Event.send LCH 0 .L3ChannelRelease,
              Event.sendPrimitive LCH 0 GSM.Primitive.RELEASE]),
        tr := { w.tr with timers := [], GSMState := GSM.CallState.NullState } } :=
  forceGSMClearing_run LCH cause w h

/-- Witness of C6 (amended): the established call of `exampleWorld`, cause 0x7F. -/
theorem forceGSMClearing_forces_release_witness :
    exampleWorld.tr.GSMState ≠ GSM.CallState.NullState
      ∧ (forceGSMClearing 5 0x7F exampleWorld).trace
          = [.send 5 0 (.L3Disconnect 9 (some 0x7F)), .send 5 0 (.L3ReleaseComplete 9 none),
             .send 5 0 .L3ChannelRelease, .sendPrimitive 5 0 GSM.Primitive.RELEASE] :=
  ⟨by decide, by
    rw [forceGSMClearing_forces_release 5 0x7F exampleWorld (by decide)]
    rfl⟩

/-- C7, as stated, fails: with `RTP.Start` 4294967294 and `RTP.Range` 4 the sum computed in
`unsigned` wraps, and the first call returns port 0, which is below `RTP.Start`. -/
theorem allocateRTPPorts_wraps_out_of_range :
    allocateRTPPorts { Start := 4294967294, Range := 4 } 1 none = some (0, 4294967294)
      ∧ ¬ (4294967294 ≤ 0 ∧ 0 < 4294967294 + 4) := by
  decide

/-- C7 (amended): for every configuration with `RTP.Range >= 2` and
`RTP.Start + RTP.Range + 1 < 2^32` (no `unsigned` computation of the allocator wraps), held
constant across calls, every sequence of calls returns, and every port returned satisfies
`RTP.Start <= port < RTP.Start + RTP.Range`. -/
theorem allocateRTPPorts_in_range (cfg : RTPConfig) (rnd n : Nat) (h2 : 2 ≤ cfg.Range)
    (h : cfg.Start + cfg.Range + 1 < 2 ^ 32) :
    ∃ ports s, allocateSeq cfg rnd n none = some (ports, s)
      ∧ ∀ p ∈ ports, cfg.Start ≤ p ∧ p < cfg.Start + cfg.Range := by
  obtain ⟨ports, s, hseq, -, hall⟩ :=
    allocateSeq_inRange cfg rnd h2 h n none (fun p hp => by cases hp)
  exact ⟨ports, s, hseq, hall⟩

/-- Witness of C7 (amended): three calls under `RTP.Start` 16484, `RTP.Range` 98. -/
theorem allocateRTPPorts_in_range_witness :
    ∃ ports s, allocateSeq { Start := 16484, Range := 98 } 7 3 none = some (ports, s)
      ∧ ∀ p ∈ ports, 16484 ≤ p ∧ p < 16484 + 98 :=
  allocateRTPPorts_in_range { Start := 16484, Range := 98 } 7 3 (by decide) (by decide)

/-- C8: the code at the failing input. With the odd `RTP.Start` 16485 (and `RTP.Range` 98)
the calls of `allocateRTPPorts` return the odd ports 16485, 16487, 16489. -/
theorem allocateRTPPorts_odd_start_returns_odd :
    allocateSeq { Start := 16485, Range := 98 } 0 3 none
        = some ([16485, 16487, 16489], some 16491)
      ∧ 16485 % 2 = 1 := by
  decide

/-- C9, as stated, fails: with `RTP.Start` 4294967292 and `RTP.Range` 4 the limit
`base + range` wraps to 0, every call resets the port to `RTP.Start`, and two consecutive
allocations (a run of `floor(4 / 2)` calls) return the same port. -/
theorem allocateRTPPorts_repeats_when_top_wraps :
    allocateSeq { Start := 4294967292, Range := 4 } 0 2 none
        = some ([4294967292, 4294967292], some 4294967292)
      ∧ 2 ≤ 4 / 2 ∧ ¬ [4294967292, 4294967292].Nodup := by
  decide

/-- C9 (amended): under a constant configuration with `RTP.Range >= 2` and
`RTP.Start + RTP.Range + 1 < 2^32`, after any number `k` of calls, the next two calls return
a port `p` and then `p + 2`, or `RTP.Start` when `p + 2` would reach
`RTP.Start + RTP.Range`; and any run of at most `floor(RTP.Range / 2)` consecutive
allocations returns pairwise distinct ports. -/
theorem allocateRTPPorts_advances_by_two (cfg : RTPConfig) (rnd k : Nat) (h2 : 2 ≤ cfg.Range)
    (h : cfg.Start + cfg.Range + 1 < 2 ^ 32) :
    ∃ pre s, allocateSeq cfg rnd k none = some (pre, s)
      ∧ (∃ p s2, allocateSeq cfg rnd 2 s
          = some ([p, if p + 2 < cfg.Start + cfg.Range then p + 2 else cfg.Start], s2))
      ∧ ∀ n, n ≤ cfg.Range / 2 → ∃ run s1, allocateSeq cfg rnd n s = some (run, s1)
          ∧ run.Nodup := by
  obtain ⟨pre, s, hseq, hs, -⟩ :=
    allocateSeq_inRange cfg rnd h2 h k none (fun p hp => by cases hp)
  refine ⟨pre, s, hseq, ?_, fun n hn => allocateSeq_nodup cfg rnd h2 h s hs n hn⟩
  obtain ⟨p, hp, -, hnext, -⟩ := allocate_onCycle cfg rnd h2 h s hs
  obtain ⟨q, hq, -, -, hsame⟩ := allocate_onCycle cfg rnd h2 h _ hnext
  have hqp := hsame _ rfl
  rw [hqp] at hq
  exact ⟨p, some (if q + 2 < cfg.Start + cfg.Range then q + 2 else cfg.Start), by
    simp [allocateSeq, hp, hq, hqp]⟩

/-- Witness of C9 (amended): after five calls under `RTP.Start` 16484, `RTP.Range` 98. -/
theorem allocateRTPPorts_advances_by_two_witness :
    ∃ pre s, allocateSeq { Start := 16484, Range := 98 } 7 5 none = some (pre, s)
      ∧ (∃ p s2, allocateSeq { Start := 16484, Range := 98 } 7 2 s
          = some ([p, if p + 2 < 16484 + 98 then p + 2 else 16484], s2))
      ∧ ∀ n, n ≤ 98 / 2 → ∃ run s1,
          allocateSeq { Start := 16484, Range := 98 } 7 n s = some (run, s1) ∧ run.Nodup :=
  allocateRTPPorts_advances_by_two { Start := 16484, Range := 98 } 7 5 (by decide) (by decide)

/-- C10: in `MOSMSController`, when the first two frames on SAP3 are the ESTABLISH indication
and a CP-DATA whose RPDU is an RP-DATA that parses as TL-SUBMIT, the content type is
`text/plain`, and the session leg answers `MOSMSWaitForSubmit` with `Cleared`, the controller
sends CP-ACK and then CP-DATA carrying RP-ACK with the reference of the received RP-DATA;
whatever follows, it sends no RP-ERROR; and when the mobile's final CP-ACK then arrives the
controller returns, having sent the channel release and removed the record it registered.
This holds whatever the configured SMSC address and whatever `sendSIP` finds at its address
pointer, whose object `handleRPDU` has destroyed by then: the MESSAGE goes to what the second
read of those characters finds. -/
theorem MOSMSController_accepted_submission (mobileID : String) (LCH : Nat) (w : World)
    (est cm : L3Frame) (rest : List (Option L3Frame)) (RPDU : SMS.RLFrame)
    (submit : SMS.TLSubmit) (s1 : SIP.SIPState) (sips : List SIP.SIPState)
    (hrx : w.rx = some est :: some cm :: rest)
    (hest : est.primitive = GSM.Primitive.ESTABLISH)
    (hcm1 : cm.primitive = GSM.Primitive.DATA) (hcm2 : cm.PD = GSM.L3PD.L3SMSPD)
    (hcm3 : cm.MTI = SMS.CPMessageType.DATA) (hcm4 : cm.cpData = SMS.Parsed.ok RPDU)
    (hrp1 : RPDU.MTI = SMS.RPMessageType.Data) (hrp2 : RPDU.submit = SMS.Parsed.ok submit)
    (hmime : w.config.smsMIMEType = "text/plain")
    (hsip : w.sip = s1 :: SIP.SIPState.Cleared :: sips) :
    ∃ tail,
      (MOSMSController GSM.L3CMServiceType.ShortMessage mobileID LCH w).trace
        = w.trace ++
            [.resolveIMSI LCH, .tableAdd w.nextID, .send LCH 0 .L3CMServiceAccept,
             .recv LCH 3 20000, .recv LCH 3 20000, .send LCH 3 (.CPAck (cm.TI ||| 8)),
             .sip w.nextID (.MOSMSSendMESSAGE (w.stale.tail.headD "") "text/plain"),
             .sip w.nextID .MOSMSWaitForSubmit,
             .send LCH 3 (.CPData (cm.TI ||| 8) (.RPAck RPDU.reference)),
             .recv LCH 3 20000] ++ tail
      ∧ (tail = [] ∨ tail = [.send LCH 0 .L3ChannelRelease, .tableRemove w.nextID])
      ∧ (∀ ack more, rest = some ack :: more → ack.primitive = GSM.Primitive.DATA →
          ack.PD = GSM.L3PD.L3SMSPD → ack.MTI = SMS.CPMessageType.ACK →
          (MOSMSController GSM.L3CMServiceType.ShortMessage mobileID LCH w).value = some ()
            ∧ tail = [.send LCH 0 .L3ChannelRelease, .tableRemove w.nextID]
            ∧ (finalWorld w
                (MOSMSController GSM.L3CMServiceType.ShortMessage mobileID LCH w)).table
                = (w.table ++ [w.nextID]).erase w.nextID) := by
  have hpre := MOSMSController_accepted_prefix mobileID LCH w est cm rest RPDU submit s1 sips
    hrx hest hcm1 hcm2 hcm3 hcm4 hrp1 hrp2 hmime hsip
  obtain ⟨tail, htr, htail⟩ := MOSMS_step4_trace LCH
    { w with
      trace := w.trace ++
        [.resolveIMSI LCH, .tableAdd w.nextID, .send LCH 0 .L3CMServiceAccept,
         .recv LCH 3 20000, .recv LCH 3 20000, .send LCH 3 (.CPAck (cm.TI ||| 8)),
         .sip w.nextID (.MOSMSSendMESSAGE (w.stale.tail.headD "") "text/plain"),
         .sip w.nextID .MOSMSWaitForSubmit,
         .send LCH 3 (.CPData (cm.TI ||| 8) (.RPAck RPDU.reference))],
      table := w.table ++ [w.nextID], nextID := w.nextID + 1, rx := rest, sip := sips,
      stale := w.stale.tail.tail,
      tr := { w.newEntry with ID := w.nextID, channel := some LCH, subscriber := mobileID,
                              L3TI := cm.TI ||| 8,
                              called := some (w.stale.headD ""),
                              message := submit.UD,
                              SIPState := SIP.SIPState.Cleared } }
  refine ⟨tail, ?_, htail, ?_⟩
  · rw [hpre, htr]
    simp [List.append_assoc]
  · intro ack more hrest h1 h2 h3
    have hack := MOSMS_step4_ack LCH
      { w with
        trace := w.trace ++
          [.resolveIMSI LCH, .tableAdd w.nextID, .send LCH 0 .L3CMServiceAccept,
           .recv LCH 3 20000, .recv LCH 3 20000, .send LCH 3 (.CPAck (cm.TI ||| 8)),
           .sip w.nextID (.MOSMSSendMESSAGE (w.stale.tail.headD "") "text/plain"),
           .sip w.nextID .MOSMSWaitForSubmit,
           .send LCH 3 (.CPData (cm.TI ||| 8) (.RPAck RPDU.reference))],
        table := w.table ++ [w.nextID], nextID := w.nextID + 1, rx := rest, sip := sips,
        stale := w.stale.tail.tail,
        tr := { w.newEntry with ID := w.nextID, channel := some LCH, subscriber := mobileID,
                                L3TI := cm.TI ||| 8,
                                called := some (w.stale.headD ""),
                                message := submit.UD,
                                SIPState := SIP.SIPState.Cleared } }
      ack more hrest h1 h2 h3
    rw [hack] at htr
    rw [hpre, hack]
    refine ⟨rfl, ?_, rfl⟩
    simpa [Outcome.trace, Outcome.world, List.append_assoc] using htr.symm

/-- Witness of C10: the mobile of `staleSubmitWorld` submits HELLO (message reference 42)
under the SMSC address `smsc.example.org:5063`, of which `sendSIP` finds nothing left when it
sends the MESSAGE; the session leg accepts it, and the final CP-ACK arrives. -/
theorem MOSMSController_accepted_submission_witness :
    (MOSMSController GSM.L3CMServiceType.ShortMessage "001010000000001" 5
        staleSubmitWorld).value = some ()
      ∧ (MOSMSController GSM.L3CMServiceType.ShortMessage "001010000000001" 5
          staleSubmitWorld).trace
        = [.resolveIMSI 5, .tableAdd 2, .send 5 0 .L3CMServiceAccept, .recv 5 3 20000,
           .recv 5 3 20000, .send 5 3 (.CPAck 9),
           .sip 2 (.MOSMSSendMESSAGE "" "text/plain"), .sip 2 .MOSMSWaitForSubmit,
           .send 5 3 (.CPData 9 (.RPAck 42)), .recv 5 3 20000, .send 5 0 .L3ChannelRelease,
           .tableRemove 2]
      ∧ (finalWorld staleSubmitWorld
          (MOSMSController GSM.L3CMServiceType.ShortMessage "001010000000001" 5
            staleSubmitWorld)).table = [1] := by
  obtain ⟨tail, htr, -, hack⟩ := MOSMSController_accepted_submission "001010000000001" 5
    staleSubmitWorld establishFrame (smsFrame SMS.CPMessageType.DATA (SMS.Parsed.ok helloRPDU))
    [some (smsFrame SMS.CPMessageType.ACK SMS.Parsed.L3ReadError)] helloRPDU
    { UD := "HELLO", DA := "2600" } SIP.SIPState.MessageSubmit [] rfl rfl rfl rfl rfl rfl rfl
    rfl rfl rfl
  obtain ⟨hv, ht, htab⟩ := hack _ _ rfl rfl rfl rfl
  refine ⟨hv, ?_, ?_⟩
  · rw [htr, ht]
    rfl
  · rw [htab]
    rfl

/-- C11, as stated, fails: with transaction identifier 2, the Setup sent and no Call Confirmed
received, a cancel reported by `MTCCheckForCancel` makes `MTCStarter` clear the radio leg with
an L3Disconnect of cause 0x15, not 0x7F; the session leg is cleared by a BYE, which carries no
cause; the record is removed. -/
theorem MTCStarter_cancel_disconnects_with_cause_0x15 :
    cancelledCallWorld.tr.L3TI = 2
      ∧ (MTCStarter 3 5 cancelledCallWorld).value = some ()
      ∧ (MTCStarter 3 5 cancelledCallWorld).trace
          = [.send 5 0 (.L3Setup 2 (some "2100") none), .sip 1 .MTCSendTrying,
             .recv 5 0 1000, .sip 1 .MTCCheckForCancel,
             .send 5 0 (.L3Disconnect 2 (some 0x15)), .send 5 0 (.L3ReleaseComplete 2 none),
             .send 5 0 .L3ChannelRelease, .sendPrimitive 5 0 GSM.Primitive.RELEASE,
             .sip 1 .MODSendBYE, .sip 1 .MODWaitForOK, .tableRemove 1]
      ∧ Event.send 5 0 (.L3Disconnect 2 (some 0x7F)) ∉ (MTCStarter 3 5 cancelledCallWorld).trace
      ∧ (finalWorld cancelledCallWorld (MTCStarter 3 5 cancelledCallWorld)).table = [] := by
  refine ⟨rfl, rfl, rfl, by decide, rfl⟩

/-- C11 (amended): in `MTCStarter` with a transaction identifier below 7, let the loop that
waits for Call Confirmed come, `n` iterations after the Setup was sent, to an iteration that
starts in `wk` with the radio leg not `MTCConfirmed`, in which `MTCSendTrying` does not fail
and `updateGSMSignalling` reports the call as not cleared, and in which `MTCCheckForCancel`
then returns Fail. Then `MTCStarter` returns, and what it recorded last is the check for the
cancel, the radio-leg clearing with cause 0x15, the session-leg clearing by BYE and wait for
OK, and the removal of the record, which is then gone from the table. Unless the radio leg
was already clearing, the radio-leg clearing starts with an L3Disconnect of cause 0x15. -/
theorem MTCStarter_cancel_aborts_with_cause_0x15 (fuel n LCH : Nat) (w wk w0 w1 : World)
    (trying : SIP.SIPState) (sips : List SIP.SIPState)
    (hti : w.tr.L3TI < 7)
    (hreach : ∀ k, MTCStarter.waitForCallConfirmed LCH (k + n) (MTCStarter.setupSent LCH w)
        = MTCStarter.waitForCallConfirmed LCH k wk)
    (hs : wk.tr.GSMState ≠ GSM.CallState.MTCConfirmed)
    (htry : transaction.engine SIPOp.MTCSendTrying wk = .ret trying w0)
    (hne : trying ≠ SIP.SIPState.Fail)
    (hgsm : updateGSMSignalling LCH 1000 w0 = .ret false w1)
    (hsip : w1.sip = SIP.SIPState.Fail :: sips) :
    ∃ w2, MTCStarter (fuel + 1 + n) LCH w = .ret () w2
      ∧ w2.trace = w1.trace ++ [Event.sip w1.tr.ID SIPOp.MTCCheckForCancel]
          ++ radioClearingEvents w1 LCH 0x15
          ++ [Event.sip w1.tr.ID SIPOp.MODSendBYE, Event.sip w1.tr.ID SIPOp.MODWaitForOK,
              Event.tableRemove w1.tr.ID]
      ∧ (w1.clearingGSM w1.tr.GSMState = false →
          radioClearingEvents w1 LCH 0x15
            = [Event.send LCH 0 (.L3Disconnect w1.tr.L3TI (some 0x15)),
               Event.send LCH 0 (.L3ReleaseComplete w1.tr.L3TI none),
               Event.send LCH 0 .L3ChannelRelease,
               Event.sendPrimitive LCH 0 GSM.Primitive.RELEASE])
      ∧ w2.table = w1.table.erase w1.tr.ID := by
  obtain ⟨w2, h2, ht, htab⟩ := waitForCallConfirmed_cancel LCH fuel wk w0 w1 trying sips hs htry
    hne hgsm hsip
  refine ⟨w2, ?_, ht, ?_, htab⟩
  · rw [MTCStarter_enters_loop _ _ _ hti, bind_apply, hreach (fuel + 1), h2]
    rfl
  · intro hclr
    simp [radioClearingEvents, hclr, updateGSMSignalling_false_notNull LCH 1000 w0 w1 hgsm]

/-- Witness of C11 (amended): the cancelled incoming call of `cancelledCallWorld`, cancelled
in the first iteration. -/
theorem MTCStarter_cancel_aborts_with_cause_0x15_witness :
    ∃ w2, MTCStarter 1 5 cancelledCallWorld = .ret () w2
      ∧ w2.trace
          = [.send 5 0 (.L3Setup 2 (some "2100") none), .sip 1 .MTCSendTrying,
             .recv 5 0 1000, .sip 1 .MTCCheckForCancel,
             .send 5 0 (.L3Disconnect 2 (some 0x15)), .send 5 0 (.L3ReleaseComplete 2 none),
             .send 5 0 .L3ChannelRelease, .sendPrimitive 5 0 GSM.Primitive.RELEASE,
             .sip 1 .MODSendBYE, .sip 1 .MODWaitForOK, .tableRemove 1]
      ∧ w2.table = [] := by
  obtain ⟨w2, h, ht, -, htab⟩ := MTCStarter_cancel_aborts_with_cause_0x15 0 0 5
    cancelledCallWorld (MTCStarter.setupSent 5 cancelledCallWorld)
    (finalWorld cancelledCallWorld
      (transaction.engine SIPOp.MTCSendTrying (MTCStarter.setupSent 5 cancelledCallWorld)))
    (finalWorld cancelledCallWorld
      (updateGSMSignalling 5 1000 (finalWorld cancelledCallWorld
        (transaction.engine SIPOp.MTCSendTrying (MTCStarter.setupSent 5 cancelledCallWorld)))))
    SIP.SIPState.Proceeding [] (by decide) (fun _ => rfl) (by decide) rfl (by decide) rfl rfl
  exact ⟨w2, h, ht.trans rfl, htab.trans rfl⟩

/-- C12: for every run of `MTCStarter` with a transaction identifier below 7 (for instance 2),
the routine sends the Setup and enters its loop with the radio leg in `CallPresent`, and goes
on to `MTCController` exactly when the loop ends by its condition; the loop ends so only with
the radio leg in `MTCConfirmed`; and however the loop ends, the radio leg is `MTCConfirmed`
then only if a frame that is no ERROR primitive and parses to L3CallConfirmed was read from
the mobile in between, whatever the session leg reported. The dispatcher sets the state to
`MTCConfirmed` for no other message kind, and no operation of the SIP engine changes the
radio-leg state. -/
theorem MTCStarter_confirmed_only_by_CallConfirmed (fuel LCH : Nat) (w : World)
    (hti : w.tr.L3TI < 7) :
    MTCStarter fuel LCH w
        = (MTCStarter.waitForCallConfirmed LCH fuel >>= fun returned =>
            if returned then pure () else MTCController fuel LCH) (MTCStarter.setupSent LCH w)
      ∧ (∀ w1, MTCStarter.waitForCallConfirmed LCH fuel (MTCStarter.setupSent LCH w)
            = .ret false w1 →
          w1.tr.GSMState = GSM.CallState.MTCConfirmed
            ∧ ∃ pre, w.rx = pre ++ w1.rx ∧ CallConfirmedIn pre)
      ∧ (∀ w1, (MTCStarter.waitForCallConfirmed LCH fuel (MTCStarter.setupSent LCH w)).world
            = some w1 →
          w1.tr.GSMState = GSM.CallState.MTCConfirmed →
          ∃ pre, w.rx = pre ++ w1.rx ∧ CallConfirmedIn pre)
      ∧ (∀ message w0 w1, (callManagementDispatchGSM LCH message w0).world = some w1 →
          w1.tr.GSMState = GSM.CallState.MTCConfirmed →
          w0.tr.GSMState = GSM.CallState.MTCConfirmed
            ∨ ∃ ti, message = some (L3Message.L3CallConfirmed ti))
      ∧ (∀ op w0 w1, (transaction.engine op w0).world = some w1 →
          w1.tr.GSMState = w0.tr.GSMState) := by
  have hloop : ∀ w1,
      (MTCStarter.waitForCallConfirmed LCH fuel (MTCStarter.setupSent LCH w)).world = some w1 →
      w1.tr.GSMState = GSM.CallState.MTCConfirmed →
      ∃ pre, w.rx = pre ++ w1.rx ∧ CallConfirmedIn pre := by
    intro w1 hw hc
    have hrun := (confirming_waitForCallConfirmed LCH fuel).run (MTCStarter.setupSent LCH w)
    have hconf : Confirms (MTCStarter.setupSent LCH w) w1 := by
      revert hrun hw
      cases MTCStarter.waitForCallConfirmed LCH fuel (MTCStarter.setupSent LCH w) with
      | ret b w2 =>
        intro hw hrun
        simp only [Outcome.world, Option.some.injEq] at hw
        exact hw ▸ hrun
      | raised e w2 =>
        intro hw hrun
        simp only [Outcome.world, Option.some.injEq] at hw
        exact hw ▸ hrun
      | outOfFuel =>
        intro hw _
        simp [Outcome.world] at hw
    obtain ⟨pre, hrx, hcc⟩ := hconf
    rcases hcc hc with h | h
    · simp [MTCStarter.setupSent] at h
    · exact ⟨pre, hrx, h⟩
  refine ⟨MTCStarter_enters_loop fuel LCH w hti, ?_, hloop, ?_, ?_⟩
  · intro w1 h
    have hc := waitForCallConfirmed_false LCH fuel _ w1 h
    exact ⟨hc, hloop w1 (by rw [h]; rfl) hc⟩
  · intro message w0 w1 hw hc
    by_cases hm : ∃ ti, message = some (L3Message.L3CallConfirmed ti)
    · exact Or.inr hm
    · left
      have hk := (keeps_callManagementDispatchGSM LCH message
        (fun ti h => hm ⟨ti, h⟩)).run w0
      revert hk hw
      cases callManagementDispatchGSM LCH message w0 with
      | ret b w2 =>
        intro hw hk
        simp only [Outcome.world, Option.some.injEq] at hw
        subst hw
        exact hk.2 hc
      | raised e w2 =>
        intro hw hk
        simp only [Outcome.world, Option.some.injEq] at hw
        subst hw
        exact hk.2 hc
      | outOfFuel =>
        intro hw _
        simp [Outcome.world] at hw
  · intro op w0 w1 hw
    simp only [transaction.engine, Outcome.world, Option.some.injEq] at hw
    rw [← hw]

/-- Witness of C12: the incoming call of `callConfirmedWorld` (transaction identifier 2); the
loop ends by its condition in its second iteration, in `callConfirmedSecondPoll`, with the
radio leg in `MTCConfirmed`, after the mobile's Call Confirmed was read. -/
theorem MTCStarter_confirmed_only_by_CallConfirmed_witness :
    callConfirmedWorld.tr.L3TI = 2
      ∧ MTCStarter.waitForCallConfirmed 5 2 (MTCStarter.setupSent 5 callConfirmedWorld)
          = .ret false callConfirmedSecondPoll
      ∧ callConfirmedSecondPoll.tr.GSMState = GSM.CallState.MTCConfirmed
      ∧ ∃ pre, callConfirmedWorld.rx = pre ++ callConfirmedSecondPoll.rx ∧ CallConfirmedIn pre := by
  have h1 : ∀ k, MTCStarter.waitForCallConfirmed 5 (k + 1)
      (MTCStarter.setupSent 5 callConfirmedWorld)
        = MTCStarter.waitForCallConfirmed 5 k callConfirmedSecondPoll := fun _ => rfl
  have h2 : ∀ k, MTCStarter.waitForCallConfirmed 5 (k + 1) callConfirmedSecondPoll
      = .ret false callConfirmedSecondPoll := fun _ => rfl
  have h : MTCStarter.waitForCallConfirmed 5 2 (MTCStarter.setupSent 5 callConfirmedWorld)
      = .ret false callConfirmedSecondPoll := (h1 1).trans (h2 0)
  exact ⟨rfl, h, rfl, ((MTCStarter_confirmed_only_by_CallConfirmed 2 5 callConfirmedWorld
    (by decide)).2.1 callConfirmedSecondPoll h).2⟩

/-- C13: for every transaction, when the channel reports a radio failure, `pollInCall` is one
call of `forceSIPClearing` followed by the result true; it returns true, and all it has
recorded is the session-leg clearing, whose events are operations of the SIP engine (BYE,
resent BYE, wait for OK): no frame was read from or sent on the channel, and no media frame
was transferred in either direction. -/
theorem pollInCall_radio_failure_clears_session_leg (fuel TCH : Nat) (w : World)
    (rest : List Bool) (h : w.radioFailure = true :: rest) :
    pollInCall fuel TCH w
        = (forceSIPClearing >>= fun _ => (pure true : Ctl Bool)) { w with radioFailure := rest }
      ∧ ∃ w1, pollInCall fuel TCH w = .ret true w1
        ∧ w1.trace = w.trace ++ sessionClearingEvents w
        ∧ (∀ e ∈ sessionClearingEvents w,
            e = .sip w.tr.ID .MODSendBYE ∨ e = .sip w.tr.ID .MODResendBYE
              ∨ e = .sip w.tr.ID .MODWaitForOK)
        ∧ w1.rx = w.rx ∧ w1.uplink = w.uplink ∧ w1.rtpFrames = w.rtpFrames := by
  have hrun := pollInCall_radioFailure_run fuel TCH w rest h
  refine ⟨hrun, ?_⟩
  rw [hrun, bind_apply]
  by_cases hs : w.tr.SIPState = SIP.SIPState.Cleared
  · rw [forceSIPClearing_cleared _ (show (World.tr { w with radioFailure := rest }).SIPState
      = SIP.SIPState.Cleared from hs)]
    exact ⟨_, rfl, by simp [sessionClearingEvents, hs], sessionClearingEvents_sip w, rfl, rfl,
      rfl⟩
  · rw [forceSIPClearing_run _ (show (World.tr { w with radioFailure := rest }).SIPState
      ≠ SIP.SIPState.Cleared from hs)]
    exact ⟨_, rfl, by simp [sessionClearingEvents, hs], sessionClearingEvents_sip w, rfl, rfl,
      rfl⟩

/-- Witness of C13: the established call of `radioFailureWorld`; the poll returns true having
sent the BYE and waited for its OK, and nothing else. -/
theorem pollInCall_radio_failure_clears_session_leg_witness :
    ∃ w1, pollInCall 3 5 radioFailureWorld = .ret true w1
      ∧ w1.trace = [.sip 1 .MODSendBYE, .sip 1 .MODWaitForOK] := by
  obtain ⟨w1, h, ht, -⟩ := (pollInCall_radio_failure_clears_session_leg 3 5 radioFailureWorld []
    rfl).2
  exact ⟨w1, h, ht.trans rfl⟩

/-- C14: in `MOCController` with a transaction identifier above 7, let the first loop come,
`n` iterations after its start, to an iteration that starts in `wk` with the radio leg not yet
`CallReceived`, in which `updateGSMSignalling` reports the call as not cleared and the radio
leg is not clearing, and in which `MOCWaitForOK` then returns Busy. Then `MOCController`
returns; what it recorded last is that wait, the radio-leg clearing with an L3Disconnect of
cause 0x11, the session-leg clearing and the removal of the record, which is then gone from
the table; and nothing recorded in the whole run is an L3Connect sent to the mobile. -/
theorem MOCController_busy_aborts_without_connect (fuel n TCH : Nat) (w wk w1 : World)
    (sips : List SIP.SIPState)
    (hti : 7 < w.tr.L3TI)
    (hreach : ∀ k, MOCController.waitForRinging TCH w.tr.L3TI (k + n) w
        = MOCController.waitForRinging TCH w.tr.L3TI k wk)
    (hs : wk.tr.GSMState ≠ GSM.CallState.CallReceived)
    (hgsm : updateGSMSignalling TCH 0 wk = .ret false w1)
    (hclr : w1.clearingGSM w1.tr.GSMState = false)
    (hsip : w1.sip = SIP.SIPState.Busy :: sips) :
    ∃ w2, MOCController (fuel + 1 + n) TCH w = .ret () w2
      ∧ w2.trace = w1.trace ++
          [Event.sip w1.tr.ID SIPOp.MOCWaitForOK,
           Event.send TCH 0 (.L3Disconnect w1.tr.L3TI (some 0x11)),
           Event.send TCH 0 (.L3ReleaseComplete w1.tr.L3TI none),
           Event.send TCH 0 .L3ChannelRelease,
           Event.sendPrimitive TCH 0 GSM.Primitive.RELEASE,
           Event.sip w1.tr.ID SIPOp.MODSendBYE, Event.sip w1.tr.ID SIPOp.MODWaitForOK,
           Event.tableRemove w1.tr.ID]
      ∧ w2.table = w1.table.erase w1.tr.ID
      ∧ ∃ d, w2.trace = w.trace ++ d ∧ ∀ e ∈ d, notConnect e := by
  obtain ⟨w2, h2, ht, htab⟩ := waitForRinging_busy TCH w.tr.L3TI fuel wk w1 sips hs hgsm hclr
    hsip
  have hloop : MOCController.waitForRinging TCH w.tr.L3TI (fuel + 1 + n) w = .ret true w2 := by
    rw [hreach (fuel + 1), h2]
  refine ⟨w2, ?_, ht, htab, ?_⟩
  · simp [MOCController, bind_apply, pure_apply, transaction.L3TI, assert, hti, hloop]
  · have hrun := (noConnect_waitForRinging TCH w.tr.L3TI (fuel + 1 + n)).run w
    rw [hloop] at hrun
    exact hrun.2

/-- Witness of C14: the call of `busyCallWorld`; the session leg reports Proceeding on the
first wait and Busy on the second, with the radio leg still in `MOCProceeding`. -/
theorem MOCController_busy_aborts_without_connect_witness :
    ∃ w2, MOCController 2 5 busyCallWorld = .ret () w2
      ∧ w2.trace
          = [.recv 5 0 0, .sip 1 .MOCWaitForOK, .send 5 0 (.L3Progress 9), .recv 5 0 0,
             .sip 1 .MOCWaitForOK, .send 5 0 (.L3Disconnect 9 (some 0x11)),
             .send 5 0 (.L3ReleaseComplete 9 none), .send 5 0 .L3ChannelRelease,
             .sendPrimitive 5 0 GSM.Primitive.RELEASE, .sip 1 .MODSendBYE, .sip 1 .MODWaitForOK,
             .tableRemove 1]
      ∧ w2.table = [] := by
  obtain ⟨w2, h, ht, htab, -⟩ := MOCController_busy_aborts_without_connect 0 1 5 busyCallWorld
    busyCallSecondPoll (finalWorld busyCallSecondPoll (updateGSMSignalling 5 0 busyCallSecondPoll))
    [] (by decide) (fun _ => rfl) (by decide) rfl rfl rfl
  exact ⟨w2, h, ht.trans rfl, htab.trans rfl⟩

/-- C15: in `deliverSMSToMS` with a payload that can be built (plain text, or a raw payload
that re-parses), when the mobile answers the RP-DATA with CP-ACK and then with a CP-DATA that
parses to an RPDU, the function raises nothing: it returns, the last thing it has sent is the
final CP-ACK, and the result is true exactly when the type of that RPDU is RP-ACK, so false
for every other type. -/
theorem deliverSMSToMS_result_is_RPAck (calling message contentType : String)
    (L3TI LCH : Nat) (w : World) (est ack cm : L3Frame) (rest : List (Option L3Frame))
    (RPDU : SMS.RLFrame)
    (hpay : strncmpEq contentType "text/plain" 10 = true
      ∨ (strncmpEq contentType "application/vnd.3gpp.sms" 24 = true
          ∧ ∃ R, w.unhex message = some (.ok R)))
    (hrx : w.rx = establishFrames w est ++ some ack :: some cm :: rest)
    (hest : est.primitive = GSM.Primitive.ESTABLISH)
    (hack1 : ack.primitive = GSM.Primitive.DATA) (hack2 : ack.PD = GSM.L3PD.L3SMSPD)
    (hack3 : ack.MTI = SMS.CPMessageType.ACK)
    (hcm1 : cm.primitive = GSM.Primitive.DATA) (hcm2 : cm.PD = GSM.L3PD.L3SMSPD)
    (hcm3 : cm.MTI = SMS.CPMessageType.DATA) (hcm4 : cm.cpData = SMS.Parsed.ok RPDU) :
    ∃ success w1, deliverSMSToMS calling message contentType L3TI LCH w = .ret success w1
      ∧ (success = true ↔ RPDU.MTI = SMS.RPMessageType.Ack)
      ∧ (RPDU.MTI ≠ SMS.RPMessageType.Ack → success = false)
      ∧ w1.trace = w.trace ++ establishEvents w LCH ++
          [.send LCH 3 (.CPData L3TI
              (deliveredRPData w calling message contentType (w.random.headD 0 % 255))),
           .recv LCH 3 20000, .recv LCH 3 20000, .send LCH 3 (.CPAck L3TI)] :=
  ⟨_, _, deliverSMSToMS_run calling message contentType L3TI LCH w est ack cm rest RPDU hpay hrx
      hest hack1 hack2 hack3 hcm1 hcm2 hcm3 hcm4, by simp, by simp, rfl⟩

/-- Witness of C15: the delivery of `deliveryUnackedWorld`, where the mobile sends an RP-DATA
in place of the RP-ACK: the function returns false and has sent the final CP-ACK. -/
theorem deliverSMSToMS_result_is_RPAck_witness :
    helloRPDU.MTI ≠ SMS.RPMessageType.Ack
      ∧ ∃ w1, deliverSMSToMS "2100" "HELLO" "text/plain" 2 5 deliveryUnackedWorld = .ret false w1
        ∧ w1.trace
          = [.sendPrimitive 5 3 GSM.Primitive.ESTABLISH, .recv 5 3 20000,
             .send 5 3 (.CPData 2 (.RPData 45 "0000" "2100" "HELLO" 0)),
             .recv 5 3 20000, .recv 5 3 20000, .send 5 3 (.CPAck 2)] := by
  obtain ⟨success, w1, h, -, hf, ht⟩ := deliverSMSToMS_result_is_RPAck "2100" "HELLO"
    "text/plain" 2 5 deliveryUnackedWorld establishFrame
    (smsFrame SMS.CPMessageType.ACK SMS.Parsed.L3ReadError)
    (smsFrame SMS.CPMessageType.DATA (SMS.Parsed.ok helloRPDU)) [] helloRPDU
    (Or.inl rfl) rfl rfl rfl rfl rfl rfl rfl rfl rfl
  have hs : success = false := hf (by decide)
  subst hs
  exact ⟨by decide, w1, h, ht.trans rfl⟩

/-- C16: in `MOSMSController`, when the link comes up and the first SMS-protocol DATA frame
has a CP message type other than CP-DATA, the controller raises `UnexpectedMessage`; all it
has recorded is the IMSI resolution, the registration of the record, the CM Service Accept
and the two reads: it has sent no CP-ACK and no CP-DATA, so no RP-ACK and no RP-ERROR. -/
theorem MOSMSController_wrong_first_message (mobileID : String) (LCH : Nat) (w : World)
    (est cm : L3Frame) (rest : List (Option L3Frame))
    (hrx : w.rx = some est :: some cm :: rest)
    (hest : est.primitive = GSM.Primitive.ESTABLISH)
    (hcm1 : cm.primitive = GSM.Primitive.DATA) (hcm2 : cm.PD = GSM.L3PD.L3SMSPD)
    (hcm3 : cm.MTI ≠ SMS.CPMessageType.DATA) :
    ∃ w1 d, MOSMSController GSM.L3CMServiceType.ShortMessage mobileID LCH w
        = .raised (.UnexpectedMessage none) w1
      ∧ w1.trace = w.trace ++ d
      ∧ d = [.resolveIMSI LCH, .tableAdd w.nextID, .send LCH 0 .L3CMServiceAccept,
           .recv LCH 3 20000, .recv LCH 3 20000]
      ∧ (∀ e ∈ d, ∀ ch sap ti rp,
          e ≠ .send ch sap (.CPAck ti) ∧ e ≠ .send ch sap (.CPData ti rp)) := by
  refine ⟨_, _, MOSMSController_wrongFirst_run mobileID LCH w est cm rest hrx hest hcm1 hcm2
    hcm3, rfl, rfl, ?_⟩
  intro e he ch sap ti rp
  simp only [List.mem_cons, List.mem_singleton, List.not_mem_nil, or_false] at he
  rcases he with rfl | rfl | rfl | rfl | rfl <;> simp

/-- Witness of C16: the submission of `wrongFirstFrameWorld`, where a CP-ACK arrives where the
CP-DATA is due. -/
theorem MOSMSController_wrong_first_message_witness :
    ∃ w1, MOSMSController GSM.L3CMServiceType.ShortMessage "001010000000001" 5
          wrongFirstFrameWorld = .raised (.UnexpectedMessage none) w1
      ∧ w1.trace = [.resolveIMSI 5, .tableAdd 2, .send 5 0 .L3CMServiceAccept,
           .recv 5 3 20000, .recv 5 3 20000] := by
  obtain ⟨w1, d, h, ht, hd, -⟩ := MOSMSController_wrong_first_message "001010000000001" 5
    wrongFirstFrameWorld establishFrame (smsFrame SMS.CPMessageType.ACK SMS.Parsed.L3ReadError)
    [] rfl rfl rfl rfl (by decide)
  subst hd
  exact ⟨w1, h, ht.trans rfl⟩

/-- C17: in `MOSMSController` (link up, first frame a CP-DATA `cm`) and in
`InCallMOSMSController` (given the CP-DATA `cm`), after the CP-ACK for `cm`: when decoding
`cm` at the RP/TL layer ends in `SMSReadError`, a CP-DATA carrying RP-ERROR with cause 95 is
sent and then `UnexpectedMessage` is raised; when it ends in a Layer-3 read error,
`UnsupportedMessage` is raised and nothing follows the CP-ACK; when `cm` decodes to an RP-DATA
whose submission the session leg does not answer with `Cleared`, a CP-DATA carrying RP-ERROR
with cause 127 and the received reference is sent and the controller goes on to read the final
CP-ACK without raising, so that it returns normally when that CP-ACK arrives. The MESSAGE of
that submission goes to what `sendSIP` finds at its address pointer, whose object `handleRPDU`
has destroyed by then, whatever the configured SMSC address. -/
theorem SMS_submission_failure_replies (mobileID : String) (LCH : Nat) (w : World)
    (est cm : L3Frame) (rest : List (Option L3Frame)) :
    (w.rx = some est :: some cm :: rest → est.primitive = GSM.Primitive.ESTABLISH →
      cm.primitive = GSM.Primitive.DATA → cm.PD = GSM.L3PD.L3SMSPD →
      cm.MTI = SMS.CPMessageType.DATA →
        (DecodeFails w cm SMS.Parsed.SMSReadError SMS.Parsed.SMSReadError →
          ∃ w1, MOSMSController GSM.L3CMServiceType.ShortMessage mobileID LCH w
              = .raised (.UnexpectedMessage none) w1
            ∧ w1.trace = w.trace ++
              [.resolveIMSI LCH, .tableAdd w.nextID, .send LCH 0 .L3CMServiceAccept,
               .recv LCH 3 20000, .recv LCH 3 20000, .send LCH 3 (.CPAck (cm.TI ||| 8)),
               .send LCH 3 (.CPData (cm.TI ||| 8) (.RPError 95 (refAtCatch cm)))])
        ∧ (DecodeFails w cm SMS.Parsed.L3ReadError SMS.Parsed.L3ReadError →
          ∃ w1, MOSMSController GSM.L3CMServiceType.ShortMessage mobileID LCH w
              = .raised (.UnsupportedMessage none) w1
            ∧ w1.trace = w.trace ++
              [.resolveIMSI LCH, .tableAdd w.nextID, .send LCH 0 .L3CMServiceAccept,
               .recv LCH 3 20000, .recv LCH 3 20000, .send LCH 3 (.CPAck (cm.TI ||| 8))])
        ∧ (∀ RPDU submit s1 s2 sips, cm.cpData = SMS.Parsed.ok RPDU →
            RPDU.MTI = SMS.RPMessageType.Data → RPDU.submit = SMS.Parsed.ok submit →
            w.sip = s1 :: s2 :: sips → s2 ≠ SIP.SIPState.Cleared →
            (∃ tail, (MOSMSController GSM.L3CMServiceType.ShortMessage mobileID LCH w).trace
                = w.trace ++
                  [.resolveIMSI LCH, .tableAdd w.nextID, .send LCH 0 .L3CMServiceAccept,
                   .recv LCH 3 20000, .recv LCH 3 20000, .send LCH 3 (.CPAck (cm.TI ||| 8)),
                   .sip w.nextID (.MOSMSSendMESSAGE (w.stale.tail.headD "")
                      w.config.smsMIMEType),
                   .sip w.nextID .MOSMSWaitForSubmit,
                   .send LCH 3 (.CPData (cm.TI ||| 8) (.RPError 127 RPDU.reference)),
                   .recv LCH 3 20000] ++ tail)
            ∧ (∀ ack rest2, rest = some ack :: rest2 → ack.primitive = GSM.Primitive.DATA →
                ack.PD = GSM.L3PD.L3SMSPD → ack.MTI = SMS.CPMessageType.ACK →
                (MOSMSController GSM.L3CMServiceType.ShortMessage mobileID LCH w).value
                  = some ())))
    ∧ ((DecodeFails w cm SMS.Parsed.SMSReadError SMS.Parsed.SMSReadError →
          ∃ w1, InCallMOSMSController cm LCH w = .raised (.UnexpectedMessage (some w.tr.ID)) w1
            ∧ w1.trace = w.trace ++
              [.send LCH 3 (.CPAck (cm.TI ||| 8)),
               .send LCH 3 (.CPData (cm.TI ||| 8) (.RPError 95 (refAtCatch cm)))])
        ∧ (DecodeFails w cm SMS.Parsed.L3ReadError SMS.Parsed.L3ReadError →
          ∃ w1, InCallMOSMSController cm LCH w = .raised (.UnsupportedMessage (some w.tr.ID)) w1
            ∧ w1.trace = w.trace ++ [.send LCH 3 (.CPAck (cm.TI ||| 8))])
        ∧ (∀ RPDU submit s1 s2 sips, cm.cpData = SMS.Parsed.ok RPDU →
            RPDU.MTI = SMS.RPMessageType.Data → RPDU.submit = SMS.Parsed.ok submit →
            w.sip = s1 :: s2 :: sips → s2 ≠ SIP.SIPState.Cleared →
            (∃ tail, (InCallMOSMSController cm LCH w).trace
                = w.trace ++
                  [.send LCH 3 (.CPAck (cm.TI ||| 8)),
                   .sip w.tr.ID (.MOSMSSendMESSAGE (w.stale.tail.headD "")
                      w.config.smsMIMEType),
                   .sip w.tr.ID .MOSMSWaitForSubmit,
                   .send LCH 3 (.CPData (cm.TI ||| 8) (.RPError 127 RPDU.reference)),
                   .recv LCH 3 20000] ++ tail)
            ∧ (∀ ack rest2, w.rx = some ack :: rest2 → ack.primitive = GSM.Primitive.DATA →
                ack.PD = GSM.L3PD.L3SMSPD → ack.MTI = SMS.CPMessageType.ACK →
                (InCallMOSMSController cm LCH w).value = some ()))) := by
  refine ⟨fun hrx hest hcm1 hcm2 hcm3 => ⟨?_, ?_, ?_⟩, ?_, ?_, ?_⟩
  · intro h
    exact ⟨_, MOSMSController_SMSReadError mobileID LCH w est cm rest hrx hest hcm1 hcm2 hcm3 h,
      rfl⟩
  · intro h
    exact ⟨_, MOSMSController_L3ReadError mobileID LCH w est cm rest hrx hest hcm1 hcm2 hcm3 h,
      rfl⟩
  · intro RPDU submit s1 s2 sips h1 h2 h3 hsip hs2
    have hpre := MOSMSController_rejected_prefix mobileID LCH w est cm rest RPDU submit s1 s2
      sips hrx hest hcm1 hcm2 hcm3 h1 h2 h3 hsip hs2
    refine ⟨?_, ?_⟩
    · rw [hpre]
      obtain ⟨tail, ht, -⟩ := MOSMS_step4_trace LCH
        { w with
          trace := w.trace ++
            [.resolveIMSI LCH, .tableAdd w.nextID, .send LCH 0 .L3CMServiceAccept,
             .recv LCH 3 20000, .recv LCH 3 20000, .send LCH 3 (.CPAck (cm.TI ||| 8)),
             .sip w.nextID (.MOSMSSendMESSAGE (w.stale.tail.headD "")
                w.config.smsMIMEType),
             .sip w.nextID .MOSMSWaitForSubmit,
             .send LCH 3 (.CPData (cm.TI ||| 8) (.RPError 127 RPDU.reference))],
          table := w.table ++ [w.nextID], nextID := w.nextID + 1, rx := rest, sip := sips,
          stale := w.stale.tail.tail,
          tr := { w.newEntry with ID := w.nextID, channel := some LCH, subscriber := mobileID,
                                  L3TI := cm.TI ||| 8,
                                  called := some (w.stale.headD ""),
                                  message := submittedBody w.config.smsMIMEType RPDU submit,
                                  SIPState := s2 } }
      exact ⟨tail, by rw [ht]; simp⟩
    · intro ack rest2 hr ha1 ha2 ha3
      rw [hpre, MOSMS_step4_ack LCH _ ack rest2 hr ha1 ha2 ha3]
      rfl
  · intro h
    exact ⟨_, InCallMOSMSController_SMSReadError cm LCH w h, rfl⟩
  · intro h
    exact ⟨_, InCallMOSMSController_L3ReadError cm LCH w h, rfl⟩
  · intro RPDU submit s1 s2 sips h1 h2 h3 hsip hs2
    have hpre := InCallMOSMSController_rejected_prefix cm LCH w RPDU submit s1 s2 sips h1 h2 h3
      hsip hs2
    refine ⟨?_, ?_⟩
    · rw [hpre]
      obtain ⟨tail, ht, -⟩ := InCall_step4_trace LCH (some w.tr.ID)
        { w with
          trace := w.trace ++
            [.send LCH 3 (.CPAck (cm.TI ||| 8)),
             .sip w.tr.ID (.MOSMSSendMESSAGE (w.stale.tail.headD "")
                w.config.smsMIMEType),
             .sip w.tr.ID .MOSMSWaitForSubmit,
             .send LCH 3 (.CPData (cm.TI ||| 8) (.RPError 127 RPDU.reference))],
          sip := sips, stale := w.stale.tail.tail,
          tr := { w.tr with L3TI := cm.TI ||| 8,
                            called := some (w.stale.headD ""),
                            message := submittedBody w.config.smsMIMEType RPDU submit,
                            SIPState := s2 } }
      exact ⟨tail, by rw [ht]; simp⟩
    · intro ack rest2 hr ha1 ha2 ha3
      rw [hpre, InCall_step4_ack LCH (some w.tr.ID)
        { w with
          trace := w.trace ++
            [.send LCH 3 (.CPAck (cm.TI ||| 8)),
             .sip w.tr.ID (.MOSMSSendMESSAGE (w.stale.tail.headD "")
                w.config.smsMIMEType),
             .sip w.tr.ID .MOSMSWaitForSubmit,
             .send LCH 3 (.CPData (cm.TI ||| 8) (.RPError 127 RPDU.reference))],
          sip := sips, stale := w.stale.tail.tail,
          tr := { w.tr with L3TI := cm.TI ||| 8,
                            called := some (w.stale.headD ""),
                            message := submittedBody w.config.smsMIMEType RPDU submit,
                            SIPState := s2 } } ack rest2 hr ha1 ha2 ha3]
      rfl

/-- Witness of C17: the submission of `staleRejectedSubmitWorld` (SMSC address
`smsc.example.org:5063`, nothing of it left when the MESSAGE is sent), which the session leg
answers with a failure: `MOSMSController` sends RP-ERROR with cause 127 and reference 42,
reads the final CP-ACK and returns normally. -/
theorem SMS_submission_failure_replies_witness :
    (MOSMSController GSM.L3CMServiceType.ShortMessage "001010000000001" 5
        staleRejectedSubmitWorld).value = some ()
      ∧ (MOSMSController GSM.L3CMServiceType.ShortMessage "001010000000001" 5
          staleRejectedSubmitWorld).trace
        = [.resolveIMSI 5, .tableAdd 2, .send 5 0 .L3CMServiceAccept, .recv 5 3 20000,
           .recv 5 3 20000, .send 5 3 (.CPAck 9), .sip 2 (.MOSMSSendMESSAGE "" "text/plain"),
           .sip 2 .MOSMSWaitForSubmit, .send 5 3 (.CPData 9 (.RPError 127 42)),
           .recv 5 3 20000, .send 5 0 .L3ChannelRelease, .tableRemove 2] :=
  ⟨(((SMS_submission_failure_replies "001010000000001" 5 staleRejectedSubmitWorld establishFrame
      (smsFrame SMS.CPMessageType.DATA (SMS.Parsed.ok helloRPDU))
      [some (smsFrame SMS.CPMessageType.ACK SMS.Parsed.L3ReadError)]).1
        rfl rfl rfl rfl rfl).2.2 helloRPDU { UD := "HELLO", DA := "2600" }
        SIP.SIPState.MessageSubmit SIP.SIPState.Fail [] rfl rfl rfl rfl (by decide)).2
      (smsFrame SMS.CPMessageType.ACK SMS.Parsed.L3ReadError) [] rfl rfl rfl rfl,
    rfl⟩

/-- C18, as stated, fails: with content type application/vnd.3gpp.sms and a hexadecimal
string that does not decode, `deliverSMSToMS` raises `UnexpectedMessage` having recorded the
link establishment only; no CP-ERROR, and nothing else, was sent to the mobile. -/
theorem deliverSMSToMS_bad_hex_sends_nothing :
    badHexWorld.unhex "zz" = none
      ∧ (deliverSMSToMS "2100" "zz" "application/vnd.3gpp.sms" 2 5 badHexWorld).exception
          = some (.UnexpectedMessage none)
      ∧ (deliverSMSToMS "2100" "zz" "application/vnd.3gpp.sms" 2 5 badHexWorld).trace
          = [.sendPrimitive 5 3 GSM.Primitive.ESTABLISH, .recv 5 3 20000]
      ∧ Event.send 5 3 (.CPError 2 95)
          ∉ (deliverSMSToMS "2100" "zz" "application/vnd.3gpp.sms" 2 5 badHexWorld).trace := by
  refine ⟨rfl, rfl, rfl, by decide⟩

/-- C18 (amended): in `deliverSMSToMS` with a content type that starts with
application/vnd.3gpp.sms, once the link is up: when the hexadecimal string fails to decode,
`UnexpectedMessage` is raised and nothing has been sent to the mobile; when the decoded bits
fail to re-parse as RP-DATA with `SMSReadError`, a CP-DATA carrying RP-ERROR with cause 95 and
the fresh message reference is sent and then `UnexpectedMessage` is raised; when they fail
with a Layer-3 read error, `UnsupportedMessage` is raised and nothing has been sent. -/
theorem deliverSMSToMS_malformed_raw_payload (calling message contentType : String)
    (L3TI LCH : Nat) (w : World) (est : L3Frame) (rest : List (Option L3Frame))
    (hp : strncmpEq contentType "application/vnd.3gpp.sms" 24 = true)
    (hrx : w.rx = establishFrames w est ++ rest)
    (hest : est.primitive = GSM.Primitive.ESTABLISH) :
    (w.unhex message = none →
        ∃ w1, deliverSMSToMS calling message contentType L3TI LCH w
            = .raised (.UnexpectedMessage none) w1
          ∧ w1.trace = w.trace ++ establishEvents w LCH)
      ∧ (w.unhex message = some SMS.Parsed.SMSReadError →
        ∃ w1, deliverSMSToMS calling message contentType L3TI LCH w
            = .raised (.UnexpectedMessage none) w1
          ∧ w1.trace = w.trace ++ establishEvents w LCH ++
              [.send LCH 3 (.CPData L3TI (.RPError 95 (w.random.headD 0 % 255)))])
      ∧ (w.unhex message = some SMS.Parsed.L3ReadError →
        ∃ w1, deliverSMSToMS calling message contentType L3TI LCH w
            = .raised (.UnsupportedMessage none) w1
          ∧ w1.trace = w.trace ++ establishEvents w LCH) := by
  have hp0 := strncmpEq_raw_not_text contentType hp
  refine ⟨fun h => ⟨_, deliverSMSToMS_unhex_fails calling message contentType L3TI LCH w est rest
      hp0 hp hrx hest h, rfl⟩,
    fun h => ⟨_, deliverSMSToMS_reparse_fails calling message contentType L3TI LCH w est rest
      hp0 hp hrx hest h, rfl⟩,
    fun h => ⟨_, deliverSMSToMS_reparse_unsupported calling message contentType L3TI LCH w est
      rest hp0 hp hrx hest h, rfl⟩⟩

/-- Witness of C18 (amended): the delivery of `badPayloadWorld`, whose payload does not
re-parse: RP-ERROR with cause 95 and reference 45 is sent in a CP-DATA. -/
theorem deliverSMSToMS_malformed_raw_payload_witness :
    ∃ w1, deliverSMSToMS "2100" "00" "application/vnd.3gpp.sms" 2 5 badPayloadWorld
        = .raised (.UnexpectedMessage none) w1
      ∧ w1.trace = [.sendPrimitive 5 3 GSM.Primitive.ESTABLISH, .recv 5 3 20000,
          .send 5 3 (.CPData 2 (.RPError 95 45))] := by
  obtain ⟨w1, h, ht⟩ := (deliverSMSToMS_malformed_raw_payload "2100" "00"
    "application/vnd.3gpp.sms" 2 5 badPayloadWorld establishFrame [] rfl rfl rfl).2.1 rfl
  exact ⟨w1, h, ht.trans rfl⟩

/-- C19, as stated, fails: when an Alerting arrives where the Setup is due, `MOCStarter`
raises `UnexpectedMessage` having sent the CM Service Accept only: no message with a cause
code and no channel release. No record is created or registered. -/
theorem MOCStarter_no_setup_sends_no_rejection :
    (MOCStarter 3 GSM.L3CMServiceType.MobileOriginatedCall "001010000000001" 5
        alertingForSetupWorld).exception = some (.UnexpectedMessage none)
      ∧ (MOCStarter 3 GSM.L3CMServiceType.MobileOriginatedCall "001010000000001" 5
          alertingForSetupWorld).trace
        = [.resolveIMSI 5, .send 5 0 .L3CMServiceAccept, .recv 5 0 0]
      ∧ Event.send 5 0 .L3ChannelRelease
          ∉ (MOCStarter 3 GSM.L3CMServiceType.MobileOriginatedCall "001010000000001" 5
              alertingForSetupWorld).trace := by
  refine ⟨rfl, rfl, by decide⟩

/-- C19 (amended): in `MOCStarter`, if the message read after CM Service Accept is absent or
is not a Setup message, the starter raises `UnexpectedMessage`; all it has recorded is the
IMSI resolution, the CM Service Accept and the read: it has sent no message with a cause code
and no channel release, and it has created and registered no transaction record. -/
theorem MOCStarter_no_setup_raises (fuel : Nat) (serviceType : GSM.L3CMServiceType)
    (mobileID : String) (LCH : Nat) (w : World)
    (h : ∀ f rest TI calling called, w.rx = some f :: rest →
      f.parseL3 ≠ some (.L3Setup TI calling called)) :
    ∃ w1, MOCStarter fuel serviceType mobileID LCH w = .raised (.UnexpectedMessage none) w1
      ∧ w1.trace = w.trace ++ [.resolveIMSI LCH, .send LCH 0 .L3CMServiceAccept, .recv LCH 0 0]
      ∧ w1.table = w.table ∧ w1.nextID = w.nextID ∧ w1.tr = w.tr :=
  ⟨_, MOCStarter_noSetup_run fuel serviceType mobileID LCH w h, rfl, rfl, rfl, rfl⟩

/-- Witness of C19 (amended): in `noSetupWorld` nothing follows the CM Service Accept. -/
theorem MOCStarter_no_setup_raises_witness :
    ∃ w1, MOCStarter 3 GSM.L3CMServiceType.MobileOriginatedCall "001010000000001" 5 noSetupWorld
        = .raised (.UnexpectedMessage none) w1
      ∧ w1.trace = [.resolveIMSI 5, .send 5 0 .L3CMServiceAccept, .recv 5 0 0]
      ∧ w1.table = [1] := by
  obtain ⟨w1, h, ht, htab, -⟩ := MOCStarter_no_setup_raises 3
    GSM.L3CMServiceType.MobileOriginatedCall "001010000000001" 5 noSetupWorld
    (fun f rest TI calling called hrx => by
      simp [noSetupWorld, exampleWorld] at hrx)
  exact ⟨w1, h, ht.trans rfl, htab.trans rfl⟩

/-- C20: in `MOCStarter`, for every Setup message without a called-party number, the starter
sends L3ReleaseComplete with cause 0x60 and the mobile-originated transaction identifier
(the Setup's with the high bit set), then L3ChannelRelease, and returns; it has recorded
nothing else after the read, so no record was created or registered, no RTP port allocated, no
INVITE and no Call Proceeding sent. -/
theorem MOCStarter_setup_without_number (fuel : Nat) (serviceType : GSM.L3CMServiceType)
    (mobileID : String) (LCH : Nat) (w : World) (f : L3Frame) (rest : List (Option L3Frame))
    (TI : Nat) (calling : Option String) (hrx : w.rx = some f :: rest)
    (hf : f.parseL3 = some (.L3Setup TI calling none)) :
    ∃ w1, MOCStarter fuel serviceType mobileID LCH w = .ret () w1
      ∧ w1.trace = w.trace ++
          [.resolveIMSI LCH, .send LCH 0 .L3CMServiceAccept, .recv LCH 0 0,
           .send LCH 0 (.L3ReleaseComplete (TI ||| 8) (some 0x60)),
           .send LCH 0 .L3ChannelRelease]
      ∧ w1.table = w.table ∧ w1.nextID = w.nextID ∧ w1.tr = w.tr ∧ w1.rtpPort = w.rtpPort
      ∧ w1.sip = w.sip :=
  ⟨_, MOCStarter_noNumber_run fuel serviceType mobileID LCH w f rest TI calling hrx hf, rfl, rfl,
    rfl, rfl, rfl, rfl⟩

/-- Witness of C20: the Setup of `setupWithoutNumberWorld` has transaction identifier 3; the
L3ReleaseComplete carries 11 and cause 0x60. -/
theorem MOCStarter_setup_without_number_witness :
    ∃ w1, MOCStarter 3 GSM.L3CMServiceType.MobileOriginatedCall "001010000000001" 5
          setupWithoutNumberWorld = .ret () w1
      ∧ w1.trace = [.resolveIMSI 5, .send 5 0 .L3CMServiceAccept, .recv 5 0 0,
          .send 5 0 (.L3ReleaseComplete 11 (some 0x60)), .send 5 0 .L3ChannelRelease]
      ∧ w1.table = [1] := by
  obtain ⟨w1, h, ht, htab, -⟩ := MOCStarter_setup_without_number 3
    GSM.L3CMServiceType.MobileOriginatedCall "001010000000001" 5 setupWithoutNumberWorld
    (callControlFrame (.L3Setup 3 none none)) [] 3 none rfl rfl
  exact ⟨w1, h, ht.trans rfl, htab.trans rfl⟩

/-- C21: for every transaction identifier `ti` in 0..7 carried by a mobile's Setup or CP-DATA,
`ti | 0x08` lies in 8..15 and has the low three bits of `ti`; it is the L3TI of the record
`MOCStarter` creates and hands to `MOCController` (unless the port allocation faults before),
so that the assertion `L3TI > 7`, with which `MOCController` starts, holds there; and it is
the L3TI stored when steps 2 to 4 of `MOSMSController`, or `InCallMOSMSController`, end. -/
theorem mobile_L3TI_has_high_bit_set (ti : Nat) (hti : ti < 8) :
    (8 ≤ ti ||| 8 ∧ ti ||| 8 ≤ 15 ∧ (ti ||| 8) % 8 = ti % 8)
      ∧ (∀ fuel serviceType mobileID LCH w f rest calling digits,
          w.rx = some f :: rest → f.parseL3 = some (.L3Setup ti calling (some digits)) →
          ∃ w1, w1.tr.L3TI = ti ||| 8 ∧ 7 < w1.tr.L3TI
            ∧ assert (decide (w1.tr.L3TI > 7)) w1 = .ret () w1
            ∧ (MOCStarter fuel serviceType mobileID LCH w = MOCController fuel LCH w1
                ∨ MOCStarter fuel serviceType mobileID LCH w = .raised .DivisionByZero w1))
      ∧ (∀ fuel TCH w, ¬ 7 < w.tr.L3TI →
          MOCController fuel TCH w = .raised .AssertionFailed w)
      ∧ (∀ serviceType mobileID LCH,
          MOSMSController serviceType mobileID LCH = (do
            assert (decide (serviceType = GSM.L3CMServiceType.ShortMessage))
            emit (.resolveIMSI LCH)
            newTransactionEntrySMS mobileID LCH
            let id ← transaction.ID
            gTransactionTable.add id
            LogicalChannel.send LCH .L3CMServiceAccept 0
            let _ ← getFrameSMS LCH GSM.Primitive.ESTABLISH
            let CM ← getFrameSMS LCH GSM.Primitive.DATA
            if CM.MTI ≠ SMS.CPMessageType.DATA then raise (.UnexpectedMessage none)
            else MOSMSController.steps2to4 CM LCH))
      ∧ (∀ cm LCH w w1, cm.TI = ti →
          (MOSMSController.steps2to4 cm LCH w).world = some w1 → w1.tr.L3TI = ti ||| 8)
      ∧ (∀ cm LCH w w1, cm.TI = ti →
          (InCallMOSMSController cm LCH w).world = some w1 → w1.tr.L3TI = ti ||| 8) := by
  obtain ⟨h8, h15, hlow, -⟩ := TI_or_8 ti hti
  refine ⟨⟨h8, h15, hlow⟩, ?_, ?_, MOSMSController_steps, ?_, ?_⟩
  · intro fuel serviceType mobileID LCH w f rest calling digits hrx hf
    obtain ⟨w1, h1, -, hrun⟩ := MOCStarter_setup_run fuel serviceType mobileID LCH w f rest ti
      calling digits hrx hf
    have h7 : 7 < w1.tr.L3TI := by rw [h1]; omega
    exact ⟨w1, h1, h7, by simp [assert, h7, pure_apply], hrun⟩
  · intro fuel TCH w h
    simp [MOCController, bind_apply, transaction.L3TI, assert, h, raise]
  · intro cm LCH w w1 hcm h
    rw [← hcm]
    exact steps2to4_stores cm LCH w w1 h
  · intro cm LCH w w1 hcm h
    rw [← hcm]
    exact InCallMOSMSController_stores cm LCH w w1 h

/-- Witness of C21: the Setup of `setupWorld` carries transaction identifier 3; the record
handed to `MOCController` has L3TI 11. -/
theorem mobile_L3TI_has_high_bit_set_witness :
    ∃ w1, w1.tr.L3TI = 11
      ∧ assert (decide (w1.tr.L3TI > 7)) w1 = .ret () w1
      ∧ (MOCStarter 3 GSM.L3CMServiceType.MobileOriginatedCall "001010000000001" 5 setupWorld
            = MOCController 3 5 w1
          ∨ MOCStarter 3 GSM.L3CMServiceType.MobileOriginatedCall "001010000000001" 5 setupWorld
            = .raised .DivisionByZero w1) := by
  obtain ⟨w1, h1, -, ha, hrun⟩ := (mobile_L3TI_has_high_bit_set 3 (by decide)).2.1 3
    GSM.L3CMServiceType.MobileOriginatedCall "001010000000001" 5 setupWorld
    (callControlFrame (.L3Setup 3 none (some "2600"))) [] none "2600" rfl rfl
  exact ⟨w1, h1.trans (by decide), ha, hrun⟩

/-- C22: the dispatcher always ends, and the radio-leg state it ends with is the one
`stateAfterDispatch` gives by the kind of the message alone: Active for Connect Acknowledge
and Connect, MTCConfirmed for Call Confirmed, CallReceived for Alerting, ReleaseRequest for
Disconnect, Null for Release and Release Complete, and the state as it was for every other
message, an unrecognized and a null one. -/
theorem dispatch_state_by_message_kind (LCH : Nat) (message : Option L3Message) (w : World) :
    (∃ w1, (callManagementDispatchGSM LCH message w).world = some w1)
      ∧ ∀ w1, (callManagementDispatchGSM LCH message w).world = some w1 →
          w1.tr.GSMState = stateAfterDispatch message w.tr.GSMState :=
  ⟨dispatch_ends LCH message w, fun w1 h => dispatch_state LCH message w w1 h⟩

/-- Witness of C22: in the established call of `exampleWorld` (radio leg Active) a Disconnect
gives ReleaseRequest and a Hold leaves Active. -/
theorem dispatch_state_by_message_kind_witness :
    (finalWorld exampleWorld
        (callManagementDispatchGSM 5 (some (.L3Disconnect 1 none)) exampleWorld)).tr.GSMState
        = GSM.CallState.ReleaseRequest
      ∧ (finalWorld exampleWorld
          (callManagementDispatchGSM 5 (some (.L3Hold 1)) exampleWorld)).tr.GSMState
        = GSM.CallState.Active :=
  ⟨(dispatch_state_by_message_kind 5 (some (.L3Disconnect 1 none)) exampleWorld).2 _ rfl,
    (dispatch_state_by_message_kind 5 (some (.L3Hold 1)) exampleWorld).2 _ rfl⟩

/-- C23, as stated, fails: on an IMSI Detach Indication in the established call of
`exampleWorld` the dispatcher returns true, yet the radio-leg state is still Active and the
dispatcher has sent no L3ChannelRelease: it has called `IMSIDetachController` and force-cleared
the session leg. -/
theorem dispatch_IMSI_detach_keeps_radio_state :
    (callManagementDispatchGSM 5 (some .L3IMSIDetachIndication) exampleWorld).value = some true
      ∧ (finalWorld exampleWorld
          (callManagementDispatchGSM 5 (some .L3IMSIDetachIndication) exampleWorld)).tr.GSMState
        = GSM.CallState.Active
      ∧ (callManagementDispatchGSM 5 (some .L3IMSIDetachIndication) exampleWorld).trace
        = [.IMSIDetachController 5, .sip 1 .MODSendBYE, .sip 1 .MODWaitForOK]
      ∧ Event.send 5 0 .L3ChannelRelease
          ∉ (callManagementDispatchGSM 5 (some .L3IMSIDetachIndication) exampleWorld).trace := by
  refine ⟨rfl, rfl, rfl, by decide⟩

/-- C23 (amended): the dispatcher returns true exactly on Release, Release Complete and IMSI
Detach Indication. On Release and Release Complete the radio-leg state is then Null and an
L3ChannelRelease has been sent on the channel. On IMSI Detach Indication the radio-leg state
is as it was, and all the dispatcher has recorded is the call of `IMSIDetachController` for
the channel and the session-leg clearing. -/
theorem dispatch_returns_true_cases (LCH : Nat) (message : Option L3Message) (w w1 : World)
    (b : Bool) (h : callManagementDispatchGSM LCH message w = .ret b w1) :
    (b = true ↔ (isRelease message ∨ message = some L3Message.L3IMSIDetachIndication))
      ∧ (isRelease message →
          w1.tr.GSMState = GSM.CallState.NullState
            ∧ ∃ d, w1.trace = w.trace ++ d ∧ Event.send LCH 0 .L3ChannelRelease ∈ d)
      ∧ (message = some L3Message.L3IMSIDetachIndication →
          w1.tr.GSMState = w.tr.GSMState
            ∧ w1.trace = w.trace ++ Event.IMSIDetachController LCH :: sessionClearingEvents w) := by
  refine ⟨dispatch_result LCH message w w1 b h, ?_, ?_⟩
  · rintro (⟨ti, rfl⟩ | ⟨ti, cause, rfl⟩)
    · rw [dispatch_Release] at h
      simp only [Outcome.ret.injEq] at h
      obtain ⟨-, rfl⟩ := h
      exact ⟨rfl, _, rfl, by simp⟩
    · rw [dispatch_ReleaseComplete] at h
      simp only [Outcome.ret.injEq] at h
      obtain ⟨-, rfl⟩ := h
      exact ⟨rfl, _, rfl, by simp⟩
  · rintro rfl
    obtain ⟨w2, h2, ht, hg, -⟩ := forceSIPClearing_trace
      { w with trace := w.trace ++ [.IMSIDetachController LCH] }
    rw [dispatch_IMSIDetach, bind_apply, h2] at h
    simp only [pure_apply, Outcome.ret.injEq] at h
    obtain ⟨-, rfl⟩ := h
    refine ⟨hg, ?_⟩
    rw [ht]
    simp [sessionClearingEvents]

/-- Witness of C23 (amended): a Release in the established call of `exampleWorld`; the
dispatcher returns true with the radio leg in Null, having sent L3ReleaseComplete and
L3ChannelRelease. -/
theorem dispatch_returns_true_cases_witness :
    ∃ w1, callManagementDispatchGSM 5 (some (.L3Release 1)) exampleWorld = .ret true w1
      ∧ w1.tr.GSMState = GSM.CallState.NullState
      ∧ ∃ d, w1.trace = exampleWorld.trace ++ d ∧ Event.send 5 0 .L3ChannelRelease ∈ d :=
  ⟨finalWorld exampleWorld (callManagementDispatchGSM 5 (some (.L3Release 1)) exampleWorld), rfl,
    (dispatch_returns_true_cases 5 (some (.L3Release 1)) exampleWorld
      (finalWorld exampleWorld (callManagementDispatchGSM 5 (some (.L3Release 1)) exampleWorld))
      true rfl).2.1 (Or.inl ⟨1, rfl⟩)⟩

/-- C24: in the dispatcher, on Disconnect all timers are reset, L3Release with the
transaction's L3TI is sent, timer 308 is armed (the only one then), the radio leg becomes
ReleaseRequest, the session leg is told to terminate (MODSendBYE) and the result is false; on
Release, L3ReleaseComplete and then L3ChannelRelease are sent, the session leg is acknowledged
(MTDSendOK) and the result is true; on Release Complete, only L3ChannelRelease is sent, the
session leg's OK is awaited (MODWaitForOK) and the result is true; in the last two cases the
timers are reset and the radio leg becomes Null. -/
theorem dispatch_clearing_steps (LCH TI : Nat) (cause : Option Nat) (w : World) :
    callManagementDispatchGSM LCH (some (.L3Disconnect TI cause)) w
        = .ret false
            { w with
              trace := w.trace ++
                [.send LCH 0 (.L3Release w.tr.L3TI), .sip w.tr.ID .MODSendBYE],
              sip := w.sip.tail,
              tr := { w.tr with timers := ["308"], GSMState := GSM.CallState.ReleaseRequest,
                                SIPState := w.sip.headD w.tr.SIPState } }
      ∧ callManagementDispatchGSM LCH (some (.L3Release TI)) w
        = .ret true
            { w with
              trace := w.trace ++
                [.send LCH 0 (.L3ReleaseComplete w.tr.L3TI none),
                 .send LCH 0 .L3ChannelRelease, .sip w.tr.ID .MTDSendOK],
              sip := w.sip.tail,
              tr := { w.tr with timers := [], GSMState := GSM.CallState.NullState,
                                SIPState := w.sip.headD w.tr.SIPState } }
      ∧ callManagementDispatchGSM LCH (some (.L3ReleaseComplete TI cause)) w
        = .ret true
            { w with
              trace := w.trace ++ [.send LCH 0 .L3ChannelRelease, .sip w.tr.ID .MODWaitForOK],
              sip := w.sip.tail,
              tr := { w.tr with timers := [], GSMState := GSM.CallState.NullState,
                                SIPState := w.sip.headD w.tr.SIPState } } :=
  ⟨dispatch_Disconnect LCH TI cause w, dispatch_Release LCH TI w,
    dispatch_ReleaseComplete LCH TI cause w⟩

/-- Witness of C24: a Disconnect in the call of `timerExpiredWorld`, where timer 313 is
armed: afterwards 308 is the only timer, and L3Release and the BYE are recorded. -/
theorem dispatch_clearing_steps_witness :
    (callManagementDispatchGSM 5 (some (.L3Disconnect 1 none)) timerExpiredWorld).value
        = some false
      ∧ (callManagementDispatchGSM 5 (some (.L3Disconnect 1 none)) timerExpiredWorld).trace
        = [.send 5 0 (.L3Release 9), .sip 1 .MODSendBYE]
      ∧ (finalWorld timerExpiredWorld
          (callManagementDispatchGSM 5 (some (.L3Disconnect 1 none)) timerExpiredWorld)).tr.timers
        = ["308"] := by
  have h := (dispatch_clearing_steps 5 1 none timerExpiredWorld).1
  rw [h]
  exact ⟨rfl, rfl, rfl⟩

/-- C25: on a Start DTMF message the dispatcher asks each configured relay method once,
returns false, raises nothing and leaves the radio-leg state as it was; what it sends is
L3StartDTMFAcknowledge with the pressed key when a configured method reports success
(`dtmfRelayed`), and L3StartDTMFReject with cause 0x3f otherwise; with no method configured
nothing is asked and the reject is sent. -/
theorem dispatch_StartDTMF_acknowledges_or_rejects (LCH TI : Nat) (key : Char) (w : World) :
    ∃ w1, callManagementDispatchGSM LCH (some (.L3StartDTMF TI key)) w = .ret false w1
      ∧ w1.tr.GSMState = w.tr.GSMState
      ∧ w1.trace = w.trace ++ dtmfRelayEvents w key ++
          [.send LCH 0 (if dtmfRelayed w then .L3StartDTMFAcknowledge w.tr.L3TI key
            else .L3StartDTMFReject w.tr.L3TI 0x3f)]
      ∧ (dtmfRelayed w = true ↔
          (w.config.dtmfRFC2833 = true ∧ w.dtmfResult.headD false = true)
            ∨ (w.config.dtmfRFC2967 = true
                ∧ (if w.config.dtmfRFC2833 then w.dtmfResult.tail
                    else w.dtmfResult).headD false = true))
      ∧ (w.config.dtmfRFC2833 = false → w.config.dtmfRFC2967 = false →
          w1.trace = w.trace ++ [.send LCH 0 (.L3StartDTMFReject w.tr.L3TI 0x3f)]) := by
  refine ⟨_, dispatch_StartDTMF LCH TI key w, rfl, rfl, ?_, ?_⟩
  · simp [dtmfRelayed]
  · intro h1 h2
    simp [dtmfRelayEvents, dtmfRelayed, h1, h2]

/-- Witness of C25: with RFC 2833 the one configured method, a relayed key press is
acknowledged (`dtmfWorld`) and one that is not relayed is rejected with cause 0x3f
(`exampleWorld`). -/
theorem dispatch_StartDTMF_acknowledges_or_rejects_witness :
    (callManagementDispatchGSM 5 (some (.L3StartDTMF 1 '7')) dtmfWorld).trace
        = [.sip 1 (.startDTMF '7'), .send 5 0 (.L3StartDTMFAcknowledge 9 '7')]
      ∧ (callManagementDispatchGSM 5 (some (.L3StartDTMF 1 '7')) exampleWorld).trace
        = [.sip 1 (.startDTMF '7'), .send 5 0 (.L3StartDTMFReject 9 0x3f)] := by
  obtain ⟨w1, h1, -, ht1, -⟩ := dispatch_StartDTMF_acknowledges_or_rejects 5 1 '7' dtmfWorld
  obtain ⟨w2, h2, -, ht2, -⟩ := dispatch_StartDTMF_acknowledges_or_rejects 5 1 '7' exampleWorld
  rw [h1, h2]
  exact ⟨ht1.trans rfl, ht2.trans rfl⟩

/-- C26: in `updateGSMSignalling`, when the radio-leg state is not Null and a protocol timer
has expired, the invocation is `abortCall` with cause 0x66 followed by the result true: it
returns true with the radio leg in Null and the session leg force-cleared, having recorded the
two force-clears only, so that no frame was read from the channel; true is also the result
when a Release or Release Complete of the peer is read and dispatched. -/
theorem updateGSMSignalling_timer_expiry_aborts (LCH timeout : Nat) (w : World)
    (rest : List Bool) (hs : w.tr.GSMState ≠ GSM.CallState.NullState)
    (he : w.timerExpired = true :: rest) :
    updateGSMSignalling LCH timeout w
        = (abortCall (some LCH) 0x66 >>= fun _ => (pure true : Ctl Bool))
            { w with timerExpired := rest }
      ∧ (∃ w1, updateGSMSignalling LCH timeout w = .ret true w1
          ∧ w1.trace = w.trace ++ radioClearingEvents w LCH 0x66 ++ sessionClearingEvents w
          ∧ w1.tr.GSMState = GSM.CallState.NullState
          ∧ (w1.tr.SIPState = SIP.SIPState.Cleared
              ∨ Event.sip w.tr.ID SIPOp.MODWaitForOK ∈ sessionClearingEvents w)
          ∧ w1.rx = w.rx)
      ∧ (∀ e ∈ radioClearingEvents w LCH 0x66 ++ sessionClearingEvents w,
          ∀ ch sap t, e ≠ Event.recv ch sap t)
      ∧ (∀ (w0 : World) (f : L3Frame) (frames : List (Option L3Frame)) (msg : L3Message),
          w0.tr.GSMState ≠ GSM.CallState.NullState → w0.timerExpired.headD false = false →
          w0.rx = some f :: frames → f.primitive ≠ GSM.Primitive.ERROR →
          f.parseL3 = some msg → isRelease (some msg) →
          (updateGSMSignalling LCH timeout w0).value = some true) :=
  ⟨updateGSMSignalling_timer_run LCH timeout w rest hs he,
    updateGSMSignalling_timer_expired LCH timeout w rest hs he,
    clearingEvents_no_recv w LCH 0x66,
    fun w0 f frames msg h1 h2 h3 h4 h5 h6 =>
      updateGSMSignalling_release LCH timeout w0 f frames msg h1 h2 h3 h4 h5 h6⟩

/-- Witness of C26: the call of `timerExpiredWorld`: the radio leg is cleared with cause
0x66, the session leg with a BYE, and nothing is read. -/
theorem updateGSMSignalling_timer_expiry_aborts_witness :
    ∃ w1, updateGSMSignalling 5 0 timerExpiredWorld = .ret true w1
      ∧ w1.trace = [.send 5 0 (.L3Disconnect 9 (some 0x66)),
          .send 5 0 (.L3ReleaseComplete 9 none), .send 5 0 .L3ChannelRelease,
          .sendPrimitive 5 0 GSM.Primitive.RELEASE, .sip 1 .MODSendBYE, .sip 1 .MODWaitForOK]
      ∧ w1.tr.GSMState = GSM.CallState.NullState := by
  obtain ⟨w1, h, ht, hg, -⟩ := (updateGSMSignalling_timer_expiry_aborts 5 0 timerExpiredWorld []
    (by decide) rfl).2.1
  exact ⟨w1, h, ht.trans rfl, hg⟩

/-- C27: `updateSignalling` polls the radio leg, hands its result to the poll of the session
leg, and returns the conjunction of the two results. In the session-leg poll, with the session
leg not yet Cleared: when a BYE is reported (MTDCheckBYE gives MTDClearing) and the radio leg
was reported cleared or is clearing, the BYE is acknowledged with MTDSendOK and nothing is sent
to the mobile; when the radio leg is neither, L3Disconnect is sent, timer 305 armed and the
radio leg becomes DisconnectIndication; and an L3Disconnect is among the events of the
session-leg poll only in that last case. -/
theorem updateSignalling_polls_radio_leg_first (LCH timeout : Nat) (GSMCleared : Bool)
    (w : World) :
    updateSignalling LCH timeout
        = (updateGSMSignalling LCH timeout >>= fun GSMCleared =>
            updateSIPSignalling LCH GSMCleared >>= fun SIPCleared =>
              pure (GSMCleared && SIPCleared))
      ∧ (w.tr.SIPState ≠ SIP.SIPState.Cleared →
          w.sip.headD w.tr.SIPState = SIP.SIPState.MTDClearing →
          (GSMCleared || w.clearingGSM w.tr.GSMState) = true →
          updateSIPSignalling LCH GSMCleared w
            = .ret (decide (w.sip.tail.headD SIP.SIPState.MTDClearing = SIP.SIPState.Cleared))
                { w with
                  trace := w.trace ++ [.sip w.tr.ID .MTDCheckBYE, .sip w.tr.ID .MTDSendOK],
                  sip := w.sip.tail.tail,
                  tr := { w.tr with
                    SIPState := w.sip.tail.headD SIP.SIPState.MTDClearing } })
      ∧ (w.tr.SIPState ≠ SIP.SIPState.Cleared →
          w.sip.headD w.tr.SIPState = SIP.SIPState.MTDClearing →
          (GSMCleared || w.clearingGSM w.tr.GSMState) = false →
          updateSIPSignalling LCH GSMCleared w
            = .ret false
                { w with
                  trace := w.trace ++
                    [.sip w.tr.ID .MTDCheckBYE, .send LCH 0 (.L3Disconnect w.tr.L3TI none)],
                  sip := w.sip.tail,
                  tr := { w.tr with
                    timers := "305" :: w.tr.timers.filter (fun t => t ≠ "305"),
                    GSMState := GSM.CallState.DisconnectIndication,
                    SIPState := SIP.SIPState.MTDClearing } })
      ∧ (∀ w1 d ti cause, (updateSIPSignalling LCH GSMCleared w).world = some w1 →
          w1.trace = w.trace ++ d → Event.send LCH 0 (.L3Disconnect ti cause) ∈ d →
          GSMCleared = false ∧ w.clearingGSM w.tr.GSMState = false
            ∧ w.tr.SIPState ≠ SIP.SIPState.Cleared
            ∧ w.sip.headD w.tr.SIPState = SIP.SIPState.MTDClearing)
      ∧ (∀ g w1 s w2, updateGSMSignalling LCH timeout w = .ret g w1 →
          updateSIPSignalling LCH g w1 = .ret s w2 →
          updateSignalling LCH timeout w = .ret (g && s) w2
            ∧ ((g && s) = true ↔ g = true ∧ s = true)) := by
  refine ⟨rfl, updateSIPSignalling_bye_acknowledged LCH GSMCleared w,
    updateSIPSignalling_bye_disconnects LCH GSMCleared w, ?_, ?_⟩
  · intro w1 d ti cause h ht hd
    exact updateSIPSignalling_disconnect_only LCH GSMCleared w w1 d ti cause h ht hd
  · intro g w1 s w2 h1 h2
    refine ⟨?_, by simp⟩
    simp [updateSignalling, bind_apply, pure_apply, h1, h2]

/-- Witness of C27: in `releaseAndByeWorld` the mobile's Release clears the radio leg in the
same iteration in which the session leg reports a BYE: the BYE is acknowledged, no
L3Disconnect is sent, and both polls report cleared; in `byeWorld` only the BYE arrives, and
L3Disconnect is sent. -/
theorem updateSignalling_polls_radio_leg_first_witness :
    (updateSignalling 5 0 releaseAndByeWorld).value = some true
      ∧ (updateSignalling 5 0 releaseAndByeWorld).trace
        = [.recv 5 0 0, .send 5 0 (.L3ReleaseComplete 9 none), .send 5 0 .L3ChannelRelease,
           .sip 1 .MTDSendOK, .sip 1 .MTDCheckBYE, .sip 1 .MTDSendOK]
      ∧ (updateSIPSignalling 5 false byeWorld).trace
        = [.sip 1 .MTDCheckBYE, .send 5 0 (.L3Disconnect 9 none)] := by
  have h := (updateSignalling_polls_radio_leg_first 5 0 false byeWorld).2.2.1 (by decide) rfl rfl
  rw [h]
  exact ⟨rfl, rfl, rfl⟩

/-- C28: in `pollInCall`, when the radio link has not failed, the signalling poll returns
false, and termination has been requested, the call is aborted through `abortCall` with cause
25: the poll returns true with the radio leg in Null, having recorded after the signalling
poll the two force-clears only; nothing it has recorded in the whole invocation is a media
transfer; and one entry of the script of termination requests was used. In every invocation
of `pollInCall`, whatever its course, at most one entry of that script is used. -/
theorem pollInCall_termination_requested (fuel TCH : Nat) (w w1 : World) (rest : List Bool)
    (hrf : w.radioFailure.headD false = false)
    (hsig : updateSignalling TCH 0 { w with radioFailure := w.radioFailure.tail }
      = .ret false w1)
    (hterm : w1.terminationRequested = true :: rest) :
    (∃ w2, pollInCall fuel TCH w = .ret true w2
        ∧ w2.trace = w1.trace ++ radioClearingEvents w1 TCH 25 ++ sessionClearingEvents w1
        ∧ w2.tr.GSMState = GSM.CallState.NullState
        ∧ w2.terminationRequested = rest
        ∧ ∃ d, w2.trace = w.trace ++ d ∧ ∀ e ∈ d, notMedia e)
      ∧ ∀ (fuel0 : Nat) (w0 w3 : World), (pollInCall fuel0 TCH w0).world = some w3 →
          w3.terminationRequested = w0.terminationRequested
            ∨ w3.terminationRequested = w0.terminationRequested.tail := by
  refine ⟨pollInCall_termination_run fuel TCH w w1 rest hrf hsig hterm, ?_⟩
  intro fuel0 w0 w3 h
  have hrun := (examinesOnce_pollInCall fuel0 TCH).run w0
  revert hrun h
  cases pollInCall fuel0 TCH w0 with
  | ret b w4 =>
    intro h hrun
    simp only [Outcome.world, Option.some.injEq] at h
    subst h
    exact hrun
  | raised e w4 =>
    intro h hrun
    simp only [Outcome.world, Option.some.injEq] at h
    subst h
    exact hrun
  | outOfFuel =>
    intro h _
    simp [Outcome.world] at h

/-- Witness of C28: the call of `terminationWorld`: after the two polls, which find nothing,
the call is cleared with cause 25. -/
theorem pollInCall_termination_requested_witness :
    ∃ w2, pollInCall 3 5 terminationWorld = .ret true w2
      ∧ w2.trace = [.recv 5 0 0, .sip 1 .MTDCheckBYE, .send 5 0 (.L3Disconnect 9 (some 25)),
          .send 5 0 (.L3ReleaseComplete 9 none), .send 5 0 .L3ChannelRelease,
          .sendPrimitive 5 0 GSM.Primitive.RELEASE, .sip 1 .MODSendBYE, .sip 1 .MODWaitForOK]
      ∧ w2.terminationRequested = [] := by
  obtain ⟨w2, h, ht, -, hr, -⟩ := (pollInCall_termination_requested 3 5 terminationWorld
    (finalWorld terminationWorld (updateSignalling 5 0 terminationWorld)) [] rfl rfl rfl).1
  exact ⟨w2, h, ht.trans rfl, hr⟩

/-- C30: `MOSMSController` is its steps up to the check of the first frame followed by
`MOSMSController.steps2to4`; and for every CP-DATA frame, channel and world,
`InCallMOSMSController` and those steps 2 to 4 agree but for the channel release: both return,
with the same events except that only the stand-alone run sends L3ChannelRelease before the
removal of the record, or both raise a condition of the same kind in the same world. Hence
the events on service access point 3, the record with its stored L3TI, the table, the
removals and the kind of the raised condition are the same. -/
theorem InCallMOSMSController_as_MOSMSController_steps (cm : L3Frame) (LCH : Nat) (w : World) :
    (∀ serviceType mobileID,
        MOSMSController serviceType mobileID LCH = (do
          assert (decide (serviceType = GSM.L3CMServiceType.ShortMessage))
          emit (.resolveIMSI LCH)
          newTransactionEntrySMS mobileID LCH
          let id ← transaction.ID
          gTransactionTable.add id
          LogicalChannel.send LCH .L3CMServiceAccept 0
          let _ ← getFrameSMS LCH GSM.Primitive.ESTABLISH
          let CM ← getFrameSMS LCH GSM.Primitive.DATA
          if CM.MTI ≠ SMS.CPMessageType.DATA then raise (.UnexpectedMessage none)
          else MOSMSController.steps2to4 CM LCH))
      ∧ AgreeButRelease LCH w (InCallMOSMSController cm LCH w)
          (MOSMSController.steps2to4 cm LCH w)
      ∧ sap3 (InCallMOSMSController cm LCH w).trace
          = sap3 (MOSMSController.steps2to4 cm LCH w).trace
      ∧ (∃ w1 w2, (InCallMOSMSController cm LCH w).world = some w1
          ∧ (MOSMSController.steps2to4 cm LCH w).world = some w2
          ∧ w1.tr = w2.tr ∧ w1.table = w2.table ∧ w1.rx = w2.rx ∧ w1.sip = w2.sip)
      ∧ removals (InCallMOSMSController cm LCH w).trace
          = removals (MOSMSController.steps2to4 cm LCH w).trace
      ∧ (InCallMOSMSController cm LCH w).exception.map conditionKind
          = (MOSMSController.steps2to4 cm LCH w).exception.map conditionKind
      ∧ (InCallMOSMSController cm LCH w).value = (MOSMSController.steps2to4 cm LCH w).value
      ∧ Event.send LCH 0 .L3ChannelRelease ∉ sap3 (MOSMSController.steps2to4 cm LCH w).trace := by
  have h := InCallMOSMSController_agrees cm LCH w
  obtain ⟨h1, h2, h3, h4, h5⟩ := AgreeButRelease_same LCH w _ _ h
  refine ⟨fun serviceType mobileID => MOSMSController_steps serviceType mobileID LCH, h, h1, h2,
    h3, h4, h5, ?_⟩
  simp [sap3]

/-- Witness of C30: the submission of `inCallSubmitWorld`, where the final CP-ACK never
arrives: on service access point 3 both controllers send CP-ACK and the RP-ACK with reference
42 and make the read that times out. -/
theorem InCallMOSMSController_as_MOSMSController_steps_witness :
    sap3 (InCallMOSMSController (smsFrame SMS.CPMessageType.DATA (SMS.Parsed.ok helloRPDU)) 5
        inCallSubmitWorld).trace
      = [.send 5 3 (.CPAck 9), .send 5 3 (.CPData 9 (.RPAck 42)), .recv 5 3 20000]
      ∧ sap3 (MOSMSController.steps2to4
          (smsFrame SMS.CPMessageType.DATA (SMS.Parsed.ok helloRPDU)) 5 inCallSubmitWorld).trace
        = [.send 5 3 (.CPAck 9), .send 5 3 (.CPData 9 (.RPAck 42)), .recv 5 3 20000] := by
  have h := (InCallMOSMSController_as_MOSMSController_steps
    (smsFrame SMS.CPMessageType.DATA (SMS.Parsed.ok helloRPDU)) 5 inCallSubmitWorld).2.2.1
  have h1 : sap3 (InCallMOSMSController (smsFrame SMS.CPMessageType.DATA
      (SMS.Parsed.ok helloRPDU)) 5 inCallSubmitWorld).trace
      = [.send 5 3 (.CPAck 9), .send 5 3 (.CPData 9 (.RPAck 42)), .recv 5 3 20000] := by
    decide
  exact ⟨h1, h ▸ h1⟩

end OpenBTS
